import Mathlib

/-!
Verification of the lancedb-go native boundary layer (src/rust/src).

The development shallowly embeds the Rust sources:
  * ffi.rs        : the Result Envelope (SimpleResult) and C-string helpers;
  * conversion.rs : JSON <-> Arrow record-batch marshalling;
  * schema.rs     : the logical data-type vocabulary;
  * the operation facade (connection.rs, table.rs, data.rs, database.rs,
    query.rs, index.rs, metadata.rs): each boundary entry point is modelled as
    a pure function of an explicit environment (pointer nullness, C-string
    contents, engine-call outcomes) and of the pre-call contents of its
    out-parameter cells.

Machine integers are modelled as Int with explicit range conditions where the
source checks ranges.  Floating-point payloads are modelled by Rat: the exact
rational value of the finite float.  The one float operation the sources use
besides injection f32 -> f64 (exact) is the cast f64 -> f32; see f64_as_f32.
Panics are modelled by Except Unit: Except.error () is an uncaught panic at
that point of the computation.
-/

namespace LanceDB

/-- Bytes of a Rust String are modelled by a Lean String; this predicate models
the condition under which CString::new fails: the message holds an interior NUL
byte. -/
def hasInteriorNul (s : String) : Bool :=
  s.toList.any (fun c => c = Char.ofNat 0)

/-- Model of ffi.rs SimpleResult.  The C error_message pointer is modelled as
Option String: none is the null pointer, some s a heap string with contents s. -/
structure SimpleResult where
  success : Bool
  error_message : Option String
deriving DecidableEq, Repr

/-- Model of SimpleResult::ok. -/
def SimpleResult.ok : SimpleResult :=
  { success := true, error_message := none }

/-- Model of SimpleResult::error: CString::new(msg) fails exactly when msg has
an interior NUL, in which case the fixed sentinel text is used instead
(unwrap_or_else in ffi.rs line 27). -/
def SimpleResult.error (msg : String) : SimpleResult :=
  { success := false
    error_message := some (if hasInteriorNul msg then "Invalid error message" else msg) }

/-- Model of what a non-null *const c_char points to: either a valid UTF-8
string or bytes that are not valid UTF-8. -/
inductive CStr where
  | valid (s : String)
  | invalid
deriving DecidableEq, Repr

/-- Model of ffi.rs from_c_str.  The argument is Option CStr: none models the
null pointer.  The text of the UTF-8 decoding error is abstracted (no theorem
depends on it). -/
def from_c_str : Option CStr → Except String String
  | none => Except.error "Null pointer"
  | some (CStr.valid s) => Except.ok s
  | some CStr.invalid => Except.error "invalid utf-8 sequence"

/-! ## JSON value model (serde_json::Value) -/

/-- Model of serde_json::Number: an integer (stored as i64 or u64) or a finite
double.  The rational is the exact value of the finite f64. -/
inductive JsonNumber where
  | int (i : Int)
  | float (q : Rat)
deriving DecidableEq, Repr

/-- Model of serde_json::Value. -/
inductive Json where
  | null
  | bool (b : Bool)
  | num (n : JsonNumber)
  | str (s : String)
  | arr (elems : List Json)
  | obj (entries : List (String × Json))
deriving Repr

/-- First entry with the given key (serde maps hold each key once). -/
def lookupEntry : List (String × Json) → String → Option Json
  | [], _ => none
  | (k, v) :: rest, key => if k = key then some v else lookupEntry rest key

/-- Model of serde_json Value::get: a key lookup that yields none on any
non-object value. -/
def Json.get : Json → String → Option Json
  | Json.obj entries, key => lookupEntry entries key
  | _, _ => none

/-- Model of serde_json Number::as_i64: some exactly when the number is an
integer representable in i64. -/
def JsonNumber.as_i64 : JsonNumber → Option Int
  | JsonNumber.int i => if -(2 ^ 63) ≤ i ∧ i ≤ 2 ^ 63 - 1 then some i else none
  | JsonNumber.float _ => none

/-- Model of serde_json Number::as_f64: always succeeds.  On integers the Rust
code performs the cast i64/u64 -> f64, which is exact for the magnitudes any
theorem below evaluates; the model keeps the exact value. -/
def JsonNumber.as_f64 : JsonNumber → Option Rat
  | JsonNumber.int i => some (i : Rat)
  | JsonNumber.float q => some q

/-- Model of serde_json Value::as_f64 (used for vector elements). -/
def Json.as_f64 : Json → Option Rat
  | Json.num n => JsonNumber.as_f64 n
  | _ => none

/-- Model of the Rust cast expression f as f32 (f: f64).  Every value this
development feeds to the cast is already exactly representable as an f32 (it is
produced by convert_arrow_value_to_json from an f32 column, or only the success
of the conversion is at stake, never the stored value), and on such values the
IEEE-754 cast is exact; the model therefore keeps the value. -/
def f64_as_f32 (q : Rat) : Rat := q

/-! ## Arrow model (arrow_schema / arrow_array as used by conversion.rs) -/

/-- Model of the arrow DataType values constructible by this repository
(schema.rs create_arrow_schema_from_json and the engine schemas the decode and
encode paths dispatch on).  A fixed-size list carries its item field inline
(name, item type, item nullability) plus the declared element count, an i32. -/
inductive DataType where
  | int8
  | int16
  | int32
  | int64
  | float16
  | float32
  | float64
  | boolean
  | utf8
  | binary
  | fixedSizeList (itemName : String) (itemType : DataType) (itemNullable : Bool) (size : Int)
deriving DecidableEq, Repr

/-- Model of an arrow schema field. -/
structure Field where
  name : String
  dataType : DataType
  nullable : Bool
deriving DecidableEq, Repr

/-- Model of an arrow schema: the ordered field sequence. -/
structure Schema where
  fields : List Field
deriving DecidableEq, Repr

/-- Rust Debug rendering of a DataType, used only inside the text of the
Unsupported data type errors of conversion.rs.  Exact for the scalar types; for
a fixed-size list the field metadata Debug output is abbreviated, which no
theorem below inspects. -/
def DataType.debugStr : DataType → String
  | DataType.int8 => "Int8"
  | DataType.int16 => "Int16"
  | DataType.int32 => "Int32"
  | DataType.int64 => "Int64"
  | DataType.float16 => "Float16"
  | DataType.float32 => "Float32"
  | DataType.float64 => "Float64"
  | DataType.boolean => "Boolean"
  | DataType.utf8 => "Utf8"
  | DataType.binary => "Binary"
  | DataType.fixedSizeList nm t nb sz =>
      "FixedSizeList(Field \x7b name: \"" ++ nm ++ "\", data_type: " ++ t.debugStr ++
        ", nullable: " ++ (if nb then "true" else "false") ++ " \x7d, " ++ toString sz ++ ")"

/-- Cast of an i32 value to usize, as in the Rust expression list_size as usize
(negative values wrap modulo 2^64). -/
def usizeOfI32 (i : Int) : Nat := (i % (2 : Int) ^ 64).toNat

/-- Cast of a usize value to c_int, as in the Rust expression len as c_int. -/
def c_int_of_usize (n : Nat) : Int :=
  if (n % 2 ^ 32 : Nat) < 2 ^ 31 then (n % 2 ^ 32 : Nat) else (n % 2 ^ 32 : Nat) - 2 ^ 32

/-- Model of the arrow column arrays conversion.rs builds or reads.  Primitive
and string columns are value lists with none at null slots.  A fixed-size-list
column carries its item field, declared size, flattened child array and
optional list-level null buffer (none models an absent buffer; in a present
buffer, true marks a null row). -/
inductive Column where
  | int32Col (vals : List (Option Int))
  | int64Col (vals : List (Option Int))
  | float32Col (vals : List (Option Rat))
  | float64Col (vals : List (Option Rat))
  | boolCol (vals : List (Option Bool))
  | utf8Col (vals : List (Option String))
  | fslCol (itemName : String) (itemType : DataType) (itemNullable : Bool)
      (size : Int) (child : Column) (nulls : Option (List Bool))
deriving DecidableEq, Repr

/-- DataType of a column (arrow Array::data_type). -/
def Column.dataType : Column → DataType
  | Column.int32Col _ => DataType.int32
  | Column.int64Col _ => DataType.int64
  | Column.float32Col _ => DataType.float32
  | Column.float64Col _ => DataType.float64
  | Column.boolCol _ => DataType.boolean
  | Column.utf8Col _ => DataType.utf8
  | Column.fslCol nm t nb sz _ _ => DataType.fixedSizeList nm t nb sz

/-- Logical length of a column (arrow Array::len).  A fixed-size-list array
stores len = values.len() / size.max(1), fixed at construction. -/
def Column.length : Column → Nat
  | Column.int32Col vals => vals.length
  | Column.int64Col vals => vals.length
  | Column.float32Col vals => vals.length
  | Column.float64Col vals => vals.length
  | Column.boolCol vals => vals.length
  | Column.utf8Col vals => vals.length
  | Column.fslCol _ _ _ sz child _ => child.length / max sz.toNat 1

/-- Number of top-level nulls of a column (arrow Array::null_count). -/
def Column.nullCount : Column → Nat
  | Column.int32Col vals => (vals.filter Option.isNone).length
  | Column.int64Col vals => (vals.filter Option.isNone).length
  | Column.float32Col vals => (vals.filter Option.isNone).length
  | Column.float64Col vals => (vals.filter Option.isNone).length
  | Column.boolCol vals => (vals.filter Option.isNone).length
  | Column.utf8Col vals => (vals.filter Option.isNone).length
  | Column.fslCol _ _ _ _ _ nulls =>
      match nulls with
      | none => 0
      | some bs => (bs.filter (fun b => b)).length

/-- Model of arrow Array::is_null at a row index. -/
def Column.isNullAt : Column → Nat → Bool
  | Column.int32Col vals, i => (vals.getD i (some 0)).isNone
  | Column.int64Col vals, i => (vals.getD i (some 0)).isNone
  | Column.float32Col vals, i => (vals.getD i (some 0)).isNone
  | Column.float64Col vals, i => (vals.getD i (some 0)).isNone
  | Column.boolCol vals, i => (vals.getD i (some false)).isNone
  | Column.utf8Col vals, i => (vals.getD i (some "")).isNone
  | Column.fslCol _ _ _ _ _ nulls, i =>
      match nulls with
      | none => false
      | some bs => bs.getD i false

/-! ## Decode direction: conversion.rs json_to_record_batch -/

/-- Short-circuiting collection of per-row results, the model of the Rust
iterator collect into Result of Vec: the first Err aborts. -/
def traverseE (g : α → Except String β) : List α → Except String (List β)
  | [] => Except.ok []
  | a :: rest =>
      match g a with
      | Except.error e => Except.error e
      | Except.ok b =>
          match traverseE g rest with
          | Except.error e => Except.error e
          | Except.ok bs => Except.ok (b :: bs)

/-- Per-row decode of an Int32 field (conversion.rs lines 25-55).  Arm order
follows the source: number, then null on a nullable field, then absent key on a
nullable field, then the value-of-other-type arm, then the missing-field arm. -/
def int32Cell (f : Field) (row : Json) : Except String (Option Int) :=
  match row.get f.name with
  | some (Json.num n) =>
      match n.as_i64 with
      | some i =>
          if -2147483648 ≤ i ∧ i ≤ 2147483647 then Except.ok (some i)
          else Except.error ("Number " ++ toString i ++ " out of range for i32 in field " ++ f.name)
      | none => Except.error ("Invalid number format in field " ++ f.name)
  | some Json.null =>
      if f.nullable then Except.ok none
      else Except.error ("Expected number for field " ++ f.name ++ " but got different type")
  | none =>
      if f.nullable then Except.ok none
      else Except.error ("Missing required field " ++ f.name)
  | some _ => Except.error ("Expected number for field " ++ f.name ++ " but got different type")

/-- Per-row decode of an Int64 field (conversion.rs lines 56-79). -/
def int64Cell (f : Field) (row : Json) : Except String (Option Int) :=
  match row.get f.name with
  | some (Json.num n) =>
      match n.as_i64 with
      | some i => Except.ok (some i)
      | none => Except.error ("Invalid number format in field " ++ f.name)
  | some Json.null =>
      if f.nullable then Except.ok none
      else Except.error ("Expected number for field " ++ f.name ++ " but got different type")
  | none =>
      if f.nullable then Except.ok none
      else Except.error ("Missing required field " ++ f.name)
  | some _ => Except.error ("Expected number for field " ++ f.name ++ " but got different type")

/-- Per-row decode of a Float32 field (conversion.rs lines 80-103). -/
def float32Cell (f : Field) (row : Json) : Except String (Option Rat) :=
  match row.get f.name with
  | some (Json.num n) =>
      match n.as_f64 with
      | some q => Except.ok (some (f64_as_f32 q))
      | none => Except.error ("Invalid number format in field " ++ f.name)
  | some Json.null =>
      if f.nullable then Except.ok none
      else Except.error ("Expected number for field " ++ f.name ++ " but got different type")
  | none =>
      if f.nullable then Except.ok none
      else Except.error ("Missing required field " ++ f.name)
  | some _ => Except.error ("Expected number for field " ++ f.name ++ " but got different type")

/-- Per-row decode of a Float64 field (conversion.rs lines 104-127). -/
def float64Cell (f : Field) (row : Json) : Except String (Option Rat) :=
  match row.get f.name with
  | some (Json.num n) =>
      match n.as_f64 with
      | some q => Except.ok (some q)
      | none => Except.error ("Invalid number format in field " ++ f.name)
  | some Json.null =>
      if f.nullable then Except.ok none
      else Except.error ("Expected number for field " ++ f.name ++ " but got different type")
  | none =>
      if f.nullable then Except.ok none
      else Except.error ("Missing required field " ++ f.name)
  | some _ => Except.error ("Expected number for field " ++ f.name ++ " but got different type")

/-- Per-row decode of a Boolean field (conversion.rs lines 128-145). -/
def booleanCell (f : Field) (row : Json) : Except String (Option Bool) :=
  match row.get f.name with
  | some (Json.bool b) => Except.ok (some b)
  | some Json.null =>
      if f.nullable then Except.ok none
      else Except.error ("Expected boolean for field " ++ f.name ++ " but got different type")
  | none =>
      if f.nullable then Except.ok none
      else Except.error ("Missing required field " ++ f.name)
  | some _ => Except.error ("Expected boolean for field " ++ f.name ++ " but got different type")

/-- Per-row decode of a Utf8 field (conversion.rs lines 146-163). -/
def utf8Cell (f : Field) (row : Json) : Except String (Option String) :=
  match row.get f.name with
  | some (Json.str s) => Except.ok (some s)
  | some Json.null =>
      if f.nullable then Except.ok none
      else Except.error ("Expected string for field " ++ f.name ++ " but got different type")
  | none =>
      if f.nullable then Except.ok none
      else Except.error ("Missing required field " ++ f.name)
  | some _ => Except.error ("Expected string for field " ++ f.name ++ " but got different type")

/-- Per-row decode of a FixedSizeList-of-Float32 field (conversion.rs lines
168-200): a JSON array must have exactly list_size elements, each a number. -/
def vectorCell (f : Field) (size : Int) (row : Json) : Except String (Option (List Rat)) :=
  match row.get f.name with
  | some (Json.arr elems) =>
      if elems.length ≠ usizeOfI32 size then
        Except.error ("Vector field " ++ f.name ++ " expects " ++ toString size ++
          " elements but got " ++ toString elems.length)
      else
        match traverseE (fun v =>
            match v.as_f64 with
            | some q => Except.ok (f64_as_f32 q)
            | none => Except.error ("Invalid vector element in field " ++ f.name)) elems with
        | Except.error e => Except.error e
        | Except.ok vs => Except.ok (some vs)
  | some Json.null =>
      if f.nullable then Except.ok none
      else Except.error ("Expected array for vector field " ++ f.name ++ " but got different type")
  | none =>
      if f.nullable then Except.ok none
      else Except.error ("Missing required field " ++ f.name)
  | some _ => Except.error ("Expected array for vector field " ++ f.name ++ " but got different type")

/-- Flattening of the per-row vectors into the child array values, the model of
conversion.rs lines 202-208: a null row contributes list_size null slots. -/
def flattenVectors (size : Int) : List (Option (List Rat)) → List (Option Rat)
  | [] => []
  | some v :: rest => v.map some ++ flattenVectors size rest
  | none :: rest => List.replicate size.toNat none ++ flattenVectors size rest

/-- Model of arrow FixedSizeListArray::new (conversion.rs line 211), which
asserts the arrow invariants and panics when they fail: a negative size, an
item/child type mismatch, a null-buffer length mismatch, or unmasked child
nulls under a non-nullable item field. -/
def fsl_new (itemName : String) (itemType : DataType) (itemNullable : Bool) (size : Int)
    (child : Column) (nulls : Option (List Bool)) : Except Unit Column :=
  if size < 0 then Except.error ()
  else if itemType ≠ child.dataType then Except.error ()
  else if (match nulls with
           | some bs => decide (bs.length ≠ child.length / max size.toNat 1)
           | none => false) then Except.error ()
  else if ¬itemNullable ∧ child.nullCount ≠ 0 then Except.error ()
  else Except.ok (Column.fslCol itemName itemType itemNullable size child nulls)

/-- Decode of one schema field over all rows: one match arm of the loop body of
json_to_record_batch (conversion.rs lines 24-220).  The outer Except Unit is
the panic layer; the inner Except String the error value of the Rust function. -/
def decodeColumn (json_values : List Json) (f : Field) : Except Unit (Except String Column) :=
  match f.dataType with
  | DataType.int32 => Except.ok ((traverseE (int32Cell f) json_values).map Column.int32Col)
  | DataType.int64 => Except.ok ((traverseE (int64Cell f) json_values).map Column.int64Col)
  | DataType.float32 => Except.ok ((traverseE (float32Cell f) json_values).map Column.float32Col)
  | DataType.float64 => Except.ok ((traverseE (float64Cell f) json_values).map Column.float64Col)
  | DataType.boolean => Except.ok ((traverseE (booleanCell f) json_values).map Column.boolCol)
  | DataType.utf8 => Except.ok ((traverseE (utf8Cell f) json_values).map Column.utf8Col)
  | DataType.fixedSizeList itemName itemType itemNullable size =>
      if itemType = DataType.float32 then
        match traverseE (vectorCell f size) json_values with
        | Except.error e => Except.ok (Except.error e)
        | Except.ok vecs =>
            match fsl_new itemName itemType itemNullable size
                (Column.float32Col (flattenVectors size vecs)) none with
            | Except.error () => Except.error ()
            | Except.ok col => Except.ok (Except.ok col)
      else Except.ok (Except.error ("Unsupported data type: " ++ (DataType.fixedSizeList itemName itemType itemNullable size).debugStr))
  | dt => Except.ok (Except.error ("Unsupported data type: " ++ dt.debugStr))

/-- The field loop of json_to_record_batch: columns are built field by field in
schema order; the first error or panic aborts the loop. -/
def decodeColumns (json_values : List Json) : List Field → Except Unit (Except String (List Column))
  | [] => Except.ok (Except.ok [])
  | f :: rest =>
      match decodeColumn json_values f with
      | Except.error () => Except.error ()
      | Except.ok (Except.error e) => Except.ok (Except.error e)
      | Except.ok (Except.ok col) =>
          match decodeColumns json_values rest with
          | Except.error () => Except.error ()
          | Except.ok (Except.error e) => Except.ok (Except.error e)
          | Except.ok (Except.ok cols) => Except.ok (Except.ok (col :: cols))

/-- Model of an arrow RecordBatch: the schema plus one column per field. -/
structure RecordBatch where
  schema : Schema
  columns : List Column
deriving DecidableEq, Repr

/-- Row count of a record batch: fixed at construction from the first column. -/
def RecordBatch.numRows (b : RecordBatch) : Nat :=
  (b.columns.head?.map Column.length).getD 0

/-- Per-column checks of RecordBatch::try_new: a column holding nulls needs a
nullable field, and column types must equal the schema types.  The error texts
abbreviate the arrow messages; no theorem inspects them. -/
def columnsMatchFields : List Field → List Column → Except String Unit
  | [], _ => Except.ok ()
  | _, [] => Except.ok ()
  | f :: fs, c :: cs =>
      if ¬f.nullable ∧ c.nullCount ≠ 0 then
        Except.error ("Column " ++ f.name ++ " is declared as non-nullable but contains null values")
      else if f.dataType ≠ c.dataType then
        Except.error "column types must match schema types"
      else columnsMatchFields fs cs

/-- Model of arrow RecordBatch::try_new (conversion.rs line 223): checks the
column count against the schema, requires at least one column to fix the row
count, requires equal column lengths, then the per-column checks. -/
def RecordBatch.try_new (schema : Schema) (columns : List Column) : Except String RecordBatch :=
  if schema.fields.length ≠ columns.length then
    Except.error "number of columns must match number of fields"
  else
    match columns.head? with
    | none => Except.error "must either specify a row count or at least one column"
    | some c0 =>
        if columns.any (fun c => c.length ≠ c0.length) then
          Except.error "columns have different lengths"
        else
          match columnsMatchFields schema.fields columns with
          | Except.error e => Except.error e
          | Except.ok () => Except.ok { schema := schema, columns := columns }

/-- Model of conversion.rs json_to_record_batch.  The outer Except Unit is the
panic layer (an arrow constructor assertion); the inner Except String is the
Result the Rust function returns. -/
def json_to_record_batch (json_values : List Json) (schema : Schema) :
    Except Unit (Except String RecordBatch) :=
  match decodeColumns json_values schema.fields with
  | Except.error () => Except.error ()
  | Except.ok (Except.error e) => Except.ok (Except.error e)
  | Except.ok (Except.ok cols) =>
      Except.ok
        (match RecordBatch.try_new schema cols with
         | Except.ok b => Except.ok b
         | Except.error e => Except.error ("Failed to create RecordBatch: " ++ e))

/-! ## Encode direction: conversion.rs convert_arrow_value_to_json and the row
objects built by query.rs lines 166-184 -/

/-- Value read from a primitive column slot (arrow typed_array.value): the
default is returned only at slots the callers never read (null or out of
range). -/
def cellGetD (vals : List (Option α)) (i : Nat) (dflt : α) : α :=
  (vals.getD i none).getD dflt

/-- The element loop of the fixed-size-list arm of
convert_arrow_value_to_json (conversion.rs lines 295-298): encode count child
slots starting at index start, with the child encoder passed as a function so
that the column recursion stays structural. -/
def convertRange (g : Nat → Except String Json) (start : Nat) : Nat → Except String (List Json)
  | 0 => Except.ok []
  | Nat.succ k =>
      match g start with
      | Except.error e => Except.error e
      | Except.ok v =>
          match convertRange g (start + 1) k with
          | Except.error e => Except.error e
          | Except.ok vs => Except.ok (v :: vs)

/-- Model of conversion.rs convert_arrow_value_to_json: a null slot maps to
JSON null before any type dispatch (the source hoists this check above the
match; here it sits at the head of every arm, which is the same function);
a fixed-size-list slot maps to the array of the recursively encoded child
slice.  The DataType::List arm and the unsupported-type string fallback of the
source concern column shapes this model does not construct and are omitted. -/
def convert_arrow_value_to_json : Column → Nat → Except String Json
  | Column.int32Col vals => fun row_idx =>
      if (Column.int32Col vals).isNullAt row_idx then Except.ok Json.null
      else Except.ok (Json.num (JsonNumber.int (cellGetD vals row_idx 0)))
  | Column.int64Col vals => fun row_idx =>
      if (Column.int64Col vals).isNullAt row_idx then Except.ok Json.null
      else Except.ok (Json.num (JsonNumber.int (cellGetD vals row_idx 0)))
  | Column.float32Col vals => fun row_idx =>
      if (Column.float32Col vals).isNullAt row_idx then Except.ok Json.null
      else Except.ok (Json.num (JsonNumber.float (cellGetD vals row_idx 0)))
  | Column.float64Col vals => fun row_idx =>
      if (Column.float64Col vals).isNullAt row_idx then Except.ok Json.null
      else Except.ok (Json.num (JsonNumber.float (cellGetD vals row_idx 0)))
  | Column.boolCol vals => fun row_idx =>
      if (Column.boolCol vals).isNullAt row_idx then Except.ok Json.null
      else Except.ok (Json.bool (cellGetD vals row_idx false))
  | Column.utf8Col vals => fun row_idx =>
      if (Column.utf8Col vals).isNullAt row_idx then Except.ok Json.null
      else Except.ok (Json.str (cellGetD vals row_idx ""))
  | Column.fslCol nm t nb size child nulls => fun row_idx =>
      if (Column.fslCol nm t nb size child nulls).isNullAt row_idx then Except.ok Json.null
      else
        match convertRange (convert_arrow_value_to_json child)
            (row_idx * usizeOfI32 size) (usizeOfI32 size) with
        | Except.error e => Except.error e
        | Except.ok elems => Except.ok (Json.arr elems)

/-- Key insert with overwrite, the model of serde_json Map::insert (the key
order of the model is insertion order rather than the sorted order of the
BTreeMap, which only key lookups observe and they are order-insensitive). -/
def objInsert : List (String × Json) → String → Json → List (String × Json)
  | [], key, v => [(key, v)]
  | (k0, v0) :: rest, key, v =>
      if k0 = key then (k0, v) :: rest else (k0, v0) :: objInsert rest key v

/-- One row object as built by the field loop of query.rs lines 170-182: for
each schema field in order, insert the encoded cell, with an encode error
degraded to JSON null. -/
def encodeRowEntries (fields : List Field) (cols : List Column) (row_idx : Nat) :
    List (String × Json) :=
  (List.zip fields cols).foldl
    (fun acc fc =>
      objInsert acc fc.1.name
        (match convert_arrow_value_to_json fc.2 row_idx with
         | Except.ok v => v
         | Except.error _ => Json.null))
    []

/-- The row objects built from a record batch by query.rs lines 166-184. -/
def encode_rows (b : RecordBatch) : List Json :=
  (List.range b.numRows).map (fun r => Json.obj (encodeRowEntries b.schema.fields b.columns r))

/-! ## Claim C5: the logical type set the decode direction accepts -/

/-- Logical types the decode match of json_to_record_batch actually handles:
the guard of the fixed-size-list arm additionally requires a Float32 item, and
the size bounds record that a usable vector field has a positive element count
representable as i32. -/
def decodeSupported : DataType → Bool
  | DataType.int32 => true
  | DataType.int64 => true
  | DataType.float32 => true
  | DataType.float64 => true
  | DataType.boolean => true
  | DataType.utf8 => true
  | DataType.fixedSizeList _ t _ size =>
      decide (t = DataType.float32) && decide (1 ≤ size) && decide (size ≤ 2147483647)
  | _ => false

/-- A row value matches a schema field when the decode arm for the declared
type converts it without error: right JSON shape, integer width respected, and
for a vector field an array of exactly the declared length whose elements are
numbers.  A null or missing value matches a nullable non-vector field; for a
vector field the match requires the array to be present (see C4: a null vector
cell is not decoded to a null). -/
def cellMatches (f : Field) (row : Json) : Bool :=
  match f.dataType, row.get f.name with
  | DataType.int32, some (Json.num n) =>
      match n.as_i64 with
      | some i => decide (-2147483648 ≤ i ∧ i ≤ 2147483647)
      | none => false
  | DataType.int64, some (Json.num n) => n.as_i64.isSome
  | DataType.float32, some (Json.num _) => true
  | DataType.float64, some (Json.num _) => true
  | DataType.boolean, some (Json.bool _) => true
  | DataType.utf8, some (Json.str _) => true
  | DataType.fixedSizeList _ _ _ size, some (Json.arr elems) =>
      decide (elems.length = usizeOfI32 size) && elems.all (fun v => v.as_f64.isSome)
  | DataType.fixedSizeList _ _ _ _, _ => false
  | _, some Json.null => f.nullable
  | _, none => f.nullable
  | _, _ => false

/-! ## Claim C4: null handling of the decode direction -/

/-- The six non-vector logical types the decode dispatch handles. -/
def primSupported : DataType → Bool
  | DataType.int32 => true
  | DataType.int64 => true
  | DataType.float32 => true
  | DataType.float64 => true
  | DataType.boolean => true
  | DataType.utf8 => true
  | _ => false

/-! ## Claim C7: JSON round trip.  Infrastructure about the encoded row
objects: with pairwise distinct field names the insert loop of query.rs yields
an association list whose lookup at a field name is the encoded cell of the
matching column. -/

/-- Encoded cell of a column at a row, as placed into the row object by
query.rs lines 175-179: an encode error degrades to JSON null. -/
def encVal (c : Column) (r : Nat) : Json :=
  match convert_arrow_value_to_json c r with
  | Except.ok v => v
  | Except.error _ => Json.null

/-- Per-column side conditions under which the JSON round trip restores the
column exactly: machine-integer values in range, and vector columns carrying no
list-level null buffer and no child nulls (conversion.rs line 215 never
produces a null buffer, so nulls there cannot round-trip; see C4). -/
def colRoundtripOk (n : Nat) : Column → Bool
  | Column.int32Col vs =>
      decide (vs.length = n) && vs.all (fun ov =>
        match ov with
        | some v => decide (-2147483648 ≤ v ∧ v ≤ 2147483647)
        | none => true)
  | Column.int64Col vs =>
      decide (vs.length = n) && vs.all (fun ov =>
        match ov with
        | some v => decide (-(2 ^ 63) ≤ v ∧ v ≤ 2 ^ 63 - 1)
        | none => true)
  | Column.float32Col vs => decide (vs.length = n)
  | Column.float64Col vs => decide (vs.length = n)
  | Column.boolCol vs => decide (vs.length = n)
  | Column.utf8Col vs => decide (vs.length = n)
  | Column.fslCol _ t _ size child nulls =>
      decide (t = DataType.float32) && decide (1 ≤ size) && decide (size ≤ 2147483647) &&
        (match nulls with
         | none => true
         | some _ => false) &&
        (match child with
         | Column.float32Col ws => decide (ws.length = size.toNat * n) && ws.all Option.isSome
         | _ => false)

/-- Batch with a null vector cell used to refute the unrestricted round-trip
claim: its schema is the nullable vector field with a nullable item. -/
def batch7 : RecordBatch :=
  ⟨⟨[⟨"v", DataType.fixedSizeList "item" DataType.float32 true 2, true⟩]⟩,
   [Column.fslCol "item" DataType.float32 true 2
      (Column.float32Col [some (1/2), some (1/2)]) (some [true])]⟩

/-- What the decode direction actually rebuilds from the encoding of batch7:
the null vector cell comes back as a present cell of null elements, with no
list-level null buffer. -/
def batch7decoded : RecordBatch :=
  ⟨⟨[⟨"v", DataType.fixedSizeList "item" DataType.float32 true 2, true⟩]⟩,
   [Column.fslCol "item" DataType.float32 true 2
      (Column.float32Col [none, none]) none]⟩

/-- Concrete batch exercising every supported shape for the round-trip
witness. -/
def batch7w : RecordBatch :=
  ⟨⟨[⟨"a", DataType.int32, false⟩,
     ⟨"b", DataType.int64, true⟩,
     ⟨"c", DataType.float32, true⟩,
     ⟨"d", DataType.float64, false⟩,
     ⟨"e", DataType.boolean, true⟩,
     ⟨"f", DataType.utf8, false⟩,
     ⟨"g", DataType.fixedSizeList "item" DataType.float32 false 2, false⟩]⟩,
   [Column.int32Col [some 3, some (-7)],
    Column.int64Col [some 5000000000, none],
    Column.float32Col [none, some (1/2)],
    Column.float64Col [some (22/7), some 0],
    Column.boolCol [some true, none],
    Column.utf8Col [some "hi", some ""],
    Column.fslCol "item" DataType.float32 false 2
      (Column.float32Col [some 1, some 2, some (3/2), some 4]) none]⟩

/-! ## Operation facade (connection.rs, table.rs, data.rs, database.rs,
query.rs, index.rs, metadata.rs)

Each boundary entry point is modelled as a pure function of an environment
(the nullness of each pointer argument, the bytes behind each C string, and
the outcome of each engine call run through the Runtime Bridge) and of the
pre-call contents of its out-parameter cells.  The engine is the out-of-scope
collaborator of spec section 1, so each block_on engine call is an
environment-provided outcome; JSON text parsing is likewise a library
primitive and its result is environment-provided.  engineCalls counts the
block_on round trips actually executed.  The catch_unwind barrier is runOp:
a body returning Except.error () models a panic escaping the body at that
point.

Two source branches are omitted as unreachable rather than modelled: the
CString conversion failure arms after serde_json::to_string (query.rs line
201, table.rs line 264, index.rs lines 217 and 277) and the unwrap after it
(metadata.rs line 134) cannot fire, because serde escapes every control
character, NUL included, so its output never holds an interior NUL byte. -/

/-- Outcome of one engine call: a value, an engine error (its rendered
message), or a panic inside the call. -/
inductive EngOut (α : Type) where
  | ok (a : α)
  | err (e : String)
  | fault

/-- The result of one boundary call: the envelope, the number of engine round
trips executed, and the final contents of the out-parameter cells. -/
structure OpResult (σ : Type) where
  res : SimpleResult
  engineCalls : Nat
  outs : σ

/-- The catch_unwind barrier wrapped around every entry point body: a panic
becomes the per-operation fault envelope, and whatever the body already wrote
to the out cells stays written. -/
def runOp (name : String) : Except Unit SimpleResult × Nat × σ → OpResult σ
  | (Except.ok r, k, s) => ⟨r, k, s⟩
  | (Except.error _, k, s) => ⟨SimpleResult.error ("Panic in " ++ name), k, s⟩

/-- Cast of a usize or u64 value to i64, as in the Rust expressions
num_rows() as i64 and table_version as i64. -/
def i64_of_usize (n : Nat) : Int :=
  if (n % 2 ^ 64 : Nat) < 2 ^ 63 then ((n % 2 ^ 64 : Nat) : Int)
  else ((n % 2 ^ 64 : Nat) : Int) - 2 ^ 64

/-! ### connection.rs -/

structure ConnectEnv where
  uri : Option CStr
  handleNull : Bool
  engine : EngOut Nat

/-- Body of simple_lancedb_connect (connection.rs lines 17-39). -/
def connect_body (env : ConnectEnv) (handlePre : Nat) :
    Except Unit SimpleResult × Nat × Nat :=
  if env.uri.isNone || env.handleNull then
    (Except.ok (SimpleResult.error "Invalid null arguments"), 0, handlePre)
  else
    match from_c_str env.uri with
    | Except.error e => (Except.ok (SimpleResult.error ("Invalid URI: " ++ e)), 0, handlePre)
    | Except.ok _ =>
        match env.engine with
        | EngOut.fault => (Except.error (), 1, handlePre)
        | EngOut.err e => (Except.ok (SimpleResult.error e), 1, handlePre)
        | EngOut.ok addr => (Except.ok SimpleResult.ok, 1, addr)

def simple_lancedb_connect (env : ConnectEnv) (handlePre : Nat) : OpResult Nat :=
  runOp "simple_lancedb_connect" (connect_body env handlePre)

structure ConnectOptsEnv where
  uri : Option CStr
  options : Option CStr
  handleNull : Bool
  parse : Except String Json
  engine : EngOut Nat

/-- Body of simple_lancedb_connect_with_options (connection.rs lines 56-102).
The s3 environment-variable application happens inside the single engine
block_on and is part of the engine outcome. -/
def connect_with_options_body (env : ConnectOptsEnv) (handlePre : Nat) :
    Except Unit SimpleResult × Nat × Nat :=
  if env.uri.isNone || env.options.isNone || env.handleNull then
    (Except.ok (SimpleResult.error "Invalid null arguments"), 0, handlePre)
  else
    match from_c_str env.uri with
    | Except.error e => (Except.ok (SimpleResult.error ("Invalid URI: " ++ e)), 0, handlePre)
    | Except.ok _ =>
        match from_c_str env.options with
        | Except.error e =>
            (Except.ok (SimpleResult.error ("Invalid options JSON: " ++ e)), 0, handlePre)
        | Except.ok _ =>
            match env.parse with
            | Except.error e =>
                (Except.ok (SimpleResult.error
                  ("Failed to parse storage options JSON: " ++ e)), 0, handlePre)
            | Except.ok _ =>
                match env.engine with
                | EngOut.fault => (Except.error (), 1, handlePre)
                | EngOut.err e => (Except.ok (SimpleResult.error e), 1, handlePre)
                | EngOut.ok addr => (Except.ok SimpleResult.ok, 1, addr)

def simple_lancedb_connect_with_options (env : ConnectOptsEnv) (handlePre : Nat) :
    OpResult Nat :=
  runOp "simple_lancedb_connect_with_options" (connect_with_options_body env handlePre)

structure CloseEnv where
  handleNull : Bool
  dropFault : Bool

/-- Model of simple_lancedb_close (connection.rs lines 146-167): the null check
sits outside the barrier; the barrier guards the unbox and drop, whose only
failure mode is a panic. -/
def simple_lancedb_close (env : CloseEnv) : OpResult Unit :=
  if env.handleNull then ⟨SimpleResult.error "Invalid null handle", 0, ()⟩
  else runOp "simple_lancedb_close"
    (if env.dropFault then (Except.error (), 0, ())
     else (Except.ok SimpleResult.ok, 0, ()))

/-! ### table.rs -/

structure CreateTableEnv where
  handleNull : Bool
  tableName : Option CStr
  schemaJson : Option CStr
  parse : Except String Json
  schemaBuild : Except String Unit
  engine : EngOut Unit

/-- Body of simple_lancedb_create_table (table.rs lines 21-60).  The schema
builder create_arrow_schema_from_json is a pure in-repo function whose
internals no claim constrains; its outcome is environment-provided. -/
def create_table_body (env : CreateTableEnv) :
    Except Unit SimpleResult × Nat × Unit :=
  if env.handleNull || env.tableName.isNone || env.schemaJson.isNone then
    (Except.ok (SimpleResult.error "Invalid null arguments"), 0, ())
  else
    match from_c_str env.tableName with
    | Except.error e => (Except.ok (SimpleResult.error ("Invalid table name: " ++ e)), 0, ())
    | Except.ok _ =>
        match from_c_str env.schemaJson with
        | Except.error e =>
            (Except.ok (SimpleResult.error ("Invalid schema JSON: " ++ e)), 0, ())
        | Except.ok _ =>
            match env.parse with
            | Except.error e =>
                (Except.ok (SimpleResult.error ("Failed to parse schema JSON: " ++ e)), 0, ())
            | Except.ok _ =>
                match env.schemaBuild with
                | Except.error e =>
                    (Except.ok (SimpleResult.error
                      ("Failed to create Arrow schema: " ++ e)), 0, ())
                | Except.ok _ =>
                    match env.engine with
                    | EngOut.fault => (Except.error (), 1, ())
                    | EngOut.err e =>
                        (Except.ok (SimpleResult.error ("Failed to create table: " ++ e)), 1, ())
                    | EngOut.ok _ => (Except.ok SimpleResult.ok, 1, ())

def simple_lancedb_create_table (env : CreateTableEnv) : OpResult Unit :=
  runOp "simple_lancedb_create_table" (create_table_body env)

structure OpenTableEnv where
  handleNull : Bool
  tableName : Option CStr
  tableHandleNull : Bool
  engine : EngOut Nat

/-- Body of simple_lancedb_open_table (table.rs lines 166-189). -/
def open_table_body (env : OpenTableEnv) (handlePre : Nat) :
    Except Unit SimpleResult × Nat × Nat :=
  if env.handleNull || env.tableName.isNone || env.tableHandleNull then
    (Except.ok (SimpleResult.error "Invalid null arguments"), 0, handlePre)
  else
    match from_c_str env.tableName with
    | Except.error e =>
        (Except.ok (SimpleResult.error ("Invalid table name: " ++ e)), 0, handlePre)
    | Except.ok _ =>
        match env.engine with
        | EngOut.fault => (Except.error (), 1, handlePre)
        | EngOut.err e =>
            (Except.ok (SimpleResult.error ("Failed to open table: " ++ e)), 1, handlePre)
        | EngOut.ok addr => (Except.ok SimpleResult.ok, 1, addr)

def simple_lancedb_open_table (env : OpenTableEnv) (handlePre : Nat) : OpResult Nat :=
  runOp "simple_lancedb_open_table" (open_table_body env handlePre)

structure DropTableEnv where
  handleNull : Bool
  tableName : Option CStr
  engine : EngOut Unit

/-- Body of simple_lancedb_drop_table (table.rs lines 131-148). -/
def drop_table_body (env : DropTableEnv) : Except Unit SimpleResult × Nat × Unit :=
  if env.handleNull || env.tableName.isNone then
    (Except.ok (SimpleResult.error "Invalid null arguments"), 0, ())
  else
    match from_c_str env.tableName with
    | Except.error e => (Except.ok (SimpleResult.error ("Invalid table name: " ++ e)), 0, ())
    | Except.ok _ =>
        match env.engine with
        | EngOut.fault => (Except.error (), 1, ())
        | EngOut.err e =>
            (Except.ok (SimpleResult.error ("Failed to drop table: " ++ e)), 1, ())
        | EngOut.ok _ => (Except.ok SimpleResult.ok, 1, ())

def simple_lancedb_drop_table (env : DropTableEnv) : OpResult Unit :=
  runOp "simple_lancedb_drop_table" (drop_table_body env)

/-- Model of simple_lancedb_table_close (table.rs lines 201-222): same shape
as close. -/
def simple_lancedb_table_close (env : CloseEnv) : OpResult Unit :=
  if env.handleNull then ⟨SimpleResult.error "Invalid null handle", 0, ()⟩
  else runOp "simple_lancedb_table_close"
    (if env.dropFault then (Except.error (), 0, ())
     else (Except.ok SimpleResult.ok, 0, ()))

structure OptimizeEnv where
  tableNull : Bool
  outNull : Bool
  engine : EngOut Json

/-- Body of simple_lancedb_table_optimize (table.rs lines 230-275).  The stats
struct returned by the engine is abstracted to the JSON document the function
builds from it; the out cell receives that document serialized. -/
def optimize_body (env : OptimizeEnv) (outPre : Json) :
    Except Unit SimpleResult × Nat × Json :=
  if env.tableNull || env.outNull then
    (Except.ok (SimpleResult.error "Invalid null arguments"), 0, outPre)
  else
    match env.engine with
    | EngOut.fault => (Except.error (), 1, outPre)
    | EngOut.err e =>
        (Except.ok (SimpleResult.error ("Failed to optimize table: " ++ e)), 1, outPre)
    | EngOut.ok statsJson => (Except.ok SimpleResult.ok, 1, statsJson)

def simple_lancedb_table_optimize (env : OptimizeEnv) (outPre : Json) : OpResult Json :=
  runOp "simple_lancedb_table_optimize" (optimize_body env outPre)

/-! ### database.rs -/

structure NamesEnv where
  handleNull : Bool
  namesNull : Bool
  countNull : Bool
  engine : EngOut (List String)
  allocOk : Bool

structure NamesOuts where
  names : Option (List String)
  count : Int
deriving DecidableEq, Repr

/-- Body of simple_lancedb_table_names (database.rs lines 20-58).  On engine
success the count cell is written first; only then can the allocation fail or
a CString::new(name).unwrap() panic on a table name holding a NUL byte, so
those two failure paths leave the count cell already written. -/
def table_names_body (env : NamesEnv) (pre : NamesOuts) :
    Except Unit SimpleResult × Nat × NamesOuts :=
  if env.handleNull || env.namesNull || env.countNull then
    (Except.ok (SimpleResult.error "Invalid null arguments"), 0, pre)
  else
    match env.engine with
    | EngOut.fault => (Except.error (), 1, pre)
    | EngOut.err e => (Except.ok (SimpleResult.error e), 1, pre)
    | EngOut.ok tnames =>
        let withCount : NamesOuts := { pre with count := c_int_of_usize tnames.length }
        if tnames.length = 0 then
          (Except.ok SimpleResult.ok, 1, { withCount with names := none })
        else if env.allocOk = false then
          (Except.ok (SimpleResult.error "Failed to allocate memory"), 1, withCount)
        else if tnames.any hasInteriorNul then
          (Except.error (), 1, withCount)
        else
          (Except.ok SimpleResult.ok, 1, { withCount with names := some tnames })

def simple_lancedb_table_names (env : NamesEnv) (pre : NamesOuts) : OpResult NamesOuts :=
  runOp "simple_lancedb_table_names" (table_names_body env pre)

/-! ### data.rs -/

structure DeleteEnv where
  tableNull : Bool
  predicate : Option CStr
  countNull : Bool
  engine : EngOut Unit

/-- Body of simple_lancedb_table_delete (data.rs lines 18-42): on success the
deleted count is always the sentinel -1 (the engine does not report one). -/
def delete_body (env : DeleteEnv) (countPre : Int) :
    Except Unit SimpleResult × Nat × Int :=
  if env.tableNull || env.predicate.isNone || env.countNull then
    (Except.ok (SimpleResult.error "Invalid null arguments"), 0, countPre)
  else
    match from_c_str env.predicate with
    | Except.error e =>
        (Except.ok (SimpleResult.error ("Invalid predicate: " ++ e)), 0, countPre)
    | Except.ok _ =>
        match env.engine with
        | EngOut.fault => (Except.error (), 1, countPre)
        | EngOut.err e =>
            (Except.ok (SimpleResult.error ("Failed to delete rows: " ++ e)), 1, countPre)
        | EngOut.ok _ => (Except.ok SimpleResult.ok, 1, -1)

def simple_lancedb_table_delete (env : DeleteEnv) (countPre : Int) : OpResult Int :=
  runOp "simple_lancedb_table_delete" (delete_body env countPre)

/-- First column of the update map whose value is not a string, number,
boolean or null (the validation loop of data.rs lines 87-100; the source
iterates a HashMap, modelled here in list order). -/
def firstBadUpdate : List (String × Json) → Option String
  | [] => none
  | (column, v) :: rest =>
      match v with
      | Json.str _ => firstBadUpdate rest
      | Json.num _ => firstBadUpdate rest
      | Json.bool _ => firstBadUpdate rest
      | Json.null => firstBadUpdate rest
      | _ => some column

structure UpdateEnv where
  tableNull : Bool
  predicate : Option CStr
  updatesJson : Option CStr
  parse : Except String (List (String × Json))
  engine : EngOut Unit

/-- Body of simple_lancedb_table_update (data.rs lines 59-122).  The SQL
literal rendering of each update value happens inside the engine block_on and
is part of the engine outcome. -/
def update_body (env : UpdateEnv) : Except Unit SimpleResult × Nat × Unit :=
  if env.tableNull || env.predicate.isNone || env.updatesJson.isNone then
    (Except.ok (SimpleResult.error "Invalid null arguments"), 0, ())
  else
    match from_c_str env.predicate with
    | Except.error e => (Except.ok (SimpleResult.error ("Invalid predicate: " ++ e)), 0, ())
    | Except.ok _ =>
        match from_c_str env.updatesJson with
        | Except.error e =>
            (Except.ok (SimpleResult.error ("Invalid updates JSON: " ++ e)), 0, ())
        | Except.ok _ =>
            match env.parse with
            | Except.error e =>
                (Except.ok (SimpleResult.error ("Failed to parse updates JSON: " ++ e)), 0, ())
            | Except.ok updates =>
                match firstBadUpdate updates with
                | some column =>
                    (Except.ok (SimpleResult.error
                      ("Unsupported update value type for column " ++ column)), 0, ())
                | none =>
                    match env.engine with
                    | EngOut.fault => (Except.error (), 1, ())
                    | EngOut.err e =>
                        (Except.ok (SimpleResult.error
                          ("Failed to update rows: " ++ e)), 1, ())
                    | EngOut.ok _ => (Except.ok SimpleResult.ok, 1, ())

def simple_lancedb_table_update (env : UpdateEnv) : OpResult Unit :=
  runOp "simple_lancedb_table_update" (update_body env)

structure AddJsonEnv where
  tableNull : Bool
  jsonData : Option CStr
  countNull : Bool
  parse : Except String Json
  schemaEngine : EngOut Schema
  addEngine : EngOut Unit

/-- Body of simple_lancedb_table_add_json (data.rs lines 140-194): parse the
text, wrap a non-array document as a one-row sequence, short-circuit the empty
sequence before any engine call, fetch the schema, convert through
json_to_record_batch (the real conversion model above, panic included), then
add. -/
def add_json_body (env : AddJsonEnv) (countPre : Int) :
    Except Unit SimpleResult × Nat × Int :=
  if env.tableNull || env.jsonData.isNone || env.countNull then
    (Except.ok (SimpleResult.error "Invalid null arguments"), 0, countPre)
  else
    match from_c_str env.jsonData with
    | Except.error e =>
        (Except.ok (SimpleResult.error ("Invalid JSON data: " ++ e)), 0, countPre)
    | Except.ok _ =>
        match env.parse with
        | Except.error e =>
            (Except.ok (SimpleResult.error ("Failed to parse JSON: " ++ e)), 0, countPre)
        | Except.ok doc =>
            let json_values : List Json :=
              match doc with
              | Json.arr xs => xs
              | v => [v]
            if json_values.isEmpty then
              (Except.ok SimpleResult.ok, 0, 0)
            else
              match env.schemaEngine with
              | EngOut.fault => (Except.error (), 1, countPre)
              | EngOut.err e =>
                  (Except.ok (SimpleResult.error
                    ("Failed to get table schema: " ++ e)), 1, countPre)
              | EngOut.ok schema =>
                  match json_to_record_batch json_values schema with
                  | Except.error () => (Except.error (), 1, countPre)
                  | Except.ok (Except.error e) =>
                      (Except.ok (SimpleResult.error
                        ("Failed to convert JSON to RecordBatch: " ++ e)), 1, countPre)
                  | Except.ok (Except.ok batch) =>
                      match env.addEngine with
                      | EngOut.fault => (Except.error (), 2, countPre)
                      | EngOut.err e =>
                          (Except.ok (SimpleResult.error
                            ("Failed to add data to table: " ++ e)), 2, countPre)
                      | EngOut.ok _ =>
                          (Except.ok SimpleResult.ok, 2, i64_of_usize batch.numRows)

def simple_lancedb_table_add_json (env : AddJsonEnv) (countPre : Int) : OpResult Int :=
  runOp "simple_lancedb_table_add_json" (add_json_body env countPre)

structure AddIpcEnv where
  tableNull : Bool
  ipcDataNull : Bool
  ipcLen : Nat
  countNull : Bool
  ipcParse : Except String (List Nat)
  engine : EngOut Unit

/-- Body of simple_lancedb_table_add_ipc (data.rs lines 213-269).  The arrow
IPC reader is a library primitive; its outcome is environment-provided as the
list of decoded batch row counts. -/
def add_ipc_body (env : AddIpcEnv) (countPre : Int) :
    Except Unit SimpleResult × Nat × Int :=
  if env.tableNull || env.ipcDataNull || env.countNull then
    (Except.ok (SimpleResult.error "Invalid null arguments"), 0, countPre)
  else if env.ipcLen = 0 then
    (Except.ok SimpleResult.ok, 0, 0)
  else
    match env.ipcParse with
    | Except.error e =>
        (Except.ok (SimpleResult.error ("Failed to parse IPC data: " ++ e)), 0, countPre)
    | Except.ok batchRows =>
        if batchRows.isEmpty then
          (Except.ok SimpleResult.ok, 0, 0)
        else
          match env.engine with
          | EngOut.fault => (Except.error (), 1, countPre)
          | EngOut.err e =>
              (Except.ok (SimpleResult.error
                ("Failed to add data to table: " ++ e)), 1, countPre)
          | EngOut.ok _ =>
              (Except.ok SimpleResult.ok, 1, i64_of_usize (batchRows.foldl (· + ·) 0))

def simple_lancedb_table_add_ipc (env : AddIpcEnv) (countPre : Int) : OpResult Int :=
  runOp "simple_lancedb_table_add_ipc" (add_ipc_body env countPre)

/-! ### query.rs -/

/-- The stream loop of query.rs lines 160-189: each batch of the result stream
is rendered to row objects with the real encode model; the first stream error
aborts. -/
def queryRows : List (Except String RecordBatch) → Except String (List Json)
  | [] => Except.ok []
  | Except.error e :: _ => Except.error e
  | Except.ok b :: rest =>
      match queryRows rest with
      | Except.error e => Except.error e
      | Except.ok rs => Except.ok (encode_rows b ++ rs)

structure SelectQueryEnv where
  tableNull : Bool
  config : Option CStr
  resultNull : Bool
  parse : Except String Json
  engineExec : EngOut (List (Except String RecordBatch))

/-- Body of simple_lancedb_table_select_query (query.rs lines 22-218).  The
query-builder branch selection (vector search, the rejected full-text branch,
plain scan) happens inside the first engine block_on and is folded into its
outcome; the second block_on drives the result stream (queryRows).  The out
cell receives the row objects whose serialization is written through the C
string. -/
def select_query_body (env : SelectQueryEnv) (outPre : Json) :
    Except Unit SimpleResult × Nat × Json :=
  if env.tableNull || env.config.isNone || env.resultNull then
    (Except.ok (SimpleResult.error "Invalid null arguments"), 0, outPre)
  else
    match from_c_str env.config with
    | Except.error e =>
        (Except.ok (SimpleResult.error ("Invalid query config JSON: " ++ e)), 0, outPre)
    | Except.ok _ =>
        match env.parse with
        | Except.error e =>
            (Except.ok (SimpleResult.error ("Failed to parse query config: " ++ e)), 0, outPre)
        | Except.ok _ =>
            match env.engineExec with
            | EngOut.fault => (Except.error (), 1, outPre)
            | EngOut.err e =>
                (Except.ok (SimpleResult.error ("Failed to execute query: " ++ e)), 1, outPre)
            | EngOut.ok stream =>
                match queryRows stream with
                | Except.error e =>
                    (Except.ok (SimpleResult.error
                      ("Failed to process query results: " ++ e)), 2, outPre)
                | Except.ok rows => (Except.ok SimpleResult.ok, 2, Json.arr rows)

def simple_lancedb_table_select_query (env : SelectQueryEnv) (outPre : Json) :
    OpResult Json :=
  runOp "simple_lancedb_table_select_query" (select_query_body env outPre)

/-! ### index.rs -/

structure CreateIndexEnv where
  tableNull : Bool
  columnsJson : Option CStr
  indexType : Option CStr
  indexName : Option CStr
  indexNameNull : Bool
  parseCols : Except String (List String)
  engine : EngOut Unit

/-- The index type tags dispatched by simple_lancedb_table_create_index
(index.rs lines 53-163). -/
def knownIndexTypes : List String :=
  ["vector", "ivf_pq", "ivf_flat", "hnsw_pq", "hnsw_sq", "btree", "bitmap",
   "label_list", "fts"]

/-- Body of simple_lancedb_table_create_index (index.rs lines 19-169).  The
index_name argument is optional: a null pointer means no name, and only a
non-null pointer with invalid UTF-8 is an error. -/
def create_index_body (env : CreateIndexEnv) :
    Except Unit SimpleResult × Nat × Unit :=
  if env.tableNull || env.columnsJson.isNone || env.indexType.isNone then
    (Except.ok (SimpleResult.error "Invalid null arguments"), 0, ())
  else
    match from_c_str env.columnsJson with
    | Except.error e => (Except.ok (SimpleResult.error ("Invalid columns JSON: " ++ e)), 0, ())
    | Except.ok _ =>
        match from_c_str env.indexType with
        | Except.error e =>
            (Except.ok (SimpleResult.error ("Invalid index type: " ++ e)), 0, ())
        | Except.ok index_type_str =>
            match (if env.indexNameNull then Except.ok ()
                   else (from_c_str env.indexName).map (fun _ => ())) with
            | Except.error e =>
                (Except.ok (SimpleResult.error ("Invalid index name: " ++ e)), 0, ())
            | Except.ok _ =>
                match env.parseCols with
                | Except.error e =>
                    (Except.ok (SimpleResult.error
                      ("Failed to parse columns JSON: " ++ e)), 0, ())
                | Except.ok _ =>
                    if knownIndexTypes.contains index_type_str then
                      match env.engine with
                      | EngOut.fault => (Except.error (), 1, ())
                      | EngOut.err e =>
                          (Except.ok (SimpleResult.error
                            ("Failed to create index: " ++ e)), 1, ())
                      | EngOut.ok _ => (Except.ok SimpleResult.ok, 1, ())
                    else
                      (Except.ok (SimpleResult.error
                        ("Unsupported index type: " ++ index_type_str)), 0, ())

def simple_lancedb_table_create_index (env : CreateIndexEnv) : OpResult Unit :=
  runOp "simple_lancedb_table_create_index" (create_index_body env)

/-- The JSON document built for one index by simple_lancedb_table_get_indexes
(index.rs lines 201-205): name, columns, and the Debug rendering of the index
type. -/
def indexInfoJson (info : String × List String × String) : Json :=
  Json.obj
    [("name", Json.str info.1),
     ("columns", Json.arr (info.2.1.map Json.str)),
     ("index_type", Json.str info.2.2)]

structure GetIndexesEnv where
  tableNull : Bool
  outNull : Bool
  engine : EngOut (List (String × List String × String))

/-- Body of simple_lancedb_table_get_indexes (index.rs lines 187-227). -/
def get_indexes_body (env : GetIndexesEnv) (outPre : Json) :
    Except Unit SimpleResult × Nat × Json :=
  if env.tableNull || env.outNull then
    (Except.ok (SimpleResult.error "Invalid null arguments"), 0, outPre)
  else
    match env.engine with
    | EngOut.fault => (Except.error (), 1, outPre)
    | EngOut.err e =>
        (Except.ok (SimpleResult.error ("Failed to list indexes: " ++ e)), 1, outPre)
    | EngOut.ok infos =>
        (Except.ok SimpleResult.ok, 1, Json.arr (infos.map indexInfoJson))

def simple_lancedb_table_get_indexes (env : GetIndexesEnv) (outPre : Json) :
    OpResult Json :=
  runOp "simple_lancedb_table_get_indexes" (get_indexes_body env outPre)

structure IndexStatsEnv where
  tableNull : Bool
  indexName : Option CStr
  outNull : Bool
  engine : EngOut (Option Json)

/-- Body of simple_lancedb_table_index_stats (index.rs lines 245-288).  The
stats struct is abstracted to the JSON document built from it.  When the
engine reports no such index (Ok(None)), the call succeeds without writing the
out cell. -/
def index_stats_body (env : IndexStatsEnv) (outPre : Json) :
    Except Unit SimpleResult × Nat × Json :=
  if env.tableNull || env.indexName.isNone || env.outNull then
    (Except.ok (SimpleResult.error "Invalid null arguments"), 0, outPre)
  else
    match from_c_str env.indexName with
    | Except.error e =>
        (Except.ok (SimpleResult.error ("Invalid index name: " ++ e)), 0, outPre)
    | Except.ok _ =>
        match env.engine with
        | EngOut.fault => (Except.error (), 1, outPre)
        | EngOut.err e =>
            (Except.ok (SimpleResult.error ("Failed to get index stats: " ++ e)), 1, outPre)
        | EngOut.ok none => (Except.ok SimpleResult.ok, 1, outPre)
        | EngOut.ok (some statsJson) => (Except.ok SimpleResult.ok, 1, statsJson)

def simple_lancedb_table_index_stats (env : IndexStatsEnv) (outPre : Json) :
    OpResult Json :=
  runOp "simple_lancedb_table_index_stats" (index_stats_body env outPre)

/-! ### metadata.rs -/

structure CountRowsEnv where
  tableNull : Bool
  countNull : Bool
  engine : EngOut Nat

/-- Body of simple_lancedb_table_count_rows (metadata.rs lines 17-34). -/
def count_rows_body (env : CountRowsEnv) (countPre : Int) :
    Except Unit SimpleResult × Nat × Int :=
  if env.tableNull || env.countNull then
    (Except.ok (SimpleResult.error "Invalid null arguments"), 0, countPre)
  else
    match env.engine with
    | EngOut.fault => (Except.error (), 1, countPre)
    | EngOut.err e =>
        (Except.ok (SimpleResult.error ("Failed to count rows: " ++ e)), 1, countPre)
    | EngOut.ok n => (Except.ok SimpleResult.ok, 1, i64_of_usize n)

def simple_lancedb_table_count_rows (env : CountRowsEnv) (countPre : Int) :
    OpResult Int :=
  runOp "simple_lancedb_table_count_rows" (count_rows_body env countPre)

structure VersionEnv where
  tableNull : Bool
  versionNull : Bool
  engine : EngOut Nat

/-- Body of simple_lancedb_table_version (metadata.rs lines 50-67); the u64
version is cast to i64 like a usize. -/
def version_body (env : VersionEnv) (versionPre : Int) :
    Except Unit SimpleResult × Nat × Int :=
  if env.tableNull || env.versionNull then
    (Except.ok (SimpleResult.error "Invalid null arguments"), 0, versionPre)
  else
    match env.engine with
    | EngOut.fault => (Except.error (), 1, versionPre)
    | EngOut.err e =>
        (Except.ok (SimpleResult.error ("Failed to get table version: " ++ e)), 1, versionPre)
    | EngOut.ok n => (Except.ok SimpleResult.ok, 1, i64_of_usize n)

def simple_lancedb_table_version (env : VersionEnv) (versionPre : Int) : OpResult Int :=
  runOp "simple_lancedb_table_version" (version_body env versionPre)

/-- The type string simple_lancedb_table_schema renders for a field type
(metadata.rs lines 98-118); every type outside the listed seven and the
float32 vector special case renders as unknown. -/
def typeStrOf : DataType → String
  | DataType.int32 => "int32"
  | DataType.int64 => "int64"
  | DataType.float32 => "float32"
  | DataType.float64 => "float64"
  | DataType.utf8 => "string"
  | DataType.binary => "binary"
  | DataType.boolean => "boolean"
  | _ => "unknown"

/-- The JSON document simple_lancedb_table_schema builds for one field
(metadata.rs lines 97-125): a float32 fixed-size list short-circuits to its
own document with the bracketed type string. -/
def fieldToJson (f : Field) : Json :=
  match f.dataType with
  | DataType.fixedSizeList _ DataType.float32 _ size =>
      Json.obj
        [("name", Json.str f.name),
         ("type", Json.str ("fixed_size_list[float32;" ++ toString size ++ "]")),
         ("nullable", Json.bool f.nullable)]
  | dt =>
      Json.obj
        [("name", Json.str f.name),
         ("type", Json.str (typeStrOf dt)),
         ("nullable", Json.bool f.nullable)]

/-- The schema document of simple_lancedb_table_schema (metadata.rs lines
128-130). -/
def schemaToJson (s : Schema) : Json :=
  Json.obj [("fields", Json.arr (s.fields.map fieldToJson))]

structure SchemaEnv where
  tableNull : Bool
  outNull : Bool
  engine : EngOut Schema

/-- Body of simple_lancedb_table_schema (metadata.rs lines 83-144). -/
def schema_body (env : SchemaEnv) (outPre : Json) :
    Except Unit SimpleResult × Nat × Json :=
  if env.tableNull || env.outNull then
    (Except.ok (SimpleResult.error "Invalid null arguments"), 0, outPre)
  else
    match env.engine with
    | EngOut.fault => (Except.error (), 1, outPre)
    | EngOut.err e =>
        (Except.ok (SimpleResult.error ("Failed to get table schema: " ++ e)), 1, outPre)
    | EngOut.ok arrowSchema => (Except.ok SimpleResult.ok, 1, schemaToJson arrowSchema)

def simple_lancedb_table_schema (env : SchemaEnv) (outPre : Json) : OpResult Json :=
  runOp "simple_lancedb_table_schema" (schema_body env outPre)

structure SchemaIpcEnv where
  tableNull : Bool
  dataNull : Bool
  lenNull : Bool
  engine : EngOut Schema
  ipcBytes : Schema → Except String (List Nat)
  allocOk : Bool

structure SchemaIpcOuts where
  data : Option (List Nat)
  len : Nat
deriving DecidableEq, Repr

/-- Body of simple_lancedb_table_schema_ipc (metadata.rs lines 162-197).  The
arrow IPC FileWriter behind schema_to_ipc_bytes is a library primitive; the
bytes it would produce for a schema are environment-provided.  A failed malloc
returns before either out cell is written. -/
def schema_ipc_body (env : SchemaIpcEnv) (pre : SchemaIpcOuts) :
    Except Unit SimpleResult × Nat × SchemaIpcOuts :=
  if env.tableNull || env.dataNull || env.lenNull then
    (Except.ok (SimpleResult.error "Invalid null arguments"), 0, pre)
  else
    match env.engine with
    | EngOut.fault => (Except.error (), 1, pre)
    | EngOut.err e =>
        (Except.ok (SimpleResult.error ("Failed to get table schema: " ++ e)), 1, pre)
    | EngOut.ok arrowSchema =>
        match env.ipcBytes arrowSchema with
        | Except.error e =>
            (Except.ok (SimpleResult.error
              ("Failed to serialize schema to IPC: " ++ e)), 1, pre)
        | Except.ok bytes =>
            if env.allocOk = false then
              (Except.ok (SimpleResult.error "Failed to allocate memory for IPC data"), 1, pre)
            else
              (Except.ok SimpleResult.ok, 1, ⟨some bytes, bytes.length⟩)

def simple_lancedb_table_schema_ipc (env : SchemaIpcEnv) (pre : SchemaIpcOuts) :
    OpResult SchemaIpcOuts :=
  runOp "simple_lancedb_table_schema_ipc" (schema_ipc_body env pre)

/-! ## Out-parameter frame (claim C6 infrastructure) -/

/-- Frame property of an entry point body: either it left the out cells at
their pre-call values, or it returned a success envelope (so any write it made
belongs to a successful call). -/
def bodyFrame (pre : σ) (t : Except Unit SimpleResult × Nat × σ) : Prop :=
  t.2.2 = pre ∨ ∃ r, t.1 = Except.ok r ∧ r.success = true

/-! ## Lemmas about the row loops -/

theorem traverseE_of_forall_ok {α β : Type} {g : α → Except String β} {v : α → β} :
    ∀ {l : List α}, (∀ a ∈ l, g a = Except.ok (v a)) → traverseE g l = Except.ok (l.map v)
  | [], _ => rfl
  | a :: rest, h => by
      have ha := h a (List.mem_cons_self a rest)
      have hr := traverseE_of_forall_ok (fun x hx => h x (List.mem_cons_of_mem a hx))
      simp [traverseE, ha, hr]

theorem traverseE_ok_length {α β : Type} {g : α → Except String β} :
    ∀ {l : List α} {bs : List β}, traverseE g l = Except.ok bs → bs.length = l.length := by
  intro l
  induction l with
  | nil =>
      intro bs h
      simp [traverseE] at h
      simp [← h]
  | cons x rest ih =>
      intro bs h
      unfold traverseE at h
      cases hx : g x with
      | error e => rw [hx] at h; simp at h
      | ok b0 =>
          rw [hx] at h
          cases hr : traverseE g rest with
          | error e => rw [hr] at h; simp at h
          | ok bs0 =>
              rw [hr] at h
              simp at h
              subst h
              simp [ih hr]

theorem traverseE_ok_get {α β : Type} {g : α → Except String β} :
    ∀ {l : List α} {bs : List β}, traverseE g l = Except.ok bs →
      ∀ {i : Nat} {a : α}, l.get? i = some a → ∃ b, bs.get? i = some b ∧ g a = Except.ok b := by
  intro l
  induction l with
  | nil =>
      intro bs _ i a hi
      simp at hi
  | cons x rest ih =>
      intro bs h i a hi
      unfold traverseE at h
      cases hx : g x with
      | error e => rw [hx] at h; simp at h
      | ok b0 =>
          rw [hx] at h
          cases hr : traverseE g rest with
          | error e => rw [hr] at h; simp at h
          | ok bs0 =>
              rw [hr] at h
              simp at h
              subst h
              cases i with
              | zero =>
                  rw [List.get?_cons_zero] at hi
                  cases hi
                  exact ⟨b0, rfl, hx⟩
              | succ j =>
                  rw [List.get?_cons_succ] at hi
                  rw [List.get?_cons_succ]
                  exact ih hr hi

theorem traverseE_error_append {α β : Type} {g : α → Except String β} {e : String} :
    ∀ {pre : List α}, (∀ a ∈ pre, ∃ b, g a = Except.ok b) →
      ∀ (bad : α) (post : List α), g bad = Except.error e →
        traverseE g (pre ++ bad :: post) = Except.error e := by
  intro pre
  induction pre with
  | nil =>
      intro _h bad post hbad
      simp [traverseE, hbad]
  | cons x rest ih =>
      intro h bad post hbad
      obtain ⟨b, hb⟩ := h x (by simp)
      have hr := ih (fun a ha => h a (by simp [ha])) bad post hbad
      simp [traverseE, hb, hr]

theorem decodeColumns_ok_get {rows : List Json} :
    ∀ {fs : List Field} {cols : List Column},
      decodeColumns rows fs = Except.ok (Except.ok cols) →
      ∀ {i : Nat} {f : Field}, fs.get? i = some f →
        ∃ c, cols.get? i = some c ∧ decodeColumn rows f = Except.ok (Except.ok c) := by
  intro fs
  induction fs with
  | nil =>
      intro cols _ i f hi
      simp at hi
  | cons f0 rest ih =>
      intro cols h i f hi
      unfold decodeColumns at h
      cases hf : decodeColumn rows f0 with
      | error e => rw [hf] at h; simp at h
      | ok r =>
          rw [hf] at h
          cases r with
          | error e => simp at h
          | ok c0 =>
              cases hr : decodeColumns rows rest with
              | error e => rw [hr] at h; simp at h
              | ok r2 =>
                  rw [hr] at h
                  cases r2 with
                  | error e => simp at h
                  | ok cols0 =>
                      simp at h
                      subst h
                      cases i with
                      | zero =>
                          rw [List.get?_cons_zero] at hi
                          cases hi
                          exact ⟨c0, rfl, hf⟩
                      | succ j =>
                          rw [List.get?_cons_succ] at hi
                          rw [List.get?_cons_succ]
                          exact ih hr hi

theorem decodeColumns_ok_length {rows : List Json} :
    ∀ {fs : List Field} {cols : List Column},
      decodeColumns rows fs = Except.ok (Except.ok cols) → cols.length = fs.length := by
  intro fs
  induction fs with
  | nil =>
      intro cols h
      simp [decodeColumns] at h
      simp [← h]
  | cons f0 rest ih =>
      intro cols h
      unfold decodeColumns at h
      cases hf : decodeColumn rows f0 with
      | error e => rw [hf] at h; simp at h
      | ok r =>
          rw [hf] at h
          cases r with
          | error e => simp at h
          | ok c0 =>
              cases hr : decodeColumns rows rest with
              | error e => rw [hr] at h; simp at h
              | ok r2 =>
                  rw [hr] at h
                  cases r2 with
                  | error e => simp at h
                  | ok cols0 =>
                      simp at h
                      subst h
                      simp [ih hr]

theorem decodeColumns_error_append {rows : List Json} {e : String} :
    ∀ {fs1 : List Field}, (∀ f ∈ fs1, ∃ c, decodeColumn rows f = Except.ok (Except.ok c)) →
      ∀ (f0 : Field) (fs2 : List Field), decodeColumn rows f0 = Except.ok (Except.error e) →
        decodeColumns rows (fs1 ++ f0 :: fs2) = Except.ok (Except.error e) := by
  intro fs1
  induction fs1 with
  | nil =>
      intro _h f0 fs2 h0
      simp [decodeColumns, h0]
  | cons f rest ih =>
      intro h f0 fs2 h0
      obtain ⟨c, hc⟩ := h f (by simp)
      have hr := ih (fun a ha => h a (by simp [ha])) f0 fs2 h0
      simp [decodeColumns, hc, hr]

theorem decodeColumns_panic_append {rows : List Json} :
    ∀ {fs1 : List Field}, (∀ f ∈ fs1, ∃ c, decodeColumn rows f = Except.ok (Except.ok c)) →
      ∀ (f0 : Field) (fs2 : List Field), decodeColumn rows f0 = Except.error () →
        decodeColumns rows (fs1 ++ f0 :: fs2) = Except.error () := by
  intro fs1
  induction fs1 with
  | nil =>
      intro _h f0 fs2 h0
      simp [decodeColumns, h0]
  | cons f rest ih =>
      intro h f0 fs2 h0
      obtain ⟨c, hc⟩ := h f (by simp)
      have hr := ih (fun a ha => h a (by simp [ha])) f0 fs2 h0
      simp [decodeColumns, hc, hr]

/-! ## Claim C8: int32 range rejection -/

/-- C8: for a schema holding an int32 field, a row whose value for that field
is an integer outside the 32-bit signed range makes json_to_record_batch fail
the whole conversion with the range error naming the field (so nothing is ever
truncated into a batch), provided the fields before it and the rows before the
offending one do not fail first (the conversion reports only the first
failure); and every in-range integer decodes to exactly that value. -/
theorem claim_C8_int32_range :
    (∀ (nm : String) (nb : Bool) (fs1 fs2 : List Field) (pre post : List Json)
        (badRow : Json) (w : Int),
      (∀ g ∈ fs1, ∃ c, decodeColumn (pre ++ badRow :: post) g = Except.ok (Except.ok c)) →
      (∀ row ∈ pre, ∃ v, int32Cell ⟨nm, DataType.int32, nb⟩ row = Except.ok v) →
      badRow.get nm = some (Json.num (JsonNumber.int w)) →
      -(2 ^ 63) ≤ w → w ≤ 2 ^ 63 - 1 →
      (w < -2147483648 ∨ 2147483647 < w) →
      json_to_record_batch (pre ++ badRow :: post) ⟨fs1 ++ ⟨nm, DataType.int32, nb⟩ :: fs2⟩ =
        Except.ok (Except.error
          ("Number " ++ toString w ++ " out of range for i32 in field " ++ nm)))
  ∧
    (∀ (nm : String) (nb : Bool) (rows : List Json) (vals : List (Option Int))
        (i : Nat) (row : Json) (v : Int),
      decodeColumn rows ⟨nm, DataType.int32, nb⟩ = Except.ok (Except.ok (Column.int32Col vals)) →
      rows.get? i = some row →
      row.get nm = some (Json.num (JsonNumber.int v)) →
      vals.get? i = some (some v)) := by
  constructor
  · intro nm nb fs1 fs2 pre post badRow w hfs1 hpre hget h63lo h63hi hout
    have hneg : ¬(-2147483648 ≤ w ∧ w ≤ 2147483647) := by omega
    have h64p : -9223372036854775808 ≤ w ∧ w ≤ 9223372036854775807 := by omega
    have hbadcell : int32Cell ⟨nm, DataType.int32, nb⟩ badRow =
        Except.error ("Number " ++ toString w ++ " out of range for i32 in field " ++ nm) := by
      simp [int32Cell, hget, JsonNumber.as_i64, h64p, hneg]
    have htrav := traverseE_error_append hpre badRow post hbadcell
    have hcol : decodeColumn (pre ++ badRow :: post) ⟨nm, DataType.int32, nb⟩ =
        Except.ok (Except.error ("Number " ++ toString w ++ " out of range for i32 in field " ++ nm)) := by
      unfold decodeColumn
      simp [htrav, Except.map]
    have hcols := decodeColumns_error_append hfs1 _ fs2 hcol
    unfold json_to_record_batch
    simp [hcols]
  · intro nm nb rows vals i row v hcol hrow hget
    unfold decodeColumn at hcol
    cases htrav : traverseE (int32Cell ⟨nm, DataType.int32, nb⟩) rows with
    | error e => rw [htrav] at hcol; simp [Except.map] at hcol
    | ok bs =>
        rw [htrav] at hcol
        simp [Except.map] at hcol
        obtain ⟨b, hb, hcell⟩ := traverseE_ok_get htrav hrow
        rw [hcol] at hb
        simp [int32Cell, hget, JsonNumber.as_i64] at hcell
        by_cases h64 : -9223372036854775808 ≤ v ∧ v ≤ 9223372036854775807
        · simp [h64] at hcell
          by_cases h32 : -2147483648 ≤ v ∧ v ≤ 2147483647
          · simp [h32] at hcell
            rw [← hcell] at hb
            exact hb
          · simp [h32] at hcell
        · simp [h64] at hcell

/-- Witness for claim_C8_int32_range: the testable property of spec.md section
8 with the row from the spec, plus an in-range decode at value 7. -/
theorem claim_C8_int32_range_witness :
    json_to_record_batch [Json.obj [("x", Json.num (JsonNumber.int 99999999999))]]
        ⟨[⟨"x", DataType.int32, false⟩]⟩ =
      Except.ok (Except.error
        ("Number " ++ toString (99999999999 : Int) ++ " out of range for i32 in field " ++ "x"))
  ∧ ([some (7 : Int)] : List (Option Int)).get? 0 = some (some 7) := by
  constructor
  · exact claim_C8_int32_range.1 "x" false [] [] [] []
      (Json.obj [("x", Json.num (JsonNumber.int 99999999999))]) 99999999999
      (by intro g hg; cases hg)
      (by intro row hrow; cases hrow)
      (by rfl) (by decide) (by decide) (by decide)
  · exact claim_C8_int32_range.2 "x" false [Json.obj [("x", Json.num (JsonNumber.int 7))]]
      [some 7] 0 (Json.obj [("x", Json.num (JsonNumber.int 7))]) 7 (by rfl) (by rfl) (by rfl)

/-! ## Claim C9: fixed-size-list arity rejection -/

/-- C9: a row whose value for a FixedSizeList-of-Float32 field is a JSON array
of the wrong length makes json_to_record_batch reject the entire batch with the
arity error (an error value, never a batch), provided the fields before it and
the rows before the offending one do not fail first. -/
theorem claim_C9_vector_arity :
    ∀ (nm inm : String) (inb nb : Bool) (size : Int) (fs1 fs2 : List Field)
      (pre post : List Json) (badRow : Json) (xs : List Json),
      (∀ g ∈ fs1, ∃ c, decodeColumn (pre ++ badRow :: post) g = Except.ok (Except.ok c)) →
      (∀ row ∈ pre, ∃ v,
        vectorCell ⟨nm, DataType.fixedSizeList inm DataType.float32 inb size, nb⟩ size row =
          Except.ok v) →
      badRow.get nm = some (Json.arr xs) →
      xs.length ≠ usizeOfI32 size →
      (json_to_record_batch (pre ++ badRow :: post)
          ⟨fs1 ++ ⟨nm, DataType.fixedSizeList inm DataType.float32 inb size, nb⟩ :: fs2⟩ =
        Except.ok (Except.error
          ("Vector field " ++ nm ++ " expects " ++ toString size ++
            " elements but got " ++ toString xs.length)))
      ∧ ∀ b, json_to_record_batch (pre ++ badRow :: post)
          ⟨fs1 ++ ⟨nm, DataType.fixedSizeList inm DataType.float32 inb size, nb⟩ :: fs2⟩ ≠
          Except.ok (Except.ok b) := by
  intro nm inm inb nb size fs1 fs2 pre post badRow xs hfs1 hpre hget hlen
  have hbadcell : vectorCell ⟨nm, DataType.fixedSizeList inm DataType.float32 inb size, nb⟩
      size badRow =
      Except.error ("Vector field " ++ nm ++ " expects " ++ toString size ++
        " elements but got " ++ toString xs.length) := by
    simp [vectorCell, hget, hlen]
  have htrav := traverseE_error_append hpre badRow post hbadcell
  have hcol : decodeColumn (pre ++ badRow :: post)
      ⟨nm, DataType.fixedSizeList inm DataType.float32 inb size, nb⟩ =
      Except.ok (Except.error ("Vector field " ++ nm ++ " expects " ++ toString size ++
        " elements but got " ++ toString xs.length)) := by
    unfold decodeColumn
    simp [htrav]
  have hcols := decodeColumns_error_append hfs1 _ fs2 hcol
  have hmain : json_to_record_batch (pre ++ badRow :: post)
      ⟨fs1 ++ ⟨nm, DataType.fixedSizeList inm DataType.float32 inb size, nb⟩ :: fs2⟩ =
      Except.ok (Except.error
        ("Vector field " ++ nm ++ " expects " ++ toString size ++
          " elements but got " ++ toString xs.length)) := by
    unfold json_to_record_batch
    simp [hcols]
  refine ⟨hmain, ?_⟩
  intro b hb
  rw [hmain] at hb
  simp at hb

/-- Witness for claim_C9_vector_arity: a two-element vector field fed a
one-element array. -/
theorem claim_C9_vector_arity_witness :
    json_to_record_batch [Json.obj [("v", Json.arr [Json.num (JsonNumber.int 3)])]]
        ⟨[⟨"v", DataType.fixedSizeList "item" DataType.float32 false 2, true⟩]⟩ =
      Except.ok (Except.error
        ("Vector field " ++ "v" ++ " expects " ++ toString (2 : Int) ++
          " elements but got " ++ toString (1 : Nat))) :=
  (claim_C9_vector_arity "v" "item" false true 2 [] [] [] []
      (Json.obj [("v", Json.arr [Json.num (JsonNumber.int 3)])])
      [Json.num (JsonNumber.int 3)]
      (by intro g hg; cases hg)
      (by intro row hrow; cases hrow)
      (by rfl) (by decide)).1

theorem traverseE_ok_of_forall {α β : Type} {g : α → Except String β} {P : β → Prop} :
    ∀ {l : List α}, (∀ a ∈ l, ∃ b, g a = Except.ok b ∧ P b) →
      ∃ bs, traverseE g l = Except.ok bs ∧ bs.length = l.length ∧ ∀ b ∈ bs, P b := by
  intro l
  induction l with
  | nil =>
      intro _
      exact ⟨[], rfl, rfl, by intro b hb; cases hb⟩
  | cons x rest ih =>
      intro h
      obtain ⟨b0, hb0, hp0⟩ := h x (by simp)
      obtain ⟨bs, hbs, hlen, hP⟩ := ih (fun a ha => h a (by simp [ha]))
      refine ⟨b0 :: bs, ?_, by simp [hlen], ?_⟩
      · simp [traverseE, hb0, hbs]
      · intro b hb
        rcases List.mem_cons.mp hb with rfl | hb
        · exact hp0
        · exact hP b hb

theorem usizeOfI32_of_nonneg {size : Int} (h0 : 0 ≤ size) (h1 : size ≤ 2147483647) :
    usizeOfI32 size = size.toNat := by
  unfold usizeOfI32
  rw [Int.emod_eq_of_lt h0 (by omega)]

theorem filter_isNone_eq_zero {β : Type} {bs : List (Option β)}
    (h : ∀ b ∈ bs, b.isSome) : (bs.filter Option.isNone).length = 0 := by
  rw [List.length_eq_zero]
  rw [List.filter_eq_nil_iff]
  intro b hb
  have := h b hb
  simp [Option.isNone]
  cases b with
  | none => cases this
  | some v => simp

theorem int32Cell_ok_of_matches {f : Field} {row : Json} (ht : f.dataType = DataType.int32)
    (h : cellMatches f row = true) :
    ∃ v, int32Cell f row = Except.ok v ∧ (f.nullable = false → v.isSome) := by
  unfold cellMatches at h
  rw [ht] at h
  cases hval : row.get f.name with
  | none =>
      rw [hval] at h
      have hn : f.nullable = true := h
      exact ⟨none, by simp [int32Cell, hval, hn], by intro hnb; rw [hnb] at hn; cases hn⟩
  | some val =>
      rw [hval] at h
      cases val with
      | null =>
          have hn : f.nullable = true := h
          exact ⟨none, by simp [int32Cell, hval, hn], by intro hnb; rw [hnb] at hn; cases hn⟩
      | num n =>
          have h2 : (match n.as_i64 with
              | some i => decide (-2147483648 ≤ i ∧ i ≤ 2147483647)
              | none => false) = true := h
          cases hi : n.as_i64 with
          | none => rw [hi] at h2; exact Bool.noConfusion h2
          | some i =>
              rw [hi] at h2
              have hr : -2147483648 ≤ i ∧ i ≤ 2147483647 := of_decide_eq_true h2
              exact ⟨some i, by simp [int32Cell, hval, hi, hr.1, hr.2], by intro _; rfl⟩
      | bool b => exact Bool.noConfusion (h : false = true)
      | str s => exact Bool.noConfusion (h : false = true)
      | arr xs => exact Bool.noConfusion (h : false = true)
      | obj es => exact Bool.noConfusion (h : false = true)

theorem int64Cell_ok_of_matches {f : Field} {row : Json} (ht : f.dataType = DataType.int64)
    (h : cellMatches f row = true) :
    ∃ v, int64Cell f row = Except.ok v ∧ (f.nullable = false → v.isSome) := by
  unfold cellMatches at h
  rw [ht] at h
  cases hval : row.get f.name with
  | none =>
      rw [hval] at h
      have hn : f.nullable = true := h
      exact ⟨none, by simp [int64Cell, hval, hn], by intro hnb; rw [hnb] at hn; cases hn⟩
  | some val =>
      rw [hval] at h
      cases val with
      | null =>
          have hn : f.nullable = true := h
          exact ⟨none, by simp [int64Cell, hval, hn], by intro hnb; rw [hnb] at hn; cases hn⟩
      | num n =>
          have h2 : n.as_i64.isSome = true := h
          cases hi : n.as_i64 with
          | none => rw [hi] at h2; exact Bool.noConfusion h2
          | some i =>
              exact ⟨some i, by simp [int64Cell, hval, hi], by intro _; rfl⟩
      | bool b => exact Bool.noConfusion (h : false = true)
      | str s => exact Bool.noConfusion (h : false = true)
      | arr xs => exact Bool.noConfusion (h : false = true)
      | obj es => exact Bool.noConfusion (h : false = true)

theorem float32Cell_ok_of_matches {f : Field} {row : Json} (ht : f.dataType = DataType.float32)
    (h : cellMatches f row = true) :
    ∃ v, float32Cell f row = Except.ok v ∧ (f.nullable = false → v.isSome) := by
  unfold cellMatches at h
  rw [ht] at h
  cases hval : row.get f.name with
  | none =>
      rw [hval] at h
      have hn : f.nullable = true := h
      exact ⟨none, by simp [float32Cell, hval, hn], by intro hnb; rw [hnb] at hn; cases hn⟩
  | some val =>
      rw [hval] at h
      cases val with
      | null =>
          have hn : f.nullable = true := h
          exact ⟨none, by simp [float32Cell, hval, hn], by intro hnb; rw [hnb] at hn; cases hn⟩
      | num n =>
          cases hq : n.as_f64 with
          | none => cases n <;> simp [JsonNumber.as_f64] at hq
          | some q =>
              exact ⟨some (f64_as_f32 q), by simp [float32Cell, hval, hq], by intro _; rfl⟩
      | bool b => exact Bool.noConfusion (h : false = true)
      | str s => exact Bool.noConfusion (h : false = true)
      | arr xs => exact Bool.noConfusion (h : false = true)
      | obj es => exact Bool.noConfusion (h : false = true)

theorem float64Cell_ok_of_matches {f : Field} {row : Json} (ht : f.dataType = DataType.float64)
    (h : cellMatches f row = true) :
    ∃ v, float64Cell f row = Except.ok v ∧ (f.nullable = false → v.isSome) := by
  unfold cellMatches at h
  rw [ht] at h
  cases hval : row.get f.name with
  | none =>
      rw [hval] at h
      have hn : f.nullable = true := h
      exact ⟨none, by simp [float64Cell, hval, hn], by intro hnb; rw [hnb] at hn; cases hn⟩
  | some val =>
      rw [hval] at h
      cases val with
      | null =>
          have hn : f.nullable = true := h
          exact ⟨none, by simp [float64Cell, hval, hn], by intro hnb; rw [hnb] at hn; cases hn⟩
      | num n =>
          cases hq : n.as_f64 with
          | none => cases n <;> simp [JsonNumber.as_f64] at hq
          | some q =>
              exact ⟨some q, by simp [float64Cell, hval, hq], by intro _; rfl⟩
      | bool b => exact Bool.noConfusion (h : false = true)
      | str s => exact Bool.noConfusion (h : false = true)
      | arr xs => exact Bool.noConfusion (h : false = true)
      | obj es => exact Bool.noConfusion (h : false = true)

theorem booleanCell_ok_of_matches {f : Field} {row : Json} (ht : f.dataType = DataType.boolean)
    (h : cellMatches f row = true) :
    ∃ v, booleanCell f row = Except.ok v ∧ (f.nullable = false → v.isSome) := by
  unfold cellMatches at h
  rw [ht] at h
  cases hval : row.get f.name with
  | none =>
      rw [hval] at h
      have hn : f.nullable = true := h
      exact ⟨none, by simp [booleanCell, hval, hn], by intro hnb; rw [hnb] at hn; cases hn⟩
  | some val =>
      rw [hval] at h
      cases val with
      | null =>
          have hn : f.nullable = true := h
          exact ⟨none, by simp [booleanCell, hval, hn], by intro hnb; rw [hnb] at hn; cases hn⟩
      | num n => exact Bool.noConfusion (h : false = true)
      | bool b => exact ⟨some b, by simp [booleanCell, hval], by intro _; rfl⟩
      | str s => exact Bool.noConfusion (h : false = true)
      | arr xs => exact Bool.noConfusion (h : false = true)
      | obj es => exact Bool.noConfusion (h : false = true)

theorem utf8Cell_ok_of_matches {f : Field} {row : Json} (ht : f.dataType = DataType.utf8)
    (h : cellMatches f row = true) :
    ∃ v, utf8Cell f row = Except.ok v ∧ (f.nullable = false → v.isSome) := by
  unfold cellMatches at h
  rw [ht] at h
  cases hval : row.get f.name with
  | none =>
      rw [hval] at h
      have hn : f.nullable = true := h
      exact ⟨none, by simp [utf8Cell, hval, hn], by intro hnb; rw [hnb] at hn; cases hn⟩
  | some val =>
      rw [hval] at h
      cases val with
      | null =>
          have hn : f.nullable = true := h
          exact ⟨none, by simp [utf8Cell, hval, hn], by intro hnb; rw [hnb] at hn; cases hn⟩
      | num n => exact Bool.noConfusion (h : false = true)
      | bool b => exact Bool.noConfusion (h : false = true)
      | str s => exact ⟨some s, by simp [utf8Cell, hval], by intro _; rfl⟩
      | arr xs => exact Bool.noConfusion (h : false = true)
      | obj es => exact Bool.noConfusion (h : false = true)

theorem vectorCell_ok_of_matches {f : Field} {row : Json} {inm : String} {itp : DataType}
    {inb : Bool} {size : Int}
    (ht : f.dataType = DataType.fixedSizeList inm itp inb size)
    (h : cellMatches f row = true) :
    ∃ vs, vectorCell f size row = Except.ok (some vs) ∧ vs.length = usizeOfI32 size := by
  unfold cellMatches at h
  rw [ht] at h
  cases hval : row.get f.name with
  | none => rw [hval] at h; exact Bool.noConfusion (h : false = true)
  | some val =>
      rw [hval] at h
      cases val with
      | null => exact Bool.noConfusion (h : false = true)
      | num n => exact Bool.noConfusion (h : false = true)
      | bool b => exact Bool.noConfusion (h : false = true)
      | str s => exact Bool.noConfusion (h : false = true)
      | obj es => exact Bool.noConfusion (h : false = true)
      | arr elems =>
          have h2 : (decide (elems.length = usizeOfI32 size) &&
              elems.all (fun v => v.as_f64.isSome)) = true := h
          rw [Bool.and_eq_true] at h2
          have hlen : elems.length = usizeOfI32 size := of_decide_eq_true h2.1
          have hall : ∀ v ∈ elems, v.as_f64.isSome := by
            intro v hv
            exact List.all_eq_true.mp h2.2 v hv
          obtain ⟨bs, htrav, hblen, _⟩ := traverseE_ok_of_forall
            (g := fun v => match Json.as_f64 v with
              | some q => Except.ok (f64_as_f32 q)
              | none => Except.error ("Invalid vector element in field " ++ f.name))
            (P := fun _ => True) (l := elems)
            (by
              intro v hv
              cases hq : v.as_f64 with
              | none =>
                  have hvs := hall v hv
                  rw [hq] at hvs
                  cases hvs
              | some q => exact ⟨f64_as_f32 q, by simp [hq], trivial⟩)
          refine ⟨bs, ?_, by rw [hblen, hlen]⟩
          simp [vectorCell, hval, hlen, htrav]

theorem flattenVectors_all_some {size : Int} {s : Nat} :
    ∀ {vecs : List (Option (List Rat))},
      (∀ ov ∈ vecs, ∃ vv, ov = some vv ∧ vv.length = s) →
      (flattenVectors size vecs).length = vecs.length * s ∧
        ∀ x ∈ flattenVectors size vecs, x.isSome := by
  intro vecs
  induction vecs with
  | nil =>
      intro _
      exact ⟨by simp [flattenVectors], by intro x hx; cases hx⟩
  | cons ov rest ih =>
      intro h
      obtain ⟨vv, hvv, hvlen⟩ := h ov (by simp)
      obtain ⟨ihlen, ihsome⟩ := ih (fun a ha => h a (by simp [ha]))
      subst hvv
      constructor
      · simp [flattenVectors, ihlen, hvlen]
        ring
      · intro x hx
        simp [flattenVectors] at hx
        rcases hx with ⟨a, _, rfl⟩ | hx
        · rfl
        · exact ihsome x hx

theorem decodeColumn_ok_of_matches {rows : List Json} {f : Field}
    (hs : decodeSupported f.dataType = true)
    (hm : ∀ row ∈ rows, cellMatches f row = true) :
    ∃ c, decodeColumn rows f = Except.ok (Except.ok c) ∧ c.length = rows.length ∧
      c.dataType = f.dataType ∧ (f.nullable = false → c.nullCount = 0) := by
  cases ht : f.dataType with
  | int8 => rw [ht] at hs; exact Bool.noConfusion hs
  | int16 => rw [ht] at hs; exact Bool.noConfusion hs
  | float16 => rw [ht] at hs; exact Bool.noConfusion hs
  | binary => rw [ht] at hs; exact Bool.noConfusion hs
  | int32 =>
      obtain ⟨bs, htrav, hlen, hP⟩ := traverseE_ok_of_forall
        (g := int32Cell f) (P := fun v => f.nullable = false → v.isSome) (l := rows)
        (fun row hrow => int32Cell_ok_of_matches ht (hm row hrow))
      refine ⟨Column.int32Col bs, ?_, ?_, ?_, ?_⟩
      · unfold decodeColumn; rw [ht]; simp [htrav, Except.map]
      · simpa [Column.length] using hlen
      · simp [Column.dataType, ht]
      · intro hnb
        simp only [Column.nullCount]
        exact filter_isNone_eq_zero (fun b hb => hP b hb hnb)
  | int64 =>
      obtain ⟨bs, htrav, hlen, hP⟩ := traverseE_ok_of_forall
        (g := int64Cell f) (P := fun v => f.nullable = false → v.isSome) (l := rows)
        (fun row hrow => int64Cell_ok_of_matches ht (hm row hrow))
      refine ⟨Column.int64Col bs, ?_, ?_, ?_, ?_⟩
      · unfold decodeColumn; rw [ht]; simp [htrav, Except.map]
      · simpa [Column.length] using hlen
      · simp [Column.dataType, ht]
      · intro hnb
        simp only [Column.nullCount]
        exact filter_isNone_eq_zero (fun b hb => hP b hb hnb)
  | float32 =>
      obtain ⟨bs, htrav, hlen, hP⟩ := traverseE_ok_of_forall
        (g := float32Cell f) (P := fun v => f.nullable = false → v.isSome) (l := rows)
        (fun row hrow => float32Cell_ok_of_matches ht (hm row hrow))
      refine ⟨Column.float32Col bs, ?_, ?_, ?_, ?_⟩
      · unfold decodeColumn; rw [ht]; simp [htrav, Except.map]
      · simpa [Column.length] using hlen
      · simp [Column.dataType, ht]
      · intro hnb
        simp only [Column.nullCount]
        exact filter_isNone_eq_zero (fun b hb => hP b hb hnb)
  | float64 =>
      obtain ⟨bs, htrav, hlen, hP⟩ := traverseE_ok_of_forall
        (g := float64Cell f) (P := fun v => f.nullable = false → v.isSome) (l := rows)
        (fun row hrow => float64Cell_ok_of_matches ht (hm row hrow))
      refine ⟨Column.float64Col bs, ?_, ?_, ?_, ?_⟩
      · unfold decodeColumn; rw [ht]; simp [htrav, Except.map]
      · simpa [Column.length] using hlen
      · simp [Column.dataType, ht]
      · intro hnb
        simp only [Column.nullCount]
        exact filter_isNone_eq_zero (fun b hb => hP b hb hnb)
  | boolean =>
      obtain ⟨bs, htrav, hlen, hP⟩ := traverseE_ok_of_forall
        (g := booleanCell f) (P := fun v => f.nullable = false → v.isSome) (l := rows)
        (fun row hrow => booleanCell_ok_of_matches ht (hm row hrow))
      refine ⟨Column.boolCol bs, ?_, ?_, ?_, ?_⟩
      · unfold decodeColumn; rw [ht]; simp [htrav, Except.map]
      · simpa [Column.length] using hlen
      · simp [Column.dataType, ht]
      · intro hnb
        simp only [Column.nullCount]
        exact filter_isNone_eq_zero (fun b hb => hP b hb hnb)
  | utf8 =>
      obtain ⟨bs, htrav, hlen, hP⟩ := traverseE_ok_of_forall
        (g := utf8Cell f) (P := fun v => f.nullable = false → v.isSome) (l := rows)
        (fun row hrow => utf8Cell_ok_of_matches ht (hm row hrow))
      refine ⟨Column.utf8Col bs, ?_, ?_, ?_, ?_⟩
      · unfold decodeColumn; rw [ht]; simp [htrav, Except.map]
      · simpa [Column.length] using hlen
      · simp [Column.dataType, ht]
      · intro hnb
        simp only [Column.nullCount]
        exact filter_isNone_eq_zero (fun b hb => hP b hb hnb)
  | fixedSizeList inm itp inb size =>
      rw [ht] at hs
      unfold decodeSupported at hs
      rw [Bool.and_eq_true, Bool.and_eq_true] at hs
      have hitp : itp = DataType.float32 := of_decide_eq_true hs.1.1
      subst hitp
      have h1le : 1 ≤ size := of_decide_eq_true hs.1.2
      have hle : size ≤ 2147483647 := of_decide_eq_true hs.2
      have husz : usizeOfI32 size = size.toNat := usizeOfI32_of_nonneg (by omega) hle
      obtain ⟨vecs, htrav, hveclen, hPv⟩ := traverseE_ok_of_forall
        (g := vectorCell f size)
        (P := fun ov => ∃ vv, ov = some vv ∧ vv.length = size.toNat) (l := rows)
        (by
          intro row hrow
          obtain ⟨vs, hcell, hvslen⟩ := vectorCell_ok_of_matches ht (hm row hrow)
          exact ⟨some vs, hcell, vs, rfl, by rw [hvslen, husz]⟩)
      obtain ⟨hflen, hfsome⟩ := flattenVectors_all_some hPv
      have hnc : (Column.float32Col (flattenVectors size vecs)).nullCount = 0 := by
        simp only [Column.nullCount]
        exact filter_isNone_eq_zero hfsome
      have hnew : fsl_new inm DataType.float32 inb size
          (Column.float32Col (flattenVectors size vecs)) none =
          Except.ok (Column.fslCol inm DataType.float32 inb size
            (Column.float32Col (flattenVectors size vecs)) none) := by
        unfold fsl_new
        rw [if_neg (by omega)]
        rw [if_neg (by simp [Column.dataType])]
        rw [if_neg (by simp)]
        rw [if_neg (by rw [hnc]; simp)]
      refine ⟨Column.fslCol inm DataType.float32 inb size
          (Column.float32Col (flattenVectors size vecs)) none, ?_, ?_, ?_, ?_⟩
      · unfold decodeColumn
        rw [ht]
        simp [htrav, hnew]
      · have hstoNat : 1 ≤ size.toNat := by omega
        simp only [Column.length]
        rw [hflen, hveclen]
        rw [max_eq_left hstoNat]
        exact Nat.mul_div_cancel _ (by omega)
      · simp [Column.dataType, ht]
      · intro _
        rfl

theorem decodeColumns_ok_of_matches {rows : List Json} :
    ∀ {fs : List Field},
      (∀ f ∈ fs, decodeSupported f.dataType = true) →
      (∀ row ∈ rows, ∀ f ∈ fs, cellMatches f row = true) →
      ∃ cols, decodeColumns rows fs = Except.ok (Except.ok cols) ∧
        List.Forall₂ (fun (f : Field) (c : Column) =>
          c.length = rows.length ∧ c.dataType = f.dataType ∧
            (f.nullable = false → c.nullCount = 0)) fs cols := by
  intro fs
  induction fs with
  | nil =>
      intro _ _
      exact ⟨[], rfl, List.Forall₂.nil⟩
  | cons f rest ih =>
      intro hsup hm
      obtain ⟨c, hc, hclen, hctype, hcnc⟩ := decodeColumn_ok_of_matches
        (hsup f (by simp)) (fun row hrow => hm row hrow f (by simp))
      obtain ⟨cols, hcols, hfa⟩ := ih (fun g hg => hsup g (by simp [hg]))
        (fun row hrow g hg => hm row hrow g (by simp [hg]))
      refine ⟨c :: cols, ?_, List.Forall₂.cons ⟨hclen, hctype, hcnc⟩ hfa⟩
      simp [decodeColumns, hc, hcols]

theorem columnsMatchFields_ok :
    ∀ {fs : List Field} {cols : List Column},
      List.Forall₂ (fun (f : Field) (c : Column) =>
        c.dataType = f.dataType ∧ (f.nullable = false → c.nullCount = 0)) fs cols →
      columnsMatchFields fs cols = Except.ok () := by
  intro fs cols h
  induction h with
  | nil => rfl
  | cons hp _ ihr =>
      rename_i f c fs2 cols2 _
      unfold columnsMatchFields
      rw [if_neg ?_]
      · rw [if_neg (by rw [hp.1]; simp)]
        exact ihr
      · intro hcon
        cases hb : f.nullable with
        | true => exact hcon.1 (by simp [hb])
        | false => exact hcon.2 (hp.2 hb)

theorem forall₂_right_length {R : Field → Column → Prop} {n : Nat} :
    ∀ {fs : List Field} {cols : List Column}, List.Forall₂ R fs cols →
      (∀ f c, R f c → c.length = n) → ∀ c ∈ cols, c.length = n := by
  intro fs cols h
  induction h with
  | nil => intro _ c hc; cases hc
  | cons hp _ ihr =>
      intro himp c hc
      rcases List.mem_cons.mp hc with rfl | hc
      · exact himp _ _ hp
      · exact ihr himp c hc

theorem try_new_ok_of {fields : List Field} {cols : List Column} {n : Nat}
    (hlen : fields.length = cols.length) (hne : fields ≠ [])
    (hall : ∀ c ∈ cols, c.length = n)
    (hmf : columnsMatchFields fields cols = Except.ok ()) :
    RecordBatch.try_new ⟨fields⟩ cols = Except.ok ⟨⟨fields⟩, cols⟩ := by
  unfold RecordBatch.try_new
  rw [if_neg (by simp [hlen])]
  cases cols with
  | nil =>
      exfalso
      apply hne
      cases fields with
      | nil => rfl
      | cons g gs => simp at hlen
  | cons c0 cols2 =>
      simp only [List.head?]
      rw [if_neg ?_]
      · rw [hmf]
      · rw [List.any_eq_true]
        rintro ⟨c, hc, hcl⟩
        have h1 := hall c hc
        have h2 := hall c0 (by simp)
        rw [h1, h2] at hcl
        simp at hcl

/-- C5 counterexample: the claim includes int8 among the supported decode
types, but json_to_record_batch rejects an int8 field solely because of its
declared logical type, even for a perfectly matching row value. -/
theorem claim_C5_counterexample :
    json_to_record_batch [Json.obj [("a", Json.num (JsonNumber.int 1))]]
        ⟨[⟨"a", DataType.int8, true⟩]⟩ =
      Except.ok (Except.error "Unsupported data type: Int8") := rfl

/-- C5 (amended): json_to_record_batch is total on the set of logical types its
dispatch actually covers, namely int32, int64, float32, float64, boolean, utf8
and fixed-size-list of float32 with a positive i32 element count
(decodeSupported): for a nonempty schema over these types and rows whose
values all match their fields (cellMatches, which for vector fields requires a
present array of the declared length), the conversion succeeds.  Fields of
type int8, int16, float16, binary or a fixed-size list with a non-float32 item
are rejected purely by type, as claim_C5_counterexample shows. -/
theorem claim_C5_supported_types :
    ∀ (schema : Schema) (rows : List Json),
      schema.fields ≠ [] →
      (∀ f ∈ schema.fields, decodeSupported f.dataType = true) →
      (∀ row ∈ rows, ∀ f ∈ schema.fields, cellMatches f row = true) →
      ∃ b, json_to_record_batch rows schema = Except.ok (Except.ok b) := by
  intro schema rows hne hsup hm
  obtain ⟨cols, hcols, hfa⟩ := decodeColumns_ok_of_matches hsup hm
  have hlen : schema.fields.length = cols.length := hfa.length_eq
  have hmf : columnsMatchFields schema.fields cols = Except.ok () :=
    columnsMatchFields_ok (hfa.imp (fun a b hp => ⟨hp.2.1, hp.2.2⟩))
  have hall : ∀ c ∈ cols, c.length = rows.length :=
    forall₂_right_length hfa (fun f c hp => hp.1)
  have htn : RecordBatch.try_new schema cols = Except.ok ⟨schema, cols⟩ :=
    try_new_ok_of hlen hne hall hmf
  refine ⟨⟨schema, cols⟩, ?_⟩
  unfold json_to_record_batch
  rw [hcols]
  simp [htn]

/-- Witness for claim_C5_supported_types: a schema over the seven supported
shapes with one matching row. -/
theorem claim_C5_supported_types_witness :
    ∃ b, json_to_record_batch
        [Json.obj
          [("a", Json.num (JsonNumber.int 5)),
           ("b", Json.num (JsonNumber.int 6)),
           ("c", Json.num (JsonNumber.float (1/2))),
           ("d", Json.null),
           ("e", Json.bool true),
           ("f", Json.str "hi"),
           ("g", Json.arr [Json.num (JsonNumber.int 1), Json.num (JsonNumber.float (3/4))])]]
        ⟨[⟨"a", DataType.int32, false⟩,
          ⟨"b", DataType.int64, true⟩,
          ⟨"c", DataType.float32, false⟩,
          ⟨"d", DataType.float64, true⟩,
          ⟨"e", DataType.boolean, false⟩,
          ⟨"f", DataType.utf8, false⟩,
          ⟨"g", DataType.fixedSizeList "item" DataType.float32 false 2, false⟩]⟩ =
      Except.ok (Except.ok b) :=
  claim_C5_supported_types _ _ (by decide) (by decide) (by decide)

theorem getD_eq_of_get? {α : Type} {bs : List α} {x : α} :
    ∀ {r : Nat} (d : α), bs.get? r = some x → bs.getD r d = x := by
  induction bs with
  | nil =>
      intro r d h
      simp at h
  | cons a rest ih =>
      intro r d h
      cases r with
      | zero =>
          rw [List.get?_cons_zero] at h
          cases h
          rfl
      | succ j =>
          rw [List.get?_cons_succ] at h
          simpa [List.getD_cons_succ] using ih d h

theorem int32Cell_null {f : Field} {row : Json} (hn : f.nullable = true)
    (h : row.get f.name = none ∨ row.get f.name = some Json.null) :
    int32Cell f row = Except.ok none := by
  rcases h with h | h <;> simp [int32Cell, h, hn]

theorem int64Cell_null {f : Field} {row : Json} (hn : f.nullable = true)
    (h : row.get f.name = none ∨ row.get f.name = some Json.null) :
    int64Cell f row = Except.ok none := by
  rcases h with h | h <;> simp [int64Cell, h, hn]

theorem float32Cell_null {f : Field} {row : Json} (hn : f.nullable = true)
    (h : row.get f.name = none ∨ row.get f.name = some Json.null) :
    float32Cell f row = Except.ok none := by
  rcases h with h | h <;> simp [float32Cell, h, hn]

theorem float64Cell_null {f : Field} {row : Json} (hn : f.nullable = true)
    (h : row.get f.name = none ∨ row.get f.name = some Json.null) :
    float64Cell f row = Except.ok none := by
  rcases h with h | h <;> simp [float64Cell, h, hn]

theorem booleanCell_null {f : Field} {row : Json} (hn : f.nullable = true)
    (h : row.get f.name = none ∨ row.get f.name = some Json.null) :
    booleanCell f row = Except.ok none := by
  rcases h with h | h <;> simp [booleanCell, h, hn]

theorem utf8Cell_null {f : Field} {row : Json} (hn : f.nullable = true)
    (h : row.get f.name = none ∨ row.get f.name = some Json.null) :
    utf8Cell f row = Except.ok none := by
  rcases h with h | h <;> simp [utf8Cell, h, hn]

theorem vectorCell_null {f : Field} {size : Int} {row : Json} (hn : f.nullable = true)
    (h : row.get f.name = none ∨ row.get f.name = some Json.null) :
    vectorCell f size row = Except.ok none := by
  rcases h with h | h <;> simp [vectorCell, h, hn]

theorem try_new_ok_inv {schema : Schema} {cols : List Column} {b : RecordBatch}
    (h : RecordBatch.try_new schema cols = Except.ok b) : b = ⟨schema, cols⟩ := by
  unfold RecordBatch.try_new at h
  split at h
  · cases h
  · split at h
    · cases h
    · split at h
      · cases h
      · split at h
        · cases h
        · cases h
          rfl

theorem json_ok_inv {rows : List Json} {schema : Schema} {b : RecordBatch}
    (h : json_to_record_batch rows schema = Except.ok (Except.ok b)) :
    decodeColumns rows schema.fields = Except.ok (Except.ok b.columns) ∧ b.schema = schema := by
  unfold json_to_record_batch at h
  cases hd : decodeColumns rows schema.fields with
  | error u => rw [hd] at h; cases u; simp at h
  | ok r =>
      rw [hd] at h
      cases r with
      | error e => simp at h
      | ok cols =>
          simp at h
          cases htn : RecordBatch.try_new schema cols with
          | error e => rw [htn] at h; simp at h
          | ok b0 =>
              rw [htn] at h
              simp at h
              have hb0 := try_new_ok_inv htn
              subst hb0
              subst h
              exact ⟨rfl, rfl⟩

theorem flattenVectors_mem_none {size : Int} (hs : 1 ≤ size.toNat) :
    ∀ {vecs : List (Option (List Rat))}, none ∈ vecs →
      (none : Option Rat) ∈ flattenVectors size vecs := by
  intro vecs
  induction vecs with
  | nil => intro h; cases h
  | cons ov rest ih =>
      intro h
      cases ov with
      | none =>
          show (none : Option Rat) ∈ List.replicate size.toNat none ++ flattenVectors size rest
          apply List.mem_append_left
          exact List.mem_replicate.mpr ⟨by omega, rfl⟩
      | some v =>
          rcases List.mem_cons.mp h with hc | hc
          · cases hc
          · show (none : Option Rat) ∈ v.map some ++ flattenVectors size rest
            exact List.mem_append_right _ (ih hc)

theorem nullCount_ne_zero_of_mem_none {flat : List (Option Rat)}
    (h : (none : Option Rat) ∈ flat) : (Column.float32Col flat).nullCount ≠ 0 := by
  simp only [Column.nullCount]
  have hmem : (none : Option Rat) ∈ flat.filter Option.isNone :=
    List.mem_filter.mpr ⟨h, rfl⟩
  have := List.length_pos.mpr (List.ne_nil_of_mem hmem)
  omega

/-- C4: the claim that a JSON null or a missing key on a nullable field always
decodes to a null cell holds for the six non-vector types, but fails for
fixed-size-list (vector) fields.  Amended statement, following the code: (a)
for a nullable field of a non-vector supported type, a null or missing row
value yields a cell whose is-null predicate holds in the decoded batch; (b)
for a nullable vector field whose item field is non-nullable (as built by this
repository, schema.rs line 113), a null or missing row value makes the
conversion abort with a panic (conversion.rs line 211 passes no list-level
null buffer, so the child nulls are unmasked), and no batch at all is
produced; (c) a vector column that the conversion does build never has a null
cell at any row, because the list-level null buffer is always absent. -/
theorem claim_C4_null_cells :
    (∀ (rows : List Json) (schema : Schema) (b : RecordBatch) (i r : Nat) (f : Field)
        (row : Json),
      json_to_record_batch rows schema = Except.ok (Except.ok b) →
      schema.fields.get? i = some f →
      primSupported f.dataType = true →
      f.nullable = true →
      rows.get? r = some row →
      (row.get f.name = none ∨ row.get f.name = some Json.null) →
      ∃ c, b.columns.get? i = some c ∧ c.isNullAt r = true)
  ∧
    (∀ (rows : List Json) (fs1 fs2 : List Field) (f : Field) (inm : String) (size : Int),
      f.dataType = DataType.fixedSizeList inm DataType.float32 false size →
      f.nullable = true →
      1 ≤ size → size ≤ 2147483647 →
      (∀ g ∈ fs1, ∃ c, decodeColumn rows g = Except.ok (Except.ok c)) →
      (∀ row ∈ rows, cellMatches f row = true ∨ row.get f.name = some Json.null ∨
        row.get f.name = none) →
      (∃ r row, rows.get? r = some row ∧
        (row.get f.name = some Json.null ∨ row.get f.name = none)) →
      json_to_record_batch rows ⟨fs1 ++ f :: fs2⟩ = Except.error ())
  ∧
    (∀ (rows : List Json) (f : Field) (inm : String) (itp : DataType) (inb : Bool)
        (size : Int) (c : Column) (r : Nat),
      f.dataType = DataType.fixedSizeList inm itp inb size →
      decodeColumn rows f = Except.ok (Except.ok c) →
      c.isNullAt r = false) := by
  refine ⟨?_, ?_, ?_⟩
  · intro rows schema b i r f row hjson hfield hprim hnul hrow hval
    obtain ⟨hd, _⟩ := json_ok_inv hjson
    obtain ⟨c, hc, hcol⟩ := decodeColumns_ok_get hd hfield
    refine ⟨c, hc, ?_⟩
    cases ht : f.dataType with
    | int8 => rw [ht] at hprim; exact Bool.noConfusion hprim
    | int16 => rw [ht] at hprim; exact Bool.noConfusion hprim
    | float16 => rw [ht] at hprim; exact Bool.noConfusion hprim
    | binary => rw [ht] at hprim; exact Bool.noConfusion hprim
    | fixedSizeList inm itp inb size => rw [ht] at hprim; exact Bool.noConfusion hprim
    | int32 =>
        unfold decodeColumn at hcol
        rw [ht] at hcol
        cases htrav : traverseE (int32Cell f) rows with
        | error e => rw [htrav] at hcol; simp [Except.map] at hcol
        | ok bs =>
            rw [htrav] at hcol
            simp [Except.map] at hcol
            obtain ⟨bb, hbb, hcell⟩ := traverseE_ok_get htrav hrow
            rw [int32Cell_null hnul hval] at hcell
            cases hcell
            rw [← hcol]
            show (bs.getD r (some 0)).isNone = true
            rw [getD_eq_of_get? (some 0) hbb]
            rfl
    | int64 =>
        unfold decodeColumn at hcol
        rw [ht] at hcol
        cases htrav : traverseE (int64Cell f) rows with
        | error e => rw [htrav] at hcol; simp [Except.map] at hcol
        | ok bs =>
            rw [htrav] at hcol
            simp [Except.map] at hcol
            obtain ⟨bb, hbb, hcell⟩ := traverseE_ok_get htrav hrow
            rw [int64Cell_null hnul hval] at hcell
            cases hcell
            rw [← hcol]
            show (bs.getD r (some 0)).isNone = true
            rw [getD_eq_of_get? (some 0) hbb]
            rfl
    | float32 =>
        unfold decodeColumn at hcol
        rw [ht] at hcol
        cases htrav : traverseE (float32Cell f) rows with
        | error e => rw [htrav] at hcol; simp [Except.map] at hcol
        | ok bs =>
            rw [htrav] at hcol
            simp [Except.map] at hcol
            obtain ⟨bb, hbb, hcell⟩ := traverseE_ok_get htrav hrow
            rw [float32Cell_null hnul hval] at hcell
            cases hcell
            rw [← hcol]
            show (bs.getD r (some 0)).isNone = true
            rw [getD_eq_of_get? (some 0) hbb]
            rfl
    | float64 =>
        unfold decodeColumn at hcol
        rw [ht] at hcol
        cases htrav : traverseE (float64Cell f) rows with
        | error e => rw [htrav] at hcol; simp [Except.map] at hcol
        | ok bs =>
            rw [htrav] at hcol
            simp [Except.map] at hcol
            obtain ⟨bb, hbb, hcell⟩ := traverseE_ok_get htrav hrow
            rw [float64Cell_null hnul hval] at hcell
            cases hcell
            rw [← hcol]
            show (bs.getD r (some 0)).isNone = true
            rw [getD_eq_of_get? (some 0) hbb]
            rfl
    | boolean =>
        unfold decodeColumn at hcol
        rw [ht] at hcol
        cases htrav : traverseE (booleanCell f) rows with
        | error e => rw [htrav] at hcol; simp [Except.map] at hcol
        | ok bs =>
            rw [htrav] at hcol
            simp [Except.map] at hcol
            obtain ⟨bb, hbb, hcell⟩ := traverseE_ok_get htrav hrow
            rw [booleanCell_null hnul hval] at hcell
            cases hcell
            rw [← hcol]
            show (bs.getD r (some false)).isNone = true
            rw [getD_eq_of_get? (some false) hbb]
            rfl
    | utf8 =>
        unfold decodeColumn at hcol
        rw [ht] at hcol
        cases htrav : traverseE (utf8Cell f) rows with
        | error e => rw [htrav] at hcol; simp [Except.map] at hcol
        | ok bs =>
            rw [htrav] at hcol
            simp [Except.map] at hcol
            obtain ⟨bb, hbb, hcell⟩ := traverseE_ok_get htrav hrow
            rw [utf8Cell_null hnul hval] at hcell
            cases hcell
            rw [← hcol]
            show (bs.getD r (some "")).isNone = true
            rw [getD_eq_of_get? (some "") hbb]
            rfl
  · intro rows fs1 fs2 f inm size ht hnul h1le hle hfs1 hcells ⟨r, row, hrow, hval⟩
    have husz : usizeOfI32 size = size.toNat := usizeOfI32_of_nonneg (by omega) hle
    obtain ⟨vecs, htrav, _, _⟩ := traverseE_ok_of_forall
      (g := vectorCell f size) (P := fun _ => True) (l := rows)
      (by
        intro rr hrr
        rcases hcells rr hrr with hm | hm | hm
        · obtain ⟨vs, hcell, _⟩ := vectorCell_ok_of_matches ht hm
          exact ⟨some vs, hcell, trivial⟩
        · exact ⟨none, vectorCell_null hnul (Or.inr hm), trivial⟩
        · exact ⟨none, vectorCell_null hnul (Or.inl hm), trivial⟩)
    obtain ⟨bb, hbb, hcell⟩ := traverseE_ok_get htrav hrow
    rw [vectorCell_null hnul hval.symm] at hcell
    cases hcell
    have hmem : (none : Option (List Rat)) ∈ vecs := by
      have := List.get?_eq_some.mp hbb
      obtain ⟨hlt, hget⟩ := this
      rw [← hget]
      exact List.get_mem vecs _ _
    have hfmem : (none : Option Rat) ∈ flattenVectors size vecs :=
      flattenVectors_mem_none (by omega) hmem
    have hpanic : fsl_new inm DataType.float32 false size
        (Column.float32Col (flattenVectors size vecs)) none = Except.error () := by
      unfold fsl_new
      rw [if_neg (by omega)]
      rw [if_neg (by simp [Column.dataType])]
      rw [if_neg (by simp)]
      rw [if_pos ⟨by simp, nullCount_ne_zero_of_mem_none hfmem⟩]
    have hcol : decodeColumn rows f = Except.error () := by
      unfold decodeColumn
      rw [ht]
      simp [htrav, hpanic]
    have hcols := decodeColumns_panic_append hfs1 f fs2 hcol
    unfold json_to_record_batch
    simp [hcols]
  · intro rows f inm itp inb size c r ht hcol
    unfold decodeColumn at hcol
    rw [ht] at hcol
    have hcol2 : (if itp = DataType.float32 then
        match traverseE (vectorCell f size) rows with
        | Except.error e => Except.ok (Except.error e)
        | Except.ok vecs =>
            match fsl_new inm itp inb size
                (Column.float32Col (flattenVectors size vecs)) none with
            | Except.error () => Except.error ()
            | Except.ok col => Except.ok (Except.ok col)
      else Except.ok (Except.error ("Unsupported data type: " ++
        (DataType.fixedSizeList inm itp inb size).debugStr))) =
        Except.ok (Except.ok c) := hcol
    by_cases hitp : itp = DataType.float32
    · rw [if_pos hitp] at hcol2
      cases htrav : traverseE (vectorCell f size) rows with
      | error e => rw [htrav] at hcol2; simp at hcol2
      | ok vecs =>
          rw [htrav] at hcol2
          cases hnew : fsl_new inm itp inb size
              (Column.float32Col (flattenVectors size vecs)) none with
          | error u => cases u; simp [hnew] at hcol2
          | ok col =>
              simp [hnew] at hcol2
              subst hcol2
              unfold fsl_new at hnew
              split at hnew
              · cases hnew
              · split at hnew
                · cases hnew
                · split at hnew
                  · cases hnew
                  · split at hnew
                    · cases hnew
                    · cases hnew
                      simp [Column.isNullAt]
    · rw [if_neg hitp] at hcol2
      simp at hcol2

/-- C4 counterexample: the claim as stated fails for vector fields.  For a
nullable fixed-size-list float32 field with a nullable item field, decoding a
row with a JSON null succeeds but yields a batch whose vector cell is NOT null
(the is-null predicate is false: the cell is a present list of two null
elements); for the non-nullable item field this repository builds, the same
input aborts the conversion entirely (see claim_C4_null_cells part b). -/
theorem claim_C4_counterexample :
    json_to_record_batch [Json.obj [("v", Json.null)]]
        ⟨[⟨"v", DataType.fixedSizeList "item" DataType.float32 true 2, true⟩]⟩ =
      Except.ok (Except.ok
        ⟨⟨[⟨"v", DataType.fixedSizeList "item" DataType.float32 true 2, true⟩]⟩,
         [Column.fslCol "item" DataType.float32 true 2
            (Column.float32Col [none, none]) none]⟩)
  ∧ (Column.fslCol "item" DataType.float32 true 2
      (Column.float32Col [none, none]) none).isNullAt 0 = false
  ∧ json_to_record_batch [Json.obj [("v", Json.null)]]
        ⟨[⟨"v", DataType.fixedSizeList "item" DataType.float32 false 2, true⟩]⟩ =
      Except.error () :=
  ⟨rfl, rfl, rfl⟩

/-- Witness for claim_C4_null_cells: part (a) at an int32 null cell, part (b)
at the aborting vector decode, part (c) at a decoded vector column. -/
theorem claim_C4_null_cells_witness :
    (∃ c, ([Column.int32Col [none]] : List Column).get? 0 = some c ∧ c.isNullAt 0 = true)
  ∧ json_to_record_batch [Json.obj [("v", Json.null)]]
      ⟨[] ++ ⟨"v", DataType.fixedSizeList "item" DataType.float32 false 2, true⟩ :: []⟩ =
      Except.error ()
  ∧ (Column.fslCol "item" DataType.float32 true 2
      (Column.float32Col [none, none]) none).isNullAt 5 = false := by
  refine ⟨?_, ?_, ?_⟩
  · exact claim_C4_null_cells.1 [Json.obj [("x", Json.null)]]
      ⟨[⟨"x", DataType.int32, true⟩]⟩
      ⟨⟨[⟨"x", DataType.int32, true⟩]⟩, [Column.int32Col [none]]⟩ 0 0
      ⟨"x", DataType.int32, true⟩ (Json.obj [("x", Json.null)])
      (by rfl) (by rfl) (by rfl) (by rfl) (by rfl) (Or.inr (by rfl))
  · exact claim_C4_null_cells.2.1 [Json.obj [("v", Json.null)]] [] []
      ⟨"v", DataType.fixedSizeList "item" DataType.float32 false 2, true⟩ "item" 2
      (by rfl) (by rfl) (by decide) (by decide)
      (by intro g hg; cases hg)
      (by intro row hrow; right; left; rcases List.mem_cons.mp hrow with rfl | hc
          · rfl
          · cases hc)
      ⟨0, Json.obj [("v", Json.null)], by rfl, Or.inl (by rfl)⟩
  · exact claim_C4_null_cells.2.2 [Json.obj [("v", Json.null)]]
      ⟨"v", DataType.fixedSizeList "item" DataType.float32 true 2, true⟩ "item"
      DataType.float32 true 2
      (Column.fslCol "item" DataType.float32 true 2 (Column.float32Col [none, none]) none) 5
      (by rfl) (by rfl)

theorem objInsert_fresh {es : List (String × Json)} {k : String} (v : Json)
    (h : k ∉ es.map Prod.fst) : objInsert es k v = es ++ [(k, v)] := by
  induction es with
  | nil => rfl
  | cons p rest ih =>
      unfold objInsert
      rw [if_neg ?_]
      · rw [ih (by intro hc; exact h (by simp [hc]))]
        rfl
      · intro hc
        exact h (by simp [hc])

theorem foldl_objInsert_keys {α : Type} (key : α → String) (val : α → Json) :
    ∀ {l : List α} (acc : List (String × Json)),
      (l.map key).Nodup →
      (∀ k ∈ l.map key, k ∉ acc.map Prod.fst) →
      List.foldl (fun a x => objInsert a (key x) (val x)) acc l =
        acc ++ l.map (fun x => (key x, val x)) := by
  intro l
  induction l with
  | nil =>
      intro acc _ _
      simp
  | cons x rest ih =>
      intro acc hnd hfresh
      rw [List.map_cons] at hnd
      obtain ⟨hx1, hnd2⟩ := List.nodup_cons.mp hnd
      have hx : key x ∉ acc.map Prod.fst := hfresh (key x) (by simp)
      show List.foldl _ (objInsert acc (key x) (val x)) rest = _
      rw [objInsert_fresh (val x) hx]
      rw [ih (acc ++ [(key x, val x)]) hnd2 ?_]
      · simp
      · intro k hk
        rw [List.map_append, List.mem_append]
        rintro (hka | hkp)
        · exact hfresh k (by simp [hk]) hka
        · simp at hkp
          rw [hkp] at hk
          exact hx1 hk

theorem lookupEntry_nodup_get :
    ∀ {pairs : List (String × Json)} {i : Nat} {k : String} {v : Json},
      (pairs.map Prod.fst).Nodup → pairs.get? i = some (k, v) →
      lookupEntry pairs k = some v := by
  intro pairs
  induction pairs with
  | nil =>
      intro i k v _ h
      simp at h
  | cons p rest ih =>
      intro i k v hnd h
      cases i with
      | zero =>
          rw [List.get?_cons_zero] at h
          cases h
          unfold lookupEntry
          rw [if_pos rfl]
      | succ j =>
          rw [List.get?_cons_succ] at h
          simp at hnd
          have hkmem : (k, v) ∈ rest := by
            have := List.get?_eq_some.mp h
            obtain ⟨hlt, hget⟩ := this
            rw [← hget]
            exact List.get_mem rest _ _
          have hkne : p.1 ≠ k := by
            intro hke
            rw [← hke] at hkmem
            exact hnd.1 v hkmem
          unfold lookupEntry
          rw [if_neg hkne]
          exact ih hnd.2 h

theorem get?_zip_of_get? {α β : Type} :
    ∀ {l1 : List α} {l2 : List β} {i : Nat} {a : α} {b : β},
      l1.get? i = some a → l2.get? i = some b → (List.zip l1 l2).get? i = some (a, b) := by
  intro l1
  induction l1 with
  | nil =>
      intro l2 i a b h1 _
      simp at h1
  | cons x rest ih =>
      intro l2 i a b h1 h2
      cases l2 with
      | nil => simp at h2
      | cons y rest2 =>
          cases i with
          | zero =>
              rw [List.get?_cons_zero] at h1 h2
              cases h1
              cases h2
              rfl
          | succ j =>
              rw [List.get?_cons_succ] at h1 h2
              show (List.zip rest rest2).get? j = some (a, b)
              exact ih h1 h2

theorem range_map_getD {α : Type} :
    ∀ (l : List α) (d : α), (List.range l.length).map (fun i => l.getD i d) = l := by
  intro l
  induction l with
  | nil => intro d; rfl
  | cons a rest ih =>
      intro d
      show (List.range (rest.length + 1)).map _ = _
      rw [List.range_succ_eq_map]
      rw [List.map_cons, List.map_map]
      have hcomp : ((fun i => (a :: rest).getD i d) ∘ (fun i => i + 1)) =
          fun i => rest.getD i d := by
        funext i
        simp [List.getD_cons_succ]
      rw [hcomp]
      rw [ih d]
      rfl

theorem traverseE_map {α γ β : Type} {g : γ → Except String β} {h : α → γ} :
    ∀ {l : List α}, traverseE g (l.map h) = traverseE (fun a => g (h a)) l := by
  intro l
  induction l with
  | nil => rfl
  | cons a rest ih =>
      show traverseE g (h a :: rest.map h) = _
      unfold traverseE
      rw [ih]

/-- Row objects of encode_rows: with pairwise distinct field names, looking up
field i in an encoded row yields the encoded cell of column i. -/
theorem encodeRow_get {fields : List Field} {cols : List Column} {i : Nat}
    {f : Field} {c : Column} (r : Nat)
    (hnd : (fields.map Field.name).Nodup)
    (hlen : fields.length = cols.length)
    (hf : fields.get? i = some f) (hc : cols.get? i = some c) :
    (Json.obj (encodeRowEntries fields cols r)).get f.name = some (encVal c r) := by
  have hzip : (List.zip fields cols).get? i = some (f, c) := get?_zip_of_get? hf hc
  have hmapfst : (List.zip fields cols).map Prod.fst = fields := by
    apply List.map_fst_zip
    omega
  have hkeys : (List.zip fields cols).map (fun fc : Field × Column => fc.1.name) =
      fields.map Field.name := by
    have h1 : (fun fc : Field × Column => fc.1.name) = (Field.name ∘ Prod.fst) := rfl
    rw [h1, ← List.map_map, hmapfst]
  have hpairs : encodeRowEntries fields cols r =
      (List.zip fields cols).map (fun fc => (fc.1.name, encVal fc.2 r)) := by
    unfold encodeRowEntries
    show List.foldl (fun a (fc : Field × Column) => objInsert a fc.1.name (encVal fc.2 r))
        [] (List.zip fields cols) = _
    rw [foldl_objInsert_keys (fun fc : Field × Column => fc.1.name)
      (fun fc : Field × Column => encVal fc.2 r) [] (by rw [hkeys]; exact hnd)
      (by intro k _ hk; simp at hk)]
    simp
  show lookupEntry (encodeRowEntries fields cols r) f.name = some (encVal c r)
  rw [hpairs]
  apply lookupEntry_nodup_get (i := i)
  · rw [List.map_map]
    have h1 : ((fun p : String × Json => p.1) ∘ fun fc : Field × Column =>
        (fc.1.name, encVal fc.2 r)) = (Field.name ∘ Prod.fst) := rfl
    rw [h1, ← List.map_map, hmapfst]
    exact hnd
  · rw [List.get?_map, hzip]
    rfl

theorem filter_isNone_ne_zero {α : Type} {vs : List (Option α)}
    (h : (none : Option α) ∈ vs) : (vs.filter Option.isNone).length ≠ 0 := by
  have hmem : (none : Option α) ∈ vs.filter Option.isNone :=
    List.mem_filter.mpr ⟨h, rfl⟩
  have := List.length_pos.mpr (List.ne_nil_of_mem hmem)
  omega

theorem columnsMatchFields_ok_inv :
    ∀ {fs : List Field} {cols : List Column},
      columnsMatchFields fs cols = Except.ok () →
      ∀ {i : Nat} {f : Field} {c : Column}, fs.get? i = some f → cols.get? i = some c →
        c.dataType = f.dataType ∧ (f.nullable = false → c.nullCount = 0) := by
  intro fs
  induction fs with
  | nil =>
      intro cols _ i f c hf _
      simp at hf
  | cons f0 rest ih =>
      intro cols h i f c hf hc
      cases cols with
      | nil => simp at hc
      | cons c0 cols2 =>
          unfold columnsMatchFields at h
          split at h
          · cases h
          · rename_i hnc
            split at h
            · cases h
            · rename_i htype
              cases i with
              | zero =>
                  rw [List.get?_cons_zero] at hf hc
                  cases hf
                  cases hc
                  constructor
                  · exact (not_not.mp htype).symm
                  · intro hnb
                    by_contra hcnt
                    exact hnc ⟨by simp [hnb], hcnt⟩
              | succ j =>
                  rw [List.get?_cons_succ] at hf hc
                  exact ih h hf hc

theorem try_new_ok_facts {s : Schema} {cols : List Column} {b : RecordBatch}
    (h : RecordBatch.try_new s cols = Except.ok b) :
    s.fields.length = cols.length ∧
      columnsMatchFields s.fields cols = Except.ok () ∧
      ∀ c ∈ cols, c.length = b.numRows := by
  have hb := try_new_ok_inv h
  subst hb
  unfold RecordBatch.try_new at h
  split at h
  · cases h
  · rename_i hlen
    cases hh : cols.head? with
    | none => rw [hh] at h; cases h
    | some c0 =>
        rw [hh] at h
        have h2 : (if (cols.any fun c => decide (c.length ≠ c0.length)) = true
            then (Except.error "columns have different lengths" : Except String RecordBatch)
            else match columnsMatchFields s.fields cols with
              | Except.error e => Except.error e
              | Except.ok PUnit.unit => Except.ok { schema := s, columns := cols }) =
            Except.ok { schema := s, columns := cols } := h
        rcases Bool.eq_false_or_eq_true (cols.any fun c => decide (c.length ≠ c0.length)) with
          hany | hany
        · rw [if_pos hany] at h2
          cases h2
        · rw [if_neg (by rw [hany]; exact Bool.false_ne_true)] at h2
          cases hmf : columnsMatchFields s.fields cols with
          | error e => simp [hmf] at h2
          | ok u =>
              cases u
              refine ⟨by omega, rfl, ?_⟩
              intro c hc
              have hce : c.length = c0.length := by
                by_contra hne
                have hat : cols.any (fun c => decide (c.length ≠ c0.length)) = true :=
                  List.any_eq_true.mpr ⟨c, hc, by simp [hne]⟩
                rw [hany] at hat
                cases hat
              rw [hce]
              show c0.length = (RecordBatch.numRows ⟨s, cols⟩)
              unfold RecordBatch.numRows
              simp [hh]

theorem map_getD_map_some {α : Type} (d : α) :
    ∀ {l : List (Option α)}, (∀ x ∈ l, x.isSome) →
      (l.map (fun ov => ov.getD d)).map some = l := by
  intro l
  induction l with
  | nil => intro _; rfl
  | cons ov rest ih =>
      intro h
      cases ov with
      | none =>
          have := h none (by simp)
          cases this
      | some a =>
          show some a :: _ = _
          rw [ih (fun x hx => h x (by simp [hx]))]

theorem convertRange_float32 {ws : List (Option Rat)} (hsome : ∀ x ∈ ws, x.isSome) :
    ∀ (count start : Nat), start + count ≤ ws.length →
      convertRange (convert_arrow_value_to_json (Column.float32Col ws)) start count =
        Except.ok (((ws.drop start).take count).map
          (fun ov => Json.num (JsonNumber.float (ov.getD 0)))) := by
  intro count
  induction count with
  | zero =>
      intro start _
      simp [convertRange]
  | succ k ih =>
      intro start hle
      have hstart : start < ws.length := by omega
      have hget : ∃ w, ws.get? start = some (some w) := by
        cases hw : ws.get? start with
        | none =>
            exfalso
            rw [List.get?_eq_none] at hw
            omega
        | some ov =>
            have hmem : ov ∈ ws := by
              obtain ⟨hlt, hgt⟩ := List.get?_eq_some.mp hw
              rw [← hgt]
              exact List.get_mem ws _ _
            have hos := hsome ov hmem
            cases ov with
            | none => cases hos
            | some w => exact ⟨w, rfl⟩
      obtain ⟨w, hw⟩ := hget
      have hnull : (Column.float32Col ws).isNullAt start = false := by
        show (ws.getD start (some 0)).isNone = false
        rw [getD_eq_of_get? (some 0) hw]
        rfl
      have hval : cellGetD ws start 0 = w := by
        unfold cellGetD
        rw [getD_eq_of_get? none hw]
        rfl
      have hconv : convert_arrow_value_to_json (Column.float32Col ws) start =
          Except.ok (Json.num (JsonNumber.float w)) := by
        unfold convert_arrow_value_to_json
        rw [hnull]
        rw [hval]
        rfl
      unfold convertRange
      rw [hconv]
      rw [ih (start + 1) (by omega)]
      have hdecomp : (ws.drop start).take (k + 1) =
          (some w) :: ((ws.drop (start + 1)).take k) := by
        rw [List.drop_eq_get_cons hstart]
        rw [List.take_succ_cons]
        have : ws.get ⟨start, hstart⟩ = some w := by
          have := List.get?_eq_get hstart
          rw [hw] at this
          exact (Option.some.injEq _ _).mp this.symm
        rw [this]
      rw [hdecomp]
      rfl

theorem flatten_slices {s : Nat} {size : Int} (_hs : size.toNat = s) :
    ∀ (n : Nat) (ws : List (Option Rat)), (∀ x ∈ ws, x.isSome) → ws.length = s * n →
      flattenVectors size ((List.range n).map
        (fun r => some (((ws.drop (r * s)).take s).map (fun ov => ov.getD 0)))) = ws := by
  intro n
  induction n with
  | zero =>
      intro ws _ hlen
      have : ws = [] := List.length_eq_zero.mp (by omega)
      subst this
      rfl
  | succ m ih =>
      intro ws hsome hlen
      rw [List.range_succ_eq_map]
      rw [List.map_cons, List.map_map]
      simp only [Nat.zero_mul, List.drop_zero]
      have htake : ((ws.take s).map (fun ov => ov.getD (0 : Rat))).map some = ws.take s :=
        map_getD_map_some 0 (fun x hx => hsome x (List.take_subset s ws hx))
      have hmapeq : (List.range m).map
          ((fun r => some (((ws.drop (r * s)).take s).map (fun ov => ov.getD (0 : Rat)))) ∘
            Nat.succ) =
          (List.range m).map
            (fun r => some ((((ws.drop s).drop (r * s)).take s).map (fun ov => ov.getD 0))) := by
        apply List.map_congr_left
        intro r _
        have hdd : (ws.drop s).drop (r * s) = ws.drop (Nat.succ r * s) := by
          rw [List.drop_drop]
          congr 1
          rw [Nat.succ_mul]
          omega
        show some (((ws.drop (Nat.succ r * s)).take s).map (fun ov => ov.getD (0 : Rat))) = _
        rw [hdd]
      show flattenVectors size (some ((ws.take s).map (fun ov => ov.getD 0)) ::
        (List.range m).map
          ((fun r => some (((ws.drop (r * s)).take s).map (fun ov => ov.getD (0 : Rat)))) ∘
            Nat.succ)) = ws
      rw [hmapeq]
      show ((ws.take s).map (fun ov => ov.getD (0 : Rat))).map some ++
        flattenVectors size ((List.range m).map
          (fun r => some ((((ws.drop s).drop (r * s)).take s).map (fun ov => ov.getD 0)))) = ws
      rw [htake]
      rw [ih (ws.drop s) (fun x hx => hsome x (List.drop_subset s ws hx))
        (by
          rw [List.length_drop]
          have hx : ws.length = s * m + s := by rw [hlen]; ring
          omega)]
      exact List.take_append_drop s ws

theorem get?_some_of_lt {α : Type} {l : List α} {r : Nat} (h : r < l.length) :
    ∃ a, l.get? r = some a := by
  cases hv : l.get? r with
  | none =>
      rw [List.get?_eq_none] at hv
      omega
  | some a => exact ⟨a, rfl⟩

theorem mem_of_get?_some {α : Type} {l : List α} {r : Nat} {a : α}
    (h : l.get? r = some a) : a ∈ l := by
  obtain ⟨hlt, hget⟩ := List.get?_eq_some.mp h
  rw [← hget]
  exact List.get_mem l _ _

theorem int32_cell_encode {f : Field} {vs : List (Option Int)} {row : Json} {r : Nat}
    (hlk : row.get f.name = some (encVal (Column.int32Col vs) r))
    (hr : r < vs.length)
    (hall : ∀ ov ∈ vs, ∀ v : Int, ov = some v → -2147483648 ≤ v ∧ v ≤ 2147483647)
    (hnb : (none : Option Int) ∈ vs → f.nullable = true) :
    int32Cell f row = Except.ok (vs.getD r none) := by
  obtain ⟨ov, hov⟩ := get?_some_of_lt hr
  rw [getD_eq_of_get? none hov]
  cases ov with
  | none =>
      have hnull : (Column.int32Col vs).isNullAt r = true := by
        show (vs.getD r (some 0)).isNone = true
        rw [getD_eq_of_get? (some 0) hov]
        rfl
      have henc : encVal (Column.int32Col vs) r = Json.null := by
        unfold encVal convert_arrow_value_to_json
        rw [hnull]
        rfl
      rw [henc] at hlk
      simp [int32Cell, hlk, hnb (mem_of_get?_some hov)]
  | some w =>
      have hnull : (Column.int32Col vs).isNullAt r = false := by
        show (vs.getD r (some 0)).isNone = false
        rw [getD_eq_of_get? (some 0) hov]
        rfl
      have henc : encVal (Column.int32Col vs) r = Json.num (JsonNumber.int w) := by
        unfold encVal convert_arrow_value_to_json
        rw [hnull]
        unfold cellGetD
        rw [getD_eq_of_get? none hov]
        rfl
      rw [henc] at hlk
      have h32 := hall _ (mem_of_get?_some hov) w rfl
      have h64 : -9223372036854775808 ≤ w ∧ w ≤ 9223372036854775807 := by omega
      simp [int32Cell, hlk, JsonNumber.as_i64, h64, h32.1, h32.2]

theorem int64_cell_encode {f : Field} {vs : List (Option Int)} {row : Json} {r : Nat}
    (hlk : row.get f.name = some (encVal (Column.int64Col vs) r))
    (hr : r < vs.length)
    (hall : ∀ ov ∈ vs, ∀ v : Int, ov = some v → -(2 ^ 63) ≤ v ∧ v ≤ 2 ^ 63 - 1)
    (hnb : (none : Option Int) ∈ vs → f.nullable = true) :
    int64Cell f row = Except.ok (vs.getD r none) := by
  obtain ⟨ov, hov⟩ := get?_some_of_lt hr
  rw [getD_eq_of_get? none hov]
  cases ov with
  | none =>
      have hnull : (Column.int64Col vs).isNullAt r = true := by
        show (vs.getD r (some 0)).isNone = true
        rw [getD_eq_of_get? (some 0) hov]
        rfl
      have henc : encVal (Column.int64Col vs) r = Json.null := by
        unfold encVal convert_arrow_value_to_json
        rw [hnull]
        rfl
      rw [henc] at hlk
      simp [int64Cell, hlk, hnb (mem_of_get?_some hov)]
  | some w =>
      have hnull : (Column.int64Col vs).isNullAt r = false := by
        show (vs.getD r (some 0)).isNone = false
        rw [getD_eq_of_get? (some 0) hov]
        rfl
      have henc : encVal (Column.int64Col vs) r = Json.num (JsonNumber.int w) := by
        unfold encVal convert_arrow_value_to_json
        rw [hnull]
        unfold cellGetD
        rw [getD_eq_of_get? none hov]
        rfl
      rw [henc] at hlk
      have h64p := hall _ (mem_of_get?_some hov) w rfl
      have h64 : -9223372036854775808 ≤ w ∧ w ≤ 9223372036854775807 := by
        constructor <;> omega
      simp [int64Cell, hlk, JsonNumber.as_i64, h64]

theorem float32_cell_encode {f : Field} {vs : List (Option Rat)} {row : Json} {r : Nat}
    (hlk : row.get f.name = some (encVal (Column.float32Col vs) r))
    (hr : r < vs.length)
    (hnb : (none : Option Rat) ∈ vs → f.nullable = true) :
    float32Cell f row = Except.ok (vs.getD r none) := by
  obtain ⟨ov, hov⟩ := get?_some_of_lt hr
  rw [getD_eq_of_get? none hov]
  cases ov with
  | none =>
      have hnull : (Column.float32Col vs).isNullAt r = true := by
        show (vs.getD r (some 0)).isNone = true
        rw [getD_eq_of_get? (some 0) hov]
        rfl
      have henc : encVal (Column.float32Col vs) r = Json.null := by
        unfold encVal convert_arrow_value_to_json
        rw [hnull]
        rfl
      rw [henc] at hlk
      simp [float32Cell, hlk, hnb (mem_of_get?_some hov)]
  | some w =>
      have hnull : (Column.float32Col vs).isNullAt r = false := by
        show (vs.getD r (some 0)).isNone = false
        rw [getD_eq_of_get? (some 0) hov]
        rfl
      have henc : encVal (Column.float32Col vs) r = Json.num (JsonNumber.float w) := by
        unfold encVal convert_arrow_value_to_json
        rw [hnull]
        unfold cellGetD
        rw [getD_eq_of_get? none hov]
        rfl
      rw [henc] at hlk
      simp [float32Cell, hlk, JsonNumber.as_f64, f64_as_f32]

theorem float64_cell_encode {f : Field} {vs : List (Option Rat)} {row : Json} {r : Nat}
    (hlk : row.get f.name = some (encVal (Column.float64Col vs) r))
    (hr : r < vs.length)
    (hnb : (none : Option Rat) ∈ vs → f.nullable = true) :
    float64Cell f row = Except.ok (vs.getD r none) := by
  obtain ⟨ov, hov⟩ := get?_some_of_lt hr
  rw [getD_eq_of_get? none hov]
  cases ov with
  | none =>
      have hnull : (Column.float64Col vs).isNullAt r = true := by
        show (vs.getD r (some 0)).isNone = true
        rw [getD_eq_of_get? (some 0) hov]
        rfl
      have henc : encVal (Column.float64Col vs) r = Json.null := by
        unfold encVal convert_arrow_value_to_json
        rw [hnull]
        rfl
      rw [henc] at hlk
      simp [float64Cell, hlk, hnb (mem_of_get?_some hov)]
  | some w =>
      have hnull : (Column.float64Col vs).isNullAt r = false := by
        show (vs.getD r (some 0)).isNone = false
        rw [getD_eq_of_get? (some 0) hov]
        rfl
      have henc : encVal (Column.float64Col vs) r = Json.num (JsonNumber.float w) := by
        unfold encVal convert_arrow_value_to_json
        rw [hnull]
        unfold cellGetD
        rw [getD_eq_of_get? none hov]
        rfl
      rw [henc] at hlk
      simp [float64Cell, hlk, JsonNumber.as_f64]

theorem boolean_cell_encode {f : Field} {vs : List (Option Bool)} {row : Json} {r : Nat}
    (hlk : row.get f.name = some (encVal (Column.boolCol vs) r))
    (hr : r < vs.length)
    (hnb : (none : Option Bool) ∈ vs → f.nullable = true) :
    booleanCell f row = Except.ok (vs.getD r none) := by
  obtain ⟨ov, hov⟩ := get?_some_of_lt hr
  rw [getD_eq_of_get? none hov]
  cases ov with
  | none =>
      have hnull : (Column.boolCol vs).isNullAt r = true := by
        show (vs.getD r (some false)).isNone = true
        rw [getD_eq_of_get? (some false) hov]
        rfl
      have henc : encVal (Column.boolCol vs) r = Json.null := by
        unfold encVal convert_arrow_value_to_json
        rw [hnull]
        rfl
      rw [henc] at hlk
      simp [booleanCell, hlk, hnb (mem_of_get?_some hov)]
  | some w =>
      have hnull : (Column.boolCol vs).isNullAt r = false := by
        show (vs.getD r (some false)).isNone = false
        rw [getD_eq_of_get? (some false) hov]
        rfl
      have henc : encVal (Column.boolCol vs) r = Json.bool w := by
        unfold encVal convert_arrow_value_to_json
        rw [hnull]
        unfold cellGetD
        rw [getD_eq_of_get? none hov]
        rfl
      rw [henc] at hlk
      simp [booleanCell, hlk]

theorem utf8_cell_encode {f : Field} {vs : List (Option String)} {row : Json} {r : Nat}
    (hlk : row.get f.name = some (encVal (Column.utf8Col vs) r))
    (hr : r < vs.length)
    (hnb : (none : Option String) ∈ vs → f.nullable = true) :
    utf8Cell f row = Except.ok (vs.getD r none) := by
  obtain ⟨ov, hov⟩ := get?_some_of_lt hr
  rw [getD_eq_of_get? none hov]
  cases ov with
  | none =>
      have hnull : (Column.utf8Col vs).isNullAt r = true := by
        show (vs.getD r (some "")).isNone = true
        rw [getD_eq_of_get? (some "") hov]
        rfl
      have henc : encVal (Column.utf8Col vs) r = Json.null := by
        unfold encVal convert_arrow_value_to_json
        rw [hnull]
        rfl
      rw [henc] at hlk
      simp [utf8Cell, hlk, hnb (mem_of_get?_some hov)]
  | some w =>
      have hnull : (Column.utf8Col vs).isNullAt r = false := by
        show (vs.getD r (some "")).isNone = false
        rw [getD_eq_of_get? (some "") hov]
        rfl
      have henc : encVal (Column.utf8Col vs) r = Json.str w := by
        unfold encVal convert_arrow_value_to_json
        rw [hnull]
        unfold cellGetD
        rw [getD_eq_of_get? none hov]
        rfl
      rw [henc] at hlk
      simp [utf8Cell, hlk]

theorem vector_cell_encode {f : Field} {ws : List (Option Rat)} {row : Json} {r n : Nat}
    {inm : String} {inb : Bool} {size : Int}
    (hlk : row.get f.name = some
      (encVal (Column.fslCol inm DataType.float32 inb size (Column.float32Col ws) none) r))
    (hr : r < n)
    (h1le : 1 ≤ size) (hle : size ≤ 2147483647)
    (hwlen : ws.length = size.toNat * n)
    (hwsome : ∀ x ∈ ws, x.isSome) :
    vectorCell f size row = Except.ok (some
      (((ws.drop (r * size.toNat)).take size.toNat).map (fun ov => ov.getD 0))) := by
  have husz : usizeOfI32 size = size.toNat := usizeOfI32_of_nonneg (by omega) hle
  have hbound : r * size.toNat + size.toNat ≤ ws.length := by
    have hmul : (r + 1) * size.toNat ≤ n * size.toNat :=
      Nat.mul_le_mul_right _ (by omega)
    have he1 : r * size.toNat + size.toNat = (r + 1) * size.toNat := by ring
    have he2 : ws.length = n * size.toNat := by rw [hwlen]; ring
    omega
  have hnull : (Column.fslCol inm DataType.float32 inb size
      (Column.float32Col ws) none).isNullAt r = false := rfl
  have hcr := convertRange_float32 hwsome (usizeOfI32 size) (r * usizeOfI32 size)
    (by rw [husz]; exact hbound)
  have henc : encVal (Column.fslCol inm DataType.float32 inb size
      (Column.float32Col ws) none) r =
      Json.arr (((ws.drop (r * size.toNat)).take size.toNat).map
        (fun ov => Json.num (JsonNumber.float (ov.getD 0)))) := by
    unfold encVal convert_arrow_value_to_json
    rw [hnull]
    rw [hcr]
    rw [husz]
    rfl
  rw [henc] at hlk
  have hslen : (((ws.drop (r * size.toNat)).take size.toNat).map
      (fun ov => Json.num (JsonNumber.float (ov.getD 0)))).length = usizeOfI32 size := by
    rw [List.length_map, List.length_take, List.length_drop, husz]
    omega
  have htrav : traverseE (fun v =>
      match Json.as_f64 v with
      | some q => Except.ok (f64_as_f32 q)
      | none => Except.error ("Invalid vector element in field " ++ f.name))
      (((ws.drop (r * size.toNat)).take size.toNat).map
        (fun ov => Json.num (JsonNumber.float (ov.getD 0)))) =
      Except.ok (((ws.drop (r * size.toNat)).take size.toNat).map (fun ov => ov.getD 0)) := by
    rw [traverseE_map]
    exact traverseE_of_forall_ok (fun a _ => rfl)
  unfold vectorCell
  rw [hlk]
  show (if (((ws.drop (r * size.toNat)).take size.toNat).map
      (fun ov => Json.num (JsonNumber.float (ov.getD 0)))).length ≠ usizeOfI32 size then
      Except.error ("Vector field " ++ f.name ++ " expects " ++ toString size ++
        " elements but got " ++ toString (((ws.drop (r * size.toNat)).take size.toNat).map
          (fun ov => Json.num (JsonNumber.float (ov.getD 0)))).length)
    else
      match traverseE (fun v =>
          match Json.as_f64 v with
          | some q => Except.ok (f64_as_f32 q)
          | none => Except.error ("Invalid vector element in field " ++ f.name))
        (((ws.drop (r * size.toNat)).take size.toNat).map
          (fun ov => Json.num (JsonNumber.float (ov.getD 0)))) with
      | Except.error e => Except.error e
      | Except.ok vs => Except.ok (some vs)) =
    Except.ok (some (((ws.drop (r * size.toNat)).take size.toNat).map (fun ov => ov.getD 0)))
  rw [if_neg (by rw [hslen]; exact fun hcon => hcon rfl)]
  rw [htrav]

theorem decodeColumn_encode_one {fields : List Field} {cols : List Column} {n : Nat}
    {i : Nat} {f : Field} {c : Column}
    (hnd : (fields.map Field.name).Nodup)
    (hlen : fields.length = cols.length)
    (hf : fields.get? i = some f)
    (hc : cols.get? i = some c)
    (htype : c.dataType = f.dataType)
    (hnullable : f.nullable = false → c.nullCount = 0)
    (hok : colRoundtripOk n c = true) :
    decodeColumn ((List.range n).map (fun r => Json.obj (encodeRowEntries fields cols r))) f =
      Except.ok (Except.ok c) := by
  cases c with
  | int32Col vs =>
      have ht : f.dataType = DataType.int32 := htype.symm
      have hok2 : (decide (vs.length = n) && vs.all (fun ov =>
          match ov with
          | some v => decide (-2147483648 ≤ v ∧ v ≤ 2147483647)
          | none => true)) = true := hok
      rw [Bool.and_eq_true] at hok2
      have hvlen : vs.length = n := of_decide_eq_true hok2.1
      have hall0 := List.all_eq_true.mp hok2.2
      have hnb : (none : Option Int) ∈ vs → f.nullable = true := by
        intro hmem
        cases hb : f.nullable with
        | false => exact absurd (hnullable hb) (filter_isNone_ne_zero hmem)
        | true => rfl
      have hcells : ∀ r ∈ List.range n,
          int32Cell f (Json.obj (encodeRowEntries fields cols r)) =
            Except.ok (vs.getD r none) := by
        intro r hr
        rw [List.mem_range] at hr
        exact int32_cell_encode (encodeRow_get r hnd hlen hf hc) (by omega)
          (fun ov hov v hv => by subst hv; exact of_decide_eq_true (hall0 (some v) hov)) hnb
      have htrav : traverseE (int32Cell f)
          ((List.range n).map (fun r => Json.obj (encodeRowEntries fields cols r))) =
          Except.ok ((List.range n).map (fun r => vs.getD r none)) := by
        rw [traverseE_map]
        exact traverseE_of_forall_ok hcells
      have hrm : (List.range n).map (fun r => vs.getD r none) = vs := by
        rw [← hvlen]
        exact range_map_getD vs none
      unfold decodeColumn
      rw [ht]
      show Except.ok (Except.map Column.int32Col (traverseE (int32Cell f)
          ((List.range n).map (fun r => Json.obj (encodeRowEntries fields cols r))))) =
        Except.ok (Except.ok (Column.int32Col vs))
      rw [htrav, hrm]
      rfl
  | int64Col vs =>
      have ht : f.dataType = DataType.int64 := htype.symm
      have hok2 : (decide (vs.length = n) && vs.all (fun ov =>
          match ov with
          | some v => decide (-(2 ^ 63) ≤ v ∧ v ≤ 2 ^ 63 - 1)
          | none => true)) = true := hok
      rw [Bool.and_eq_true] at hok2
      have hvlen : vs.length = n := of_decide_eq_true hok2.1
      have hall0 := List.all_eq_true.mp hok2.2
      have hnb : (none : Option Int) ∈ vs → f.nullable = true := by
        intro hmem
        cases hb : f.nullable with
        | false => exact absurd (hnullable hb) (filter_isNone_ne_zero hmem)
        | true => rfl
      have hcells : ∀ r ∈ List.range n,
          int64Cell f (Json.obj (encodeRowEntries fields cols r)) =
            Except.ok (vs.getD r none) := by
        intro r hr
        rw [List.mem_range] at hr
        exact int64_cell_encode (encodeRow_get r hnd hlen hf hc) (by omega)
          (fun ov hov v hv => by subst hv; exact of_decide_eq_true (hall0 (some v) hov)) hnb
      have htrav : traverseE (int64Cell f)
          ((List.range n).map (fun r => Json.obj (encodeRowEntries fields cols r))) =
          Except.ok ((List.range n).map (fun r => vs.getD r none)) := by
        rw [traverseE_map]
        exact traverseE_of_forall_ok hcells
      have hrm : (List.range n).map (fun r => vs.getD r none) = vs := by
        rw [← hvlen]
        exact range_map_getD vs none
      unfold decodeColumn
      rw [ht]
      show Except.ok (Except.map Column.int64Col (traverseE (int64Cell f)
          ((List.range n).map (fun r => Json.obj (encodeRowEntries fields cols r))))) =
        Except.ok (Except.ok (Column.int64Col vs))
      rw [htrav, hrm]
      rfl
  | float32Col vs =>
      have ht : f.dataType = DataType.float32 := htype.symm
      have hvlen : vs.length = n := of_decide_eq_true hok
      have hnb : (none : Option Rat) ∈ vs → f.nullable = true := by
        intro hmem
        cases hb : f.nullable with
        | false => exact absurd (hnullable hb) (filter_isNone_ne_zero hmem)
        | true => rfl
      have hcells : ∀ r ∈ List.range n,
          float32Cell f (Json.obj (encodeRowEntries fields cols r)) =
            Except.ok (vs.getD r none) := by
        intro r hr
        rw [List.mem_range] at hr
        exact float32_cell_encode (encodeRow_get r hnd hlen hf hc) (by omega) hnb
      have htrav : traverseE (float32Cell f)
          ((List.range n).map (fun r => Json.obj (encodeRowEntries fields cols r))) =
          Except.ok ((List.range n).map (fun r => vs.getD r none)) := by
        rw [traverseE_map]
        exact traverseE_of_forall_ok hcells
      have hrm : (List.range n).map (fun r => vs.getD r none) = vs := by
        rw [← hvlen]
        exact range_map_getD vs none
      unfold decodeColumn
      rw [ht]
      show Except.ok (Except.map Column.float32Col (traverseE (float32Cell f)
          ((List.range n).map (fun r => Json.obj (encodeRowEntries fields cols r))))) =
        Except.ok (Except.ok (Column.float32Col vs))
      rw [htrav, hrm]
      rfl
  | float64Col vs =>
      have ht : f.dataType = DataType.float64 := htype.symm
      have hvlen : vs.length = n := of_decide_eq_true hok
      have hnb : (none : Option Rat) ∈ vs → f.nullable = true := by
        intro hmem
        cases hb : f.nullable with
        | false => exact absurd (hnullable hb) (filter_isNone_ne_zero hmem)
        | true => rfl
      have hcells : ∀ r ∈ List.range n,
          float64Cell f (Json.obj (encodeRowEntries fields cols r)) =
            Except.ok (vs.getD r none) := by
        intro r hr
        rw [List.mem_range] at hr
        exact float64_cell_encode (encodeRow_get r hnd hlen hf hc) (by omega) hnb
      have htrav : traverseE (float64Cell f)
          ((List.range n).map (fun r => Json.obj (encodeRowEntries fields cols r))) =
          Except.ok ((List.range n).map (fun r => vs.getD r none)) := by
        rw [traverseE_map]
        exact traverseE_of_forall_ok hcells
      have hrm : (List.range n).map (fun r => vs.getD r none) = vs := by
        rw [← hvlen]
        exact range_map_getD vs none
      unfold decodeColumn
      rw [ht]
      show Except.ok (Except.map Column.float64Col (traverseE (float64Cell f)
          ((List.range n).map (fun r => Json.obj (encodeRowEntries fields cols r))))) =
        Except.ok (Except.ok (Column.float64Col vs))
      rw [htrav, hrm]
      rfl
  | boolCol vs =>
      have ht : f.dataType = DataType.boolean := htype.symm
      have hvlen : vs.length = n := of_decide_eq_true hok
      have hnb : (none : Option Bool) ∈ vs → f.nullable = true := by
        intro hmem
        cases hb : f.nullable with
        | false => exact absurd (hnullable hb) (filter_isNone_ne_zero hmem)
        | true => rfl
      have hcells : ∀ r ∈ List.range n,
          booleanCell f (Json.obj (encodeRowEntries fields cols r)) =
            Except.ok (vs.getD r none) := by
        intro r hr
        rw [List.mem_range] at hr
        exact boolean_cell_encode (encodeRow_get r hnd hlen hf hc) (by omega) hnb
      have htrav : traverseE (booleanCell f)
          ((List.range n).map (fun r => Json.obj (encodeRowEntries fields cols r))) =
          Except.ok ((List.range n).map (fun r => vs.getD r none)) := by
        rw [traverseE_map]
        exact traverseE_of_forall_ok hcells
      have hrm : (List.range n).map (fun r => vs.getD r none) = vs := by
        rw [← hvlen]
        exact range_map_getD vs none
      unfold decodeColumn
      rw [ht]
      show Except.ok (Except.map Column.boolCol (traverseE (booleanCell f)
          ((List.range n).map (fun r => Json.obj (encodeRowEntries fields cols r))))) =
        Except.ok (Except.ok (Column.boolCol vs))
      rw [htrav, hrm]
      rfl
  | utf8Col vs =>
      have ht : f.dataType = DataType.utf8 := htype.symm
      have hvlen : vs.length = n := of_decide_eq_true hok
      have hnb : (none : Option String) ∈ vs → f.nullable = true := by
        intro hmem
        cases hb : f.nullable with
        | false => exact absurd (hnullable hb) (filter_isNone_ne_zero hmem)
        | true => rfl
      have hcells : ∀ r ∈ List.range n,
          utf8Cell f (Json.obj (encodeRowEntries fields cols r)) =
            Except.ok (vs.getD r none) := by
        intro r hr
        rw [List.mem_range] at hr
        exact utf8_cell_encode (encodeRow_get r hnd hlen hf hc) (by omega) hnb
      have htrav : traverseE (utf8Cell f)
          ((List.range n).map (fun r => Json.obj (encodeRowEntries fields cols r))) =
          Except.ok ((List.range n).map (fun r => vs.getD r none)) := by
        rw [traverseE_map]
        exact traverseE_of_forall_ok hcells
      have hrm : (List.range n).map (fun r => vs.getD r none) = vs := by
        rw [← hvlen]
        exact range_map_getD vs none
      unfold decodeColumn
      rw [ht]
      show Except.ok (Except.map Column.utf8Col (traverseE (utf8Cell f)
          ((List.range n).map (fun r => Json.obj (encodeRowEntries fields cols r))))) =
        Except.ok (Except.ok (Column.utf8Col vs))
      rw [htrav, hrm]
      rfl
  | fslCol inm t inb size child nulls =>
      cases nulls with
      | some bs => exact absurd hok (by simp [colRoundtripOk])
      | none =>
          cases child with
          | int32Col ws => exact absurd hok (by simp [colRoundtripOk])
          | int64Col ws => exact absurd hok (by simp [colRoundtripOk])
          | float64Col ws => exact absurd hok (by simp [colRoundtripOk])
          | boolCol ws => exact absurd hok (by simp [colRoundtripOk])
          | utf8Col ws => exact absurd hok (by simp [colRoundtripOk])
          | fslCol a1 a2 a3 a4 a5 a6 => exact absurd hok (by simp [colRoundtripOk])
          | float32Col ws =>
              have hok2 : (decide (t = DataType.float32) && decide (1 ≤ size) &&
                  decide (size ≤ 2147483647) && true &&
                  (decide (ws.length = size.toNat * n) && ws.all Option.isSome)) = true := hok
              simp only [Bool.and_eq_true, Bool.and_true, decide_eq_true_eq,
                List.all_eq_true] at hok2
              obtain ⟨⟨⟨hteq, h1le⟩, hle⟩, hwlen, hwsome⟩ := hok2
              subst hteq
              have ht : f.dataType = DataType.fixedSizeList inm DataType.float32 inb size :=
                htype.symm
              have hcells : ∀ r ∈ List.range n,
                  vectorCell f size (Json.obj (encodeRowEntries fields cols r)) =
                    Except.ok (some (((ws.drop (r * size.toNat)).take size.toNat).map
                      (fun ov => ov.getD 0))) := by
                intro r hr
                rw [List.mem_range] at hr
                exact vector_cell_encode (encodeRow_get r hnd hlen hf hc) hr h1le hle
                  hwlen hwsome
              have htrav : traverseE (vectorCell f size)
                  ((List.range n).map (fun r => Json.obj (encodeRowEntries fields cols r))) =
                  Except.ok ((List.range n).map (fun r =>
                    some (((ws.drop (r * size.toNat)).take size.toNat).map
                      (fun ov => ov.getD 0)))) := by
                rw [traverseE_map]
                exact traverseE_of_forall_ok hcells
              have hflat : flattenVectors size ((List.range n).map (fun r =>
                  some (((ws.drop (r * size.toNat)).take size.toNat).map
                    (fun ov => ov.getD 0)))) = ws :=
                flatten_slices rfl n ws hwsome hwlen
              have hnc : (Column.float32Col ws).nullCount = 0 := by
                simp only [Column.nullCount]
                exact filter_isNone_eq_zero hwsome
              have hnew : fsl_new inm DataType.float32 inb size
                  (Column.float32Col ws) none =
                  Except.ok (Column.fslCol inm DataType.float32 inb size
                    (Column.float32Col ws) none) := by
                unfold fsl_new
                rw [if_neg (by omega)]
                rw [if_neg (by simp [Column.dataType])]
                rw [if_neg (by simp)]
                rw [if_neg (by rw [hnc]; simp)]
              have hnew2 : fsl_new inm DataType.float32 inb size
                  (Column.float32Col (flattenVectors size ((List.range n).map (fun r =>
                    some (((ws.drop (r * size.toNat)).take size.toNat).map
                      (fun ov => ov.getD 0)))))) none =
                  Except.ok (Column.fslCol inm DataType.float32 inb size
                    (Column.float32Col ws) none) := by
                rw [hflat]
                exact hnew
              unfold decodeColumn
              rw [ht]
              show (if DataType.float32 = DataType.float32 then
                  match traverseE (vectorCell f size) ((List.range n).map
                      (fun r => Json.obj (encodeRowEntries fields cols r))) with
                  | Except.error e => Except.ok (Except.error e)
                  | Except.ok vecs =>
                      match fsl_new inm DataType.float32 inb size
                          (Column.float32Col (flattenVectors size vecs)) none with
                      | Except.error () => Except.error ()
                      | Except.ok col => Except.ok (Except.ok col)
                else Except.ok (Except.error ("Unsupported data type: " ++
                  (DataType.fixedSizeList inm DataType.float32 inb size).debugStr))) =
                Except.ok (Except.ok (Column.fslCol inm DataType.float32 inb size
                  (Column.float32Col ws) none))
              rw [if_pos rfl]
              rw [htrav]
              show (match fsl_new inm DataType.float32 inb size
                  (Column.float32Col (flattenVectors size ((List.range n).map (fun r =>
                    some (((ws.drop (r * size.toNat)).take size.toNat).map
                      (fun ov => ov.getD 0)))))) none with
                | Except.error () => Except.error ()
                | Except.ok col => Except.ok (Except.ok col)) =
                Except.ok (Except.ok (Column.fslCol inm DataType.float32 inb size
                  (Column.float32Col ws) none))
              rw [hnew2]

theorem decodeColumns_encode_aux {rows : List Json} :
    ∀ {fs2 : List Field} {cs2 : List Column},
      fs2.length = cs2.length →
      (∀ (j : Nat) (f : Field) (c : Column), fs2.get? j = some f → cs2.get? j = some c →
        decodeColumn rows f = Except.ok (Except.ok c)) →
      decodeColumns rows fs2 = Except.ok (Except.ok cs2) := by
  intro fs2
  induction fs2 with
  | nil =>
      intro cs2 hlen _
      cases cs2 with
      | nil => rfl
      | cons c cs => simp at hlen
  | cons f fs ih =>
      intro cs2 hlen hfacts
      cases cs2 with
      | nil => simp at hlen
      | cons c cs =>
          have h0 : decodeColumn rows f = Except.ok (Except.ok c) :=
            hfacts 0 f c rfl rfl
          have hrest := ih (by simpa using hlen)
            (fun j g d hg hd => hfacts (j + 1) g d
              (by rw [List.get?_cons_succ]; exact hg)
              (by rw [List.get?_cons_succ]; exact hd))
          simp [decodeColumns, h0, hrest]

/-- C7 (amended): the JSON round trip restores a batch exactly on the
nulls-free-vector fragment.  For every arrow-constructible batch
(RecordBatch::try_new accepts it as is) whose field names are pairwise
distinct and whose columns satisfy colRoundtripOk (machine integers in range;
every vector column of float32 item type, positive i32 element count, exactly
size*rows child values, no list-level null buffer and no child nulls),
decoding the encoded row objects under the same schema yields the batch back,
values and nulls per field per row included.  Vector columns holding nulls are
excluded because the decode direction cannot restore them
(claim_C7_counterexample); fields with duplicate names are excluded because
the row objects collapse them under one key. -/
theorem claim_C7_json_roundtrip :
    ∀ (b : RecordBatch),
      RecordBatch.try_new b.schema b.columns = Except.ok b →
      (b.schema.fields.map Field.name).Nodup →
      (∀ c ∈ b.columns, colRoundtripOk b.numRows c = true) →
      json_to_record_batch (encode_rows b) b.schema = Except.ok (Except.ok b) := by
  intro b htn hnd hok
  obtain ⟨hlen, hmf, _⟩ := try_new_ok_facts htn
  have hcols : decodeColumns (encode_rows b) b.schema.fields =
      Except.ok (Except.ok b.columns) := by
    show decodeColumns ((List.range b.numRows).map
      (fun r => Json.obj (encodeRowEntries b.schema.fields b.columns r)))
      b.schema.fields = Except.ok (Except.ok b.columns)
    apply decodeColumns_encode_aux hlen
    intro j f c hf hc
    obtain ⟨htype, hnullable⟩ := columnsMatchFields_ok_inv hmf hf hc
    exact decodeColumn_encode_one hnd hlen hf hc htype hnullable
      (hok c (mem_of_get?_some hc))
  unfold json_to_record_batch
  rw [hcols]
  show Except.ok (match RecordBatch.try_new b.schema b.columns with
    | Except.ok b2 => Except.ok b2
    | Except.error e => Except.error ("Failed to create RecordBatch: " ++ e)) =
    Except.ok (Except.ok b)
  rw [htn]

/-- C7 counterexample: batch7 is arrow-constructible and uses only supported
types, yet decode(encode(batch7)) is a different batch: the vector null is
lost.  So decode(encode(B)) = B fails on the supported set as claimed. -/
theorem claim_C7_counterexample :
    RecordBatch.try_new batch7.schema batch7.columns = Except.ok batch7
  ∧ json_to_record_batch (encode_rows batch7) batch7.schema =
      Except.ok (Except.ok batch7decoded)
  ∧ batch7decoded ≠ batch7 :=
  ⟨rfl, rfl, by decide⟩

/-- Witness for claim_C7_json_roundtrip at batch7w. -/
theorem claim_C7_json_roundtrip_witness :
    json_to_record_batch (encode_rows batch7w) batch7w.schema =
      Except.ok (Except.ok batch7w) :=
  claim_C7_json_roundtrip batch7w (by rfl) (by decide) (by decide)

/-- C2: every envelope the boundary constructs satisfies success=true iff
error_message is null: SimpleResult::ok gives success with a null message;
SimpleResult::error gives failure with an owned copy of the message, falling
back to the fixed sentinel text exactly when the message has an interior NUL
byte, so error construction never fails for any input string. -/
theorem claim_C2_envelope :
    (SimpleResult.ok.success = true ∧ SimpleResult.ok.error_message = none)
  ∧ (∀ msg, (SimpleResult.error msg).success = false ∧
      (SimpleResult.error msg).error_message ≠ none)
  ∧ (∀ msg, hasInteriorNul msg = false →
      (SimpleResult.error msg).error_message = some msg)
  ∧ (∀ msg, hasInteriorNul msg = true →
      (SimpleResult.error msg).error_message = some "Invalid error message")
  ∧ (∀ r : SimpleResult, (r = SimpleResult.ok ∨ ∃ m, r = SimpleResult.error m) →
      (r.success = true ↔ r.error_message = none)) := by
  refine ⟨⟨rfl, rfl⟩, ?_, ?_, ?_, ?_⟩
  · intro msg
    exact ⟨rfl, by simp [SimpleResult.error]⟩
  · intro msg h
    simp [SimpleResult.error, h]
  · intro msg h
    simp [SimpleResult.error, h]
  · intro r hr
    rcases hr with rfl | ⟨m, rfl⟩
    · simp [SimpleResult.ok]
    · simp [SimpleResult.error]

/-- Witness for claim_C2_envelope: a plain message, a message with an interior
NUL byte, and the constructed-envelope biconditional at both constructors. -/
theorem claim_C2_envelope_witness :
    ((SimpleResult.error "boom").success = false ∧
      (SimpleResult.error "boom").error_message ≠ none)
  ∧ (SimpleResult.error "boom").error_message = some "boom"
  ∧ (SimpleResult.error "a\x00b").error_message = some "Invalid error message"
  ∧ (SimpleResult.ok.success = true ↔ SimpleResult.ok.error_message = none)
  ∧ ((SimpleResult.error "boom").success = true ↔
      (SimpleResult.error "boom").error_message = none) :=
  ⟨claim_C2_envelope.2.1 "boom",
   claim_C2_envelope.2.2.1 "boom" (by decide),
   claim_C2_envelope.2.2.2.1 "a\x00b" (by decide),
   claim_C2_envelope.2.2.2.2 SimpleResult.ok (Or.inl rfl),
   claim_C2_envelope.2.2.2.2 (SimpleResult.error "boom") (Or.inr ⟨"boom", rfl⟩)⟩

/-! ## Fault barrier (claim C1 infrastructure) -/

/-- Whatever the guarded body did, if it ended in a panic the barrier returns
the per-operation panic envelope. -/
theorem runOp_fault {σ : Type} (name : String) (t : Except Unit SimpleResult × Nat × σ)
    (h : t.1 = Except.error ()) :
    (runOp name t).res = SimpleResult.error ("Panic in " ++ name) := by
  obtain ⟨f, k, s⟩ := t
  cases f with
  | ok r => exact Except.noConfusion h
  | error u => rfl

/-- Claim C1: every boundary entry point wraps its body in a catch_unwind
barrier; if the body panics at any point, the call still returns a result
envelope whose success flag is false and whose message names the operation
(the envelope is the normal heap value Box::into_raw produces in the Err arm).
The first conjunct decodes the envelope constructor: for a NUL-free message
(every "Panic in simple_lancedb_..." literal is NUL-free) success is false and
the message is delivered verbatim.  The remaining conjuncts cover the
twenty-one entry points; for close and table_close the guarded body is the
unbox-and-drop, whose only failure mode is a panic. -/
theorem claim_C1 :
    (∀ msg, hasInteriorNul msg = false →
      (SimpleResult.error msg).success = false ∧
      (SimpleResult.error msg).error_message = some msg) ∧
    (∀ env pre, (connect_body env pre).1 = Except.error () →
      (simple_lancedb_connect env pre).res =
        SimpleResult.error "Panic in simple_lancedb_connect") ∧
    (∀ env pre, (connect_with_options_body env pre).1 = Except.error () →
      (simple_lancedb_connect_with_options env pre).res =
        SimpleResult.error "Panic in simple_lancedb_connect_with_options") ∧
    (∀ env : CloseEnv, env.handleNull = false → env.dropFault = true →
      (simple_lancedb_close env).res =
        SimpleResult.error "Panic in simple_lancedb_close") ∧
    (∀ env, (create_table_body env).1 = Except.error () →
      (simple_lancedb_create_table env).res =
        SimpleResult.error "Panic in simple_lancedb_create_table") ∧
    (∀ env pre, (open_table_body env pre).1 = Except.error () →
      (simple_lancedb_open_table env pre).res =
        SimpleResult.error "Panic in simple_lancedb_open_table") ∧
    (∀ env, (drop_table_body env).1 = Except.error () →
      (simple_lancedb_drop_table env).res =
        SimpleResult.error "Panic in simple_lancedb_drop_table") ∧
    (∀ env : CloseEnv, env.handleNull = false → env.dropFault = true →
      (simple_lancedb_table_close env).res =
        SimpleResult.error "Panic in simple_lancedb_table_close") ∧
    (∀ env pre, (table_names_body env pre).1 = Except.error () →
      (simple_lancedb_table_names env pre).res =
        SimpleResult.error "Panic in simple_lancedb_table_names") ∧
    (∀ env pre, (add_json_body env pre).1 = Except.error () →
      (simple_lancedb_table_add_json env pre).res =
        SimpleResult.error "Panic in simple_lancedb_table_add_json") ∧
    (∀ env pre, (add_ipc_body env pre).1 = Except.error () →
      (simple_lancedb_table_add_ipc env pre).res =
        SimpleResult.error "Panic in simple_lancedb_table_add_ipc") ∧
    (∀ env pre, (delete_body env pre).1 = Except.error () →
      (simple_lancedb_table_delete env pre).res =
        SimpleResult.error "Panic in simple_lancedb_table_delete") ∧
    (∀ env, (update_body env).1 = Except.error () →
      (simple_lancedb_table_update env).res =
        SimpleResult.error "Panic in simple_lancedb_table_update") ∧
    (∀ env pre, (select_query_body env pre).1 = Except.error () →
      (simple_lancedb_table_select_query env pre).res =
        SimpleResult.error "Panic in simple_lancedb_table_select_query") ∧
    (∀ env, (create_index_body env).1 = Except.error () →
      (simple_lancedb_table_create_index env).res =
        SimpleResult.error "Panic in simple_lancedb_table_create_index") ∧
    (∀ env pre, (get_indexes_body env pre).1 = Except.error () →
      (simple_lancedb_table_get_indexes env pre).res =
        SimpleResult.error "Panic in simple_lancedb_table_get_indexes") ∧
    (∀ env pre, (index_stats_body env pre).1 = Except.error () →
      (simple_lancedb_table_index_stats env pre).res =
        SimpleResult.error "Panic in simple_lancedb_table_index_stats") ∧
    (∀ env pre, (count_rows_body env pre).1 = Except.error () →
      (simple_lancedb_table_count_rows env pre).res =
        SimpleResult.error "Panic in simple_lancedb_table_count_rows") ∧
    (∀ env pre, (version_body env pre).1 = Except.error () →
      (simple_lancedb_table_version env pre).res =
        SimpleResult.error "Panic in simple_lancedb_table_version") ∧
    (∀ env pre, (schema_body env pre).1 = Except.error () →
      (simple_lancedb_table_schema env pre).res =
        SimpleResult.error "Panic in simple_lancedb_table_schema") ∧
    (∀ env pre, (schema_ipc_body env pre).1 = Except.error () →
      (simple_lancedb_table_schema_ipc env pre).res =
        SimpleResult.error "Panic in simple_lancedb_table_schema_ipc") ∧
    (∀ env pre, (optimize_body env pre).1 = Except.error () →
      (simple_lancedb_table_optimize env pre).res =
        SimpleResult.error "Panic in simple_lancedb_table_optimize") := by
  refine ⟨?_, ?_, ?_, ?_, ?_, ?_, ?_, ?_, ?_, ?_, ?_, ?_, ?_, ?_, ?_, ?_, ?_, ?_, ?_,
    ?_, ?_, ?_⟩
  · intro msg h
    unfold SimpleResult.error
    refine ⟨rfl, ?_⟩
    rw [h]
    rfl
  · exact fun env pre h => runOp_fault "simple_lancedb_connect" _ h
  · exact fun env pre h => runOp_fault "simple_lancedb_connect_with_options" _ h
  · intro env h1 h2
    obtain ⟨hn, df⟩ := env
    have h1x : hn = false := h1
    have h2x : df = true := h2
    subst h1x
    subst h2x
    rfl
  · exact fun env h => runOp_fault "simple_lancedb_create_table" _ h
  · exact fun env pre h => runOp_fault "simple_lancedb_open_table" _ h
  · exact fun env h => runOp_fault "simple_lancedb_drop_table" _ h
  · intro env h1 h2
    obtain ⟨hn, df⟩ := env
    have h1x : hn = false := h1
    have h2x : df = true := h2
    subst h1x
    subst h2x
    rfl
  · exact fun env pre h => runOp_fault "simple_lancedb_table_names" _ h
  · exact fun env pre h => runOp_fault "simple_lancedb_table_add_json" _ h
  · exact fun env pre h => runOp_fault "simple_lancedb_table_add_ipc" _ h
  · exact fun env pre h => runOp_fault "simple_lancedb_table_delete" _ h
  · exact fun env h => runOp_fault "simple_lancedb_table_update" _ h
  · exact fun env pre h => runOp_fault "simple_lancedb_table_select_query" _ h
  · exact fun env h => runOp_fault "simple_lancedb_table_create_index" _ h
  · exact fun env pre h => runOp_fault "simple_lancedb_table_get_indexes" _ h
  · exact fun env pre h => runOp_fault "simple_lancedb_table_index_stats" _ h
  · exact fun env pre h => runOp_fault "simple_lancedb_table_count_rows" _ h
  · exact fun env pre h => runOp_fault "simple_lancedb_table_version" _ h
  · exact fun env pre h => runOp_fault "simple_lancedb_table_schema" _ h
  · exact fun env pre h => runOp_fault "simple_lancedb_table_schema_ipc" _ h
  · exact fun env pre h => runOp_fault "simple_lancedb_table_optimize" _ h

/-- Concrete instantiation of every conjunct of claim C1: each entry point is
run on an environment whose engine call (or drop) panics, and each returns the
panic envelope for its own name. -/
theorem claim_C1_witness :
    ((SimpleResult.error "Panic in simple_lancedb_connect").success = false ∧
      (SimpleResult.error "Panic in simple_lancedb_connect").error_message =
        some "Panic in simple_lancedb_connect") ∧
    (simple_lancedb_connect ⟨some (CStr.valid "memory"), false, EngOut.fault⟩ 7).res =
      SimpleResult.error "Panic in simple_lancedb_connect" ∧
    (simple_lancedb_connect_with_options
      ⟨some (CStr.valid "u"), some (CStr.valid "o"), false, Except.ok Json.null,
        EngOut.fault⟩ 7).res =
      SimpleResult.error "Panic in simple_lancedb_connect_with_options" ∧
    (simple_lancedb_close ⟨false, true⟩).res =
      SimpleResult.error "Panic in simple_lancedb_close" ∧
    (simple_lancedb_create_table
      ⟨false, some (CStr.valid "t"), some (CStr.valid "s"), Except.ok Json.null,
        Except.ok (), EngOut.fault⟩).res =
      SimpleResult.error "Panic in simple_lancedb_create_table" ∧
    (simple_lancedb_open_table ⟨false, some (CStr.valid "t"), false, EngOut.fault⟩ 7).res =
      SimpleResult.error "Panic in simple_lancedb_open_table" ∧
    (simple_lancedb_drop_table ⟨false, some (CStr.valid "t"), EngOut.fault⟩).res =
      SimpleResult.error "Panic in simple_lancedb_drop_table" ∧
    (simple_lancedb_table_close ⟨false, true⟩).res =
      SimpleResult.error "Panic in simple_lancedb_table_close" ∧
    (simple_lancedb_table_names ⟨false, false, false, EngOut.fault, true⟩ ⟨none, 0⟩).res =
      SimpleResult.error "Panic in simple_lancedb_table_names" ∧
    (simple_lancedb_table_add_json
      ⟨false, some (CStr.valid "[1]"), false, Except.ok (Json.arr [Json.null]),
        EngOut.fault, EngOut.ok ()⟩ 0).res =
      SimpleResult.error "Panic in simple_lancedb_table_add_json" ∧
    (simple_lancedb_table_add_ipc
      ⟨false, false, 4, false, Except.ok [1], EngOut.fault⟩ 0).res =
      SimpleResult.error "Panic in simple_lancedb_table_add_ipc" ∧
    (simple_lancedb_table_delete
      ⟨false, some (CStr.valid "id = 1"), false, EngOut.fault⟩ 0).res =
      SimpleResult.error "Panic in simple_lancedb_table_delete" ∧
    (simple_lancedb_table_update
      ⟨false, some (CStr.valid "p"), some (CStr.valid "u"), Except.ok [],
        EngOut.fault⟩).res =
      SimpleResult.error "Panic in simple_lancedb_table_update" ∧
    (simple_lancedb_table_select_query
      ⟨false, some (CStr.valid "q"), false, Except.ok Json.null, EngOut.fault⟩
      Json.null).res =
      SimpleResult.error "Panic in simple_lancedb_table_select_query" ∧
    (simple_lancedb_table_create_index
      ⟨false, some (CStr.valid "c"), some (CStr.valid "btree"), none, true,
        Except.ok ["c"], EngOut.fault⟩).res =
      SimpleResult.error "Panic in simple_lancedb_table_create_index" ∧
    (simple_lancedb_table_get_indexes ⟨false, false, EngOut.fault⟩ Json.null).res =
      SimpleResult.error "Panic in simple_lancedb_table_get_indexes" ∧
    (simple_lancedb_table_index_stats
      ⟨false, some (CStr.valid "i"), false, EngOut.fault⟩ Json.null).res =
      SimpleResult.error "Panic in simple_lancedb_table_index_stats" ∧
    (simple_lancedb_table_count_rows ⟨false, false, EngOut.fault⟩ 0).res =
      SimpleResult.error "Panic in simple_lancedb_table_count_rows" ∧
    (simple_lancedb_table_version ⟨false, false, EngOut.fault⟩ 0).res =
      SimpleResult.error "Panic in simple_lancedb_table_version" ∧
    (simple_lancedb_table_schema ⟨false, false, EngOut.fault⟩ Json.null).res =
      SimpleResult.error "Panic in simple_lancedb_table_schema" ∧
    (simple_lancedb_table_schema_ipc
      ⟨false, false, false, EngOut.fault, fun _ => Except.ok [], true⟩ ⟨none, 0⟩).res =
      SimpleResult.error "Panic in simple_lancedb_table_schema_ipc" ∧
    (simple_lancedb_table_optimize ⟨false, false, EngOut.fault⟩ Json.null).res =
      SimpleResult.error "Panic in simple_lancedb_table_optimize" := by
  obtain ⟨h0, h1, h2, h3, h4, h5, h6, h7, h8, h9, h10, h11, h12, h13, h14, h15, h16,
    h17, h18, h19, h20, h21⟩ := claim_C1
  exact ⟨h0 "Panic in simple_lancedb_connect" (by decide),
    h1 _ 7 rfl, h2 _ 7 rfl, h3 _ rfl rfl, h4 _ rfl, h5 _ 7 rfl, h6 _ rfl, h7 _ rfl rfl,
    h8 _ _ rfl, h9 _ 0 rfl, h10 _ 0 rfl, h11 _ 0 rfl, h12 _ rfl, h13 _ _ rfl,
    h14 _ rfl, h15 _ _ rfl, h16 _ _ rfl, h17 _ 0 rfl, h18 _ 0 rfl, h19 _ _ rfl,
    h20 _ _ rfl, h21 _ _ rfl⟩

/-- Every entry point body starts with the same null gate; when the gate
condition holds, the call returns the null-arguments envelope with zero engine
calls and the out cells at their pre-call values. -/
theorem null_reject {σ : Type} (name msg : String) (cond : Bool)
    (rest : Except Unit SimpleResult × Nat × σ) (pre : σ) (hc : cond = true) :
    runOp name
      (if cond then (Except.ok (SimpleResult.error msg), 0, pre) else rest) =
      ⟨SimpleResult.error msg, 0, pre⟩ := by
  rw [if_pos hc]
  rfl

/-- Claim C3: for every entry point, if any required pointer argument is null
the call returns the invalid-arguments envelope (invalid-handle for the two
destructors), performs no engine call (engineCalls = 0), and leaves every out
cell at its pre-call value (the full OpResult is pinned).  The optional
index_name argument of create_index is not part of its gate. -/
theorem claim_C3 :
    (∀ env pre, env.uri = none ∨ env.handleNull = true →
      simple_lancedb_connect env pre =
        ⟨SimpleResult.error "Invalid null arguments", 0, pre⟩) ∧
    (∀ env pre, env.uri = none ∨ env.options = none ∨ env.handleNull = true →
      simple_lancedb_connect_with_options env pre =
        ⟨SimpleResult.error "Invalid null arguments", 0, pre⟩) ∧
    (∀ env : CloseEnv, env.handleNull = true →
      simple_lancedb_close env = ⟨SimpleResult.error "Invalid null handle", 0, ()⟩) ∧
    (∀ env, env.handleNull = true ∨ env.tableName = none ∨ env.schemaJson = none →
      simple_lancedb_create_table env =
        ⟨SimpleResult.error "Invalid null arguments", 0, ()⟩) ∧
    (∀ env pre, env.handleNull = true ∨ env.tableName = none ∨ env.tableHandleNull = true →
      simple_lancedb_open_table env pre =
        ⟨SimpleResult.error "Invalid null arguments", 0, pre⟩) ∧
    (∀ env, env.handleNull = true ∨ env.tableName = none →
      simple_lancedb_drop_table env =
        ⟨SimpleResult.error "Invalid null arguments", 0, ()⟩) ∧
    (∀ env : CloseEnv, env.handleNull = true →
      simple_lancedb_table_close env =
        ⟨SimpleResult.error "Invalid null handle", 0, ()⟩) ∧
    (∀ env pre, env.handleNull = true ∨ env.namesNull = true ∨ env.countNull = true →
      simple_lancedb_table_names env pre =
        ⟨SimpleResult.error "Invalid null arguments", 0, pre⟩) ∧
    (∀ env pre, env.tableNull = true ∨ env.jsonData = none ∨ env.countNull = true →
      simple_lancedb_table_add_json env pre =
        ⟨SimpleResult.error "Invalid null arguments", 0, pre⟩) ∧
    (∀ env pre, env.tableNull = true ∨ env.ipcDataNull = true ∨ env.countNull = true →
      simple_lancedb_table_add_ipc env pre =
        ⟨SimpleResult.error "Invalid null arguments", 0, pre⟩) ∧
    (∀ env pre, env.tableNull = true ∨ env.predicate = none ∨ env.countNull = true →
      simple_lancedb_table_delete env pre =
        ⟨SimpleResult.error "Invalid null arguments", 0, pre⟩) ∧
    (∀ env, env.tableNull = true ∨ env.predicate = none ∨ env.updatesJson = none →
      simple_lancedb_table_update env =
        ⟨SimpleResult.error "Invalid null arguments", 0, ()⟩) ∧
    (∀ env pre, env.tableNull = true ∨ env.config = none ∨ env.resultNull = true →
      simple_lancedb_table_select_query env pre =
        ⟨SimpleResult.error "Invalid null arguments", 0, pre⟩) ∧
    (∀ env, env.tableNull = true ∨ env.columnsJson = none ∨ env.indexType = none →
      simple_lancedb_table_create_index env =
        ⟨SimpleResult.error "Invalid null arguments", 0, ()⟩) ∧
    (∀ env pre, env.tableNull = true ∨ env.outNull = true →
      simple_lancedb_table_get_indexes env pre =
        ⟨SimpleResult.error "Invalid null arguments", 0, pre⟩) ∧
    (∀ env pre, env.tableNull = true ∨ env.indexName = none ∨ env.outNull = true →
      simple_lancedb_table_index_stats env pre =
        ⟨SimpleResult.error "Invalid null arguments", 0, pre⟩) ∧
    (∀ env pre, env.tableNull = true ∨ env.countNull = true →
      simple_lancedb_table_count_rows env pre =
        ⟨SimpleResult.error "Invalid null arguments", 0, pre⟩) ∧
    (∀ env pre, env.tableNull = true ∨ env.versionNull = true →
      simple_lancedb_table_version env pre =
        ⟨SimpleResult.error "Invalid null arguments", 0, pre⟩) ∧
    (∀ env pre, env.tableNull = true ∨ env.outNull = true →
      simple_lancedb_table_schema env pre =
        ⟨SimpleResult.error "Invalid null arguments", 0, pre⟩) ∧
    (∀ env pre, env.tableNull = true ∨ env.dataNull = true ∨ env.lenNull = true →
      simple_lancedb_table_schema_ipc env pre =
        ⟨SimpleResult.error "Invalid null arguments", 0, pre⟩) ∧
    (∀ env pre, env.tableNull = true ∨ env.outNull = true →
      simple_lancedb_table_optimize env pre =
        ⟨SimpleResult.error "Invalid null arguments", 0, pre⟩) := by
  refine ⟨?_, ?_, ?_, ?_, ?_, ?_, ?_, ?_, ?_, ?_, ?_, ?_, ?_, ?_, ?_, ?_, ?_, ?_,
    ?_, ?_, ?_⟩
  · exact fun env pre h =>
      null_reject _ _ _ _ pre (by rcases h with h | h <;> simp [h])
  · exact fun env pre h =>
      null_reject _ _ _ _ pre (by rcases h with h | h | h <;> simp [h])
  · intro env h
    unfold simple_lancedb_close
    rw [if_pos h]
  · exact fun env h =>
      null_reject _ _ _ _ () (by rcases h with h | h | h <;> simp [h])
  · exact fun env pre h =>
      null_reject _ _ _ _ pre (by rcases h with h | h | h <;> simp [h])
  · exact fun env h =>
      null_reject _ _ _ _ () (by rcases h with h | h <;> simp [h])
  · intro env h
    unfold simple_lancedb_table_close
    rw [if_pos h]
  · exact fun env pre h =>
      null_reject _ _ _ _ pre (by rcases h with h | h | h <;> simp [h])
  · exact fun env pre h =>
      null_reject _ _ _ _ pre (by rcases h with h | h | h <;> simp [h])
  · exact fun env pre h =>
      null_reject _ _ _ _ pre (by rcases h with h | h | h <;> simp [h])
  · exact fun env pre h =>
      null_reject _ _ _ _ pre (by rcases h with h | h | h <;> simp [h])
  · exact fun env h =>
      null_reject _ _ _ _ () (by rcases h with h | h | h <;> simp [h])
  · exact fun env pre h =>
      null_reject _ _ _ _ pre (by rcases h with h | h | h <;> simp [h])
  · exact fun env h =>
      null_reject _ _ _ _ () (by rcases h with h | h | h <;> simp [h])
  · exact fun env pre h =>
      null_reject _ _ _ _ pre (by rcases h with h | h <;> simp [h])
  · exact fun env pre h =>
      null_reject _ _ _ _ pre (by rcases h with h | h | h <;> simp [h])
  · exact fun env pre h =>
      null_reject _ _ _ _ pre (by rcases h with h | h <;> simp [h])
  · exact fun env pre h =>
      null_reject _ _ _ _ pre (by rcases h with h | h <;> simp [h])
  · exact fun env pre h =>
      null_reject _ _ _ _ pre (by rcases h with h | h <;> simp [h])
  · exact fun env pre h =>
      null_reject _ _ _ _ pre (by rcases h with h | h | h <;> simp [h])
  · exact fun env pre h =>
      null_reject _ _ _ _ pre (by rcases h with h | h <;> simp [h])

/-- Concrete instantiation of every conjunct of claim C3: each entry point is
called with one of its required pointers null, and the full result (envelope,
zero engine calls, untouched out cells) is evaluated. -/
theorem claim_C3_witness :
    simple_lancedb_connect ⟨none, false, EngOut.ok 1⟩ 3 =
      ⟨SimpleResult.error "Invalid null arguments", 0, 3⟩ ∧
    simple_lancedb_connect_with_options
      ⟨some (CStr.valid "u"), none, false, Except.ok Json.null, EngOut.ok 1⟩ 3 =
      ⟨SimpleResult.error "Invalid null arguments", 0, 3⟩ ∧
    simple_lancedb_close ⟨true, false⟩ =
      ⟨SimpleResult.error "Invalid null handle", 0, ()⟩ ∧
    simple_lancedb_create_table
      ⟨true, some (CStr.valid "t"), some (CStr.valid "s"), Except.ok Json.null,
        Except.ok (), EngOut.ok ()⟩ =
      ⟨SimpleResult.error "Invalid null arguments", 0, ()⟩ ∧
    simple_lancedb_open_table ⟨false, none, false, EngOut.ok 1⟩ 3 =
      ⟨SimpleResult.error "Invalid null arguments", 0, 3⟩ ∧
    simple_lancedb_drop_table ⟨false, none, EngOut.ok ()⟩ =
      ⟨SimpleResult.error "Invalid null arguments", 0, ()⟩ ∧
    simple_lancedb_table_close ⟨true, false⟩ =
      ⟨SimpleResult.error "Invalid null handle", 0, ()⟩ ∧
    simple_lancedb_table_names ⟨false, true, false, EngOut.ok ["t"], true⟩
      ⟨some ["x"], 9⟩ =
      ⟨SimpleResult.error "Invalid null arguments", 0, ⟨some ["x"], 9⟩⟩ ∧
    simple_lancedb_table_add_json
      ⟨false, none, false, Except.ok Json.null, EngOut.ok ⟨[]⟩, EngOut.ok ()⟩ 5 =
      ⟨SimpleResult.error "Invalid null arguments", 0, 5⟩ ∧
    simple_lancedb_table_add_ipc ⟨false, true, 4, false, Except.ok [1], EngOut.ok ()⟩ 5 =
      ⟨SimpleResult.error "Invalid null arguments", 0, 5⟩ ∧
    simple_lancedb_table_delete ⟨false, none, false, EngOut.ok ()⟩ 5 =
      ⟨SimpleResult.error "Invalid null arguments", 0, 5⟩ ∧
    simple_lancedb_table_update
      ⟨true, some (CStr.valid "p"), some (CStr.valid "u"), Except.ok [], EngOut.ok ()⟩ =
      ⟨SimpleResult.error "Invalid null arguments", 0, ()⟩ ∧
    simple_lancedb_table_select_query
      ⟨false, none, false, Except.ok Json.null, EngOut.ok []⟩ (Json.str "old") =
      ⟨SimpleResult.error "Invalid null arguments", 0, Json.str "old"⟩ ∧
    simple_lancedb_table_create_index
      ⟨false, none, some (CStr.valid "btree"), none, true, Except.ok [], EngOut.ok ()⟩ =
      ⟨SimpleResult.error "Invalid null arguments", 0, ()⟩ ∧
    simple_lancedb_table_get_indexes ⟨false, true, EngOut.ok []⟩ (Json.str "old") =
      ⟨SimpleResult.error "Invalid null arguments", 0, Json.str "old"⟩ ∧
    simple_lancedb_table_index_stats ⟨false, none, false, EngOut.ok none⟩
      (Json.str "old") =
      ⟨SimpleResult.error "Invalid null arguments", 0, Json.str "old"⟩ ∧
    simple_lancedb_table_count_rows ⟨false, true, EngOut.ok 2⟩ 5 =
      ⟨SimpleResult.error "Invalid null arguments", 0, 5⟩ ∧
    simple_lancedb_table_version ⟨false, true, EngOut.ok 2⟩ 5 =
      ⟨SimpleResult.error "Invalid null arguments", 0, 5⟩ ∧
    simple_lancedb_table_schema ⟨false, true, EngOut.ok ⟨[]⟩⟩ (Json.str "old") =
      ⟨SimpleResult.error "Invalid null arguments", 0, Json.str "old"⟩ ∧
    simple_lancedb_table_schema_ipc
      ⟨false, true, false, EngOut.ok ⟨[]⟩, fun _ => Except.ok [], true⟩ ⟨none, 0⟩ =
      ⟨SimpleResult.error "Invalid null arguments", 0, ⟨none, 0⟩⟩ ∧
    simple_lancedb_table_optimize ⟨false, true, EngOut.ok Json.null⟩ (Json.str "old") =
      ⟨SimpleResult.error "Invalid null arguments", 0, Json.str "old"⟩ := by
  obtain ⟨h1, h2, h3, h4, h5, h6, h7, h8, h9, h10, h11, h12, h13, h14, h15, h16, h17,
    h18, h19, h20, h21⟩ := claim_C3
  exact ⟨h1 _ 3 (Or.inl rfl), h2 _ 3 (Or.inr (Or.inl rfl)), h3 _ rfl,
    h4 _ (Or.inl rfl), h5 _ 3 (Or.inr (Or.inl rfl)), h6 _ (Or.inr rfl), h7 _ rfl,
    h8 _ _ (Or.inr (Or.inl rfl)), h9 _ 5 (Or.inr (Or.inl rfl)),
    h10 _ 5 (Or.inr (Or.inl rfl)), h11 _ 5 (Or.inr (Or.inl rfl)),
    h12 _ (Or.inl rfl), h13 _ _ (Or.inr (Or.inl rfl)), h14 _ (Or.inr (Or.inl rfl)),
    h15 _ _ (Or.inr rfl), h16 _ _ (Or.inr (Or.inl rfl)), h17 _ 5 (Or.inr rfl),
    h18 _ 5 (Or.inr rfl), h19 _ _ (Or.inr rfl), h20 _ _ (Or.inr (Or.inl rfl)),
    h21 _ _ (Or.inr rfl)⟩

/-- A body with the frame property yields, through the barrier, a call that
either leaves the out cells untouched or succeeds. -/
theorem runOp_frame {σ : Type} (name : String) (pre : σ)
    (t : Except Unit SimpleResult × Nat × σ) (h : bodyFrame pre t) :
    (runOp name t).outs = pre ∨ (runOp name t).res.success = true := by
  obtain ⟨f, k, s⟩ := t
  rcases h with h | ⟨r, hr, hs⟩
  · left
    cases f <;> exact h
  · cases f with
    | ok r0 =>
        right
        injection hr with h2
        exact h2 ▸ hs
    | error u => exact Except.noConfusion hr

theorem connect_frame (env : ConnectEnv) (pre : Nat) :
    (simple_lancedb_connect env pre).outs = pre ∨
    (simple_lancedb_connect env pre).res.success = true :=
  runOp_frame _ pre _ (by
    unfold bodyFrame connect_body
    repeat' first
    | exact Or.inl rfl
    | exact Or.inr ⟨SimpleResult.ok, rfl, rfl⟩
    | split)

theorem connect_with_options_frame (env : ConnectOptsEnv) (pre : Nat) :
    (simple_lancedb_connect_with_options env pre).outs = pre ∨
    (simple_lancedb_connect_with_options env pre).res.success = true :=
  runOp_frame _ pre _ (by
    unfold bodyFrame connect_with_options_body
    repeat' first
    | exact Or.inl rfl
    | exact Or.inr ⟨SimpleResult.ok, rfl, rfl⟩
    | split)

theorem open_table_frame (env : OpenTableEnv) (pre : Nat) :
    (simple_lancedb_open_table env pre).outs = pre ∨
    (simple_lancedb_open_table env pre).res.success = true :=
  runOp_frame _ pre _ (by
    unfold bodyFrame open_table_body
    repeat' first
    | exact Or.inl rfl
    | exact Or.inr ⟨SimpleResult.ok, rfl, rfl⟩
    | split)

theorem add_json_frame (env : AddJsonEnv) (pre : Int) :
    (simple_lancedb_table_add_json env pre).outs = pre ∨
    (simple_lancedb_table_add_json env pre).res.success = true :=
  runOp_frame _ pre _ (by
    unfold bodyFrame add_json_body
    repeat' first
    | exact Or.inl rfl
    | exact Or.inr ⟨SimpleResult.ok, rfl, rfl⟩
    | split
    | dsimp only)

theorem add_ipc_frame (env : AddIpcEnv) (pre : Int) :
    (simple_lancedb_table_add_ipc env pre).outs = pre ∨
    (simple_lancedb_table_add_ipc env pre).res.success = true :=
  runOp_frame _ pre _ (by
    unfold bodyFrame add_ipc_body
    repeat' first
    | exact Or.inl rfl
    | exact Or.inr ⟨SimpleResult.ok, rfl, rfl⟩
    | split)

theorem delete_frame (env : DeleteEnv) (pre : Int) :
    (simple_lancedb_table_delete env pre).outs = pre ∨
    (simple_lancedb_table_delete env pre).res.success = true :=
  runOp_frame _ pre _ (by
    unfold bodyFrame delete_body
    repeat' first
    | exact Or.inl rfl
    | exact Or.inr ⟨SimpleResult.ok, rfl, rfl⟩
    | split)

theorem select_query_frame (env : SelectQueryEnv) (pre : Json) :
    (simple_lancedb_table_select_query env pre).outs = pre ∨
    (simple_lancedb_table_select_query env pre).res.success = true :=
  runOp_frame _ pre _ (by
    unfold bodyFrame select_query_body
    repeat' first
    | exact Or.inl rfl
    | exact Or.inr ⟨SimpleResult.ok, rfl, rfl⟩
    | split)

theorem get_indexes_frame (env : GetIndexesEnv) (pre : Json) :
    (simple_lancedb_table_get_indexes env pre).outs = pre ∨
    (simple_lancedb_table_get_indexes env pre).res.success = true :=
  runOp_frame _ pre _ (by
    unfold bodyFrame get_indexes_body
    repeat' first
    | exact Or.inl rfl
    | exact Or.inr ⟨SimpleResult.ok, rfl, rfl⟩
    | split)

theorem index_stats_frame (env : IndexStatsEnv) (pre : Json) :
    (simple_lancedb_table_index_stats env pre).outs = pre ∨
    (simple_lancedb_table_index_stats env pre).res.success = true :=
  runOp_frame _ pre _ (by
    unfold bodyFrame index_stats_body
    repeat' first
    | exact Or.inl rfl
    | exact Or.inr ⟨SimpleResult.ok, rfl, rfl⟩
    | split)

theorem count_rows_frame (env : CountRowsEnv) (pre : Int) :
    (simple_lancedb_table_count_rows env pre).outs = pre ∨
    (simple_lancedb_table_count_rows env pre).res.success = true :=
  runOp_frame _ pre _ (by
    unfold bodyFrame count_rows_body
    repeat' first
    | exact Or.inl rfl
    | exact Or.inr ⟨SimpleResult.ok, rfl, rfl⟩
    | split)

theorem version_frame (env : VersionEnv) (pre : Int) :
    (simple_lancedb_table_version env pre).outs = pre ∨
    (simple_lancedb_table_version env pre).res.success = true :=
  runOp_frame _ pre _ (by
    unfold bodyFrame version_body
    repeat' first
    | exact Or.inl rfl
    | exact Or.inr ⟨SimpleResult.ok, rfl, rfl⟩
    | split)

theorem schema_frame (env : SchemaEnv) (pre : Json) :
    (simple_lancedb_table_schema env pre).outs = pre ∨
    (simple_lancedb_table_schema env pre).res.success = true :=
  runOp_frame _ pre _ (by
    unfold bodyFrame schema_body
    repeat' first
    | exact Or.inl rfl
    | exact Or.inr ⟨SimpleResult.ok, rfl, rfl⟩
    | split)

theorem schema_ipc_frame (env : SchemaIpcEnv) (pre : SchemaIpcOuts) :
    (simple_lancedb_table_schema_ipc env pre).outs = pre ∨
    (simple_lancedb_table_schema_ipc env pre).res.success = true :=
  runOp_frame _ pre _ (by
    unfold bodyFrame schema_ipc_body
    repeat' first
    | exact Or.inl rfl
    | exact Or.inr ⟨SimpleResult.ok, rfl, rfl⟩
    | split)

theorem optimize_frame (env : OptimizeEnv) (pre : Json) :
    (simple_lancedb_table_optimize env pre).outs = pre ∨
    (simple_lancedb_table_optimize env pre).res.success = true :=
  runOp_frame _ pre _ (by
    unfold bodyFrame optimize_body
    repeat' first
    | exact Or.inl rfl
    | exact Or.inr ⟨SimpleResult.ok, rfl, rfl⟩
    | split)

/-- The table_names contract on failure, refuted on one input: with a live
handle, non-null out pointers, an engine that returns one table name, and a
failing allocation, the call fails yet the count cell has been overwritten
(database.rs writes *count before the allocation can fail). -/
theorem claim_C6_counterexample :
    (simple_lancedb_table_names ⟨false, false, false, EngOut.ok ["t"], false⟩
      ⟨none, 0⟩).res.success = false ∧
    (simple_lancedb_table_names ⟨false, false, false, EngOut.ok ["t"], false⟩
      ⟨none, 0⟩).outs ≠ (⟨none, 0⟩ : NamesOuts) :=
  ⟨rfl, by decide⟩

/-- Claim C6 (amended): for every entry point with out cells other than
table_names, a failed call (success = false) leaves every out cell at its
pre-call value; hypotheses name the failing call.  For table_names the frame
only holds on the null gate and on engine failure (first table_names
conjunct); on the allocation-failure path the count cell has already been
overwritten with the number of names, which the last conjunct pins exactly
(names cell untouched, count cell rewritten, error envelope). -/
theorem claim_C6 :
    (∀ env pre, (simple_lancedb_connect env pre).res.success = false →
      (simple_lancedb_connect env pre).outs = pre) ∧
    (∀ env pre, (simple_lancedb_connect_with_options env pre).res.success = false →
      (simple_lancedb_connect_with_options env pre).outs = pre) ∧
    (∀ env pre, (simple_lancedb_open_table env pre).res.success = false →
      (simple_lancedb_open_table env pre).outs = pre) ∧
    (∀ env pre, (simple_lancedb_table_add_json env pre).res.success = false →
      (simple_lancedb_table_add_json env pre).outs = pre) ∧
    (∀ env pre, (simple_lancedb_table_add_ipc env pre).res.success = false →
      (simple_lancedb_table_add_ipc env pre).outs = pre) ∧
    (∀ env pre, (simple_lancedb_table_delete env pre).res.success = false →
      (simple_lancedb_table_delete env pre).outs = pre) ∧
    (∀ env pre, (simple_lancedb_table_select_query env pre).res.success = false →
      (simple_lancedb_table_select_query env pre).outs = pre) ∧
    (∀ env pre, (simple_lancedb_table_get_indexes env pre).res.success = false →
      (simple_lancedb_table_get_indexes env pre).outs = pre) ∧
    (∀ env pre, (simple_lancedb_table_index_stats env pre).res.success = false →
      (simple_lancedb_table_index_stats env pre).outs = pre) ∧
    (∀ env pre, (simple_lancedb_table_count_rows env pre).res.success = false →
      (simple_lancedb_table_count_rows env pre).outs = pre) ∧
    (∀ env pre, (simple_lancedb_table_version env pre).res.success = false →
      (simple_lancedb_table_version env pre).outs = pre) ∧
    (∀ env pre, (simple_lancedb_table_schema env pre).res.success = false →
      (simple_lancedb_table_schema env pre).outs = pre) ∧
    (∀ env pre, (simple_lancedb_table_schema_ipc env pre).res.success = false →
      (simple_lancedb_table_schema_ipc env pre).outs = pre) ∧
    (∀ env pre, (simple_lancedb_table_optimize env pre).res.success = false →
      (simple_lancedb_table_optimize env pre).outs = pre) ∧
    (∀ env pre, (env.handleNull = true ∨ env.namesNull = true ∨ env.countNull = true ∨
        ∃ e, env.engine = EngOut.err e) →
      (simple_lancedb_table_names env pre).outs = pre) ∧
    (∀ env pre tnames, env.handleNull = false → env.namesNull = false →
      env.countNull = false → env.engine = EngOut.ok tnames → tnames ≠ [] →
      env.allocOk = false →
      simple_lancedb_table_names env pre =
        ⟨SimpleResult.error "Failed to allocate memory", 1,
          ⟨pre.names, c_int_of_usize tnames.length⟩⟩) := by
  refine ⟨?_, ?_, ?_, ?_, ?_, ?_, ?_, ?_, ?_, ?_, ?_, ?_, ?_, ?_, ?_, ?_⟩
  · exact fun env pre h => (connect_frame env pre).elim id
      (fun ht => absurd ht (by rw [h]; exact Bool.false_ne_true))
  · exact fun env pre h => (connect_with_options_frame env pre).elim id
      (fun ht => absurd ht (by rw [h]; exact Bool.false_ne_true))
  · exact fun env pre h => (open_table_frame env pre).elim id
      (fun ht => absurd ht (by rw [h]; exact Bool.false_ne_true))
  · exact fun env pre h => (add_json_frame env pre).elim id
      (fun ht => absurd ht (by rw [h]; exact Bool.false_ne_true))
  · exact fun env pre h => (add_ipc_frame env pre).elim id
      (fun ht => absurd ht (by rw [h]; exact Bool.false_ne_true))
  · exact fun env pre h => (delete_frame env pre).elim id
      (fun ht => absurd ht (by rw [h]; exact Bool.false_ne_true))
  · exact fun env pre h => (select_query_frame env pre).elim id
      (fun ht => absurd ht (by rw [h]; exact Bool.false_ne_true))
  · exact fun env pre h => (get_indexes_frame env pre).elim id
      (fun ht => absurd ht (by rw [h]; exact Bool.false_ne_true))
  · exact fun env pre h => (index_stats_frame env pre).elim id
      (fun ht => absurd ht (by rw [h]; exact Bool.false_ne_true))
  · exact fun env pre h => (count_rows_frame env pre).elim id
      (fun ht => absurd ht (by rw [h]; exact Bool.false_ne_true))
  · exact fun env pre h => (version_frame env pre).elim id
      (fun ht => absurd ht (by rw [h]; exact Bool.false_ne_true))
  · exact fun env pre h => (schema_frame env pre).elim id
      (fun ht => absurd ht (by rw [h]; exact Bool.false_ne_true))
  · exact fun env pre h => (schema_ipc_frame env pre).elim id
      (fun ht => absurd ht (by rw [h]; exact Bool.false_ne_true))
  · exact fun env pre h => (optimize_frame env pre).elim id
      (fun ht => absurd ht (by rw [h]; exact Bool.false_ne_true))
  · intro env pre h
    rcases h with h | h | h | ⟨e, he⟩
    · have hc : (env.handleNull || env.namesNull || env.countNull) = true := by simp [h]
      show (runOp "simple_lancedb_table_names" (table_names_body env pre)).outs = pre
      unfold table_names_body
      rw [if_pos hc]
      rfl
    · have hc : (env.handleNull || env.namesNull || env.countNull) = true := by simp [h]
      show (runOp "simple_lancedb_table_names" (table_names_body env pre)).outs = pre
      unfold table_names_body
      rw [if_pos hc]
      rfl
    · have hc : (env.handleNull || env.namesNull || env.countNull) = true := by simp [h]
      show (runOp "simple_lancedb_table_names" (table_names_body env pre)).outs = pre
      unfold table_names_body
      rw [if_pos hc]
      rfl
    · by_cases hc : (env.handleNull || env.namesNull || env.countNull) = true
      · show (runOp "simple_lancedb_table_names" (table_names_body env pre)).outs = pre
        unfold table_names_body
        rw [if_pos hc]
        rfl
      · show (runOp "simple_lancedb_table_names" (table_names_body env pre)).outs = pre
        unfold table_names_body
        rw [if_neg hc, he]
        rfl
  · intro env pre tnames h1 h2 h3 h4 h5 h6
    have hc : ¬((env.handleNull || env.namesNull || env.countNull) = true) := by
      rw [h1, h2, h3]
      exact fun hf => Bool.noConfusion hf
    show runOp "simple_lancedb_table_names" (table_names_body env pre) = _
    unfold table_names_body
    rw [if_neg hc, h4]
    show runOp "simple_lancedb_table_names"
      (if tnames.length = 0 then
        (Except.ok SimpleResult.ok, 1,
          (⟨none, c_int_of_usize tnames.length⟩ : NamesOuts))
       else if env.allocOk = false then
        (Except.ok (SimpleResult.error "Failed to allocate memory"), 1,
          (⟨pre.names, c_int_of_usize tnames.length⟩ : NamesOuts))
       else if tnames.any hasInteriorNul then
        (Except.error (), 1, (⟨pre.names, c_int_of_usize tnames.length⟩ : NamesOuts))
       else
        (Except.ok SimpleResult.ok, 1,
          (⟨some tnames, c_int_of_usize tnames.length⟩ : NamesOuts))) = _
    rw [if_neg (fun hf : tnames.length = 0 => h5 (List.length_eq_zero.mp hf)),
      if_pos h6]
    rfl

/-- Concrete instantiation of every conjunct of claim C6: each out-bearing
entry point is run on a failing input (engine error, decode error, or null
gate) and the out cells are checked against their pre-call values; the last
two parts exercise the two table_names conjuncts. -/
theorem claim_C6_witness :
    (simple_lancedb_connect ⟨some (CStr.valid "u"), false, EngOut.err "b"⟩ 4).outs = 4 ∧
    (simple_lancedb_connect_with_options
      ⟨some (CStr.valid "u"), some (CStr.valid "o"), false, Except.error "bad",
        EngOut.ok 1⟩ 4).outs = 4 ∧
    (simple_lancedb_open_table
      ⟨false, some (CStr.valid "t"), false, EngOut.err "b"⟩ 4).outs = 4 ∧
    (simple_lancedb_table_add_json
      ⟨false, some (CStr.valid "x"), false, Except.error "syntax", EngOut.ok ⟨[]⟩,
        EngOut.ok ()⟩ 5).outs = 5 ∧
    (simple_lancedb_table_add_ipc
      ⟨false, false, 4, false, Except.error "bad", EngOut.ok ()⟩ 5).outs = 5 ∧
    (simple_lancedb_table_delete
      ⟨false, some CStr.invalid, false, EngOut.ok ()⟩ 5).outs = 5 ∧
    (simple_lancedb_table_select_query
      ⟨false, some (CStr.valid "q"), false, Except.ok Json.null, EngOut.err "b"⟩
      (Json.str "old")).outs = Json.str "old" ∧
    (simple_lancedb_table_get_indexes
      ⟨false, false, EngOut.err "b"⟩ (Json.str "old")).outs = Json.str "old" ∧
    (simple_lancedb_table_index_stats
      ⟨false, some (CStr.valid "i"), false, EngOut.err "b"⟩
      (Json.str "old")).outs = Json.str "old" ∧
    (simple_lancedb_table_count_rows ⟨false, false, EngOut.err "b"⟩ 5).outs = 5 ∧
    (simple_lancedb_table_version ⟨false, false, EngOut.err "b"⟩ 5).outs = 5 ∧
    (simple_lancedb_table_schema
      ⟨false, false, EngOut.err "b"⟩ (Json.str "old")).outs = Json.str "old" ∧
    (simple_lancedb_table_schema_ipc
      ⟨false, false, false, EngOut.ok ⟨[]⟩, fun _ => Except.error "bad", true⟩
      ⟨some [9], 3⟩).outs = ⟨some [9], 3⟩ ∧
    (simple_lancedb_table_optimize
      ⟨false, false, EngOut.err "b"⟩ (Json.str "old")).outs = Json.str "old" ∧
    (simple_lancedb_table_names ⟨false, false, false, EngOut.err "b", true⟩
      ⟨some ["x"], 9⟩).outs = ⟨some ["x"], 9⟩ ∧
    simple_lancedb_table_names ⟨false, false, false, EngOut.ok ["t"], false⟩
      ⟨some ["x"], 9⟩ =
      ⟨SimpleResult.error "Failed to allocate memory", 1, ⟨some ["x"], 1⟩⟩ := by
  obtain ⟨h1, h2, h3, h4, h5, h6, h7, h8, h9, h10, h11, h12, h13, h14, h15, h16⟩ :=
    claim_C6
  refine ⟨h1 _ 4 rfl, h2 _ 4 rfl, h3 _ 4 rfl, h4 _ 5 rfl, h5 _ 5 rfl, h6 _ 5 rfl,
    h7 _ _ rfl, h8 _ _ rfl, h9 _ _ rfl, h10 _ 5 rfl, h11 _ 5 rfl, h12 _ _ rfl,
    h13 _ _ rfl, h14 _ _ rfl,
    h15 _ _ (Or.inr (Or.inr (Or.inr ⟨"b", rfl⟩))), ?_⟩
  have := h16 ⟨false, false, false, EngOut.ok ["t"], false⟩ ⟨some ["x"], 9⟩ ["t"]
    rfl rfl rfl rfl (by decide) rfl
  exact this

/-- Claim C10: the two undocumented input shapes of
simple_lancedb_table_add_json (data.rs lines 152-165).  First conjunct: an
empty JSON array (with live pointers and parseable text) yields a success
envelope with the count cell set to 0 and zero engine calls: not even the
schema fetch runs, whatever the engine outcomes would have been.  Second
conjunct: a parsed document that is not an array is treated exactly as the
one-element array wrapping it, every other input unchanged. -/
theorem claim_C10 :
    (∀ s se ae pre, simple_lancedb_table_add_json
      ⟨false, some (CStr.valid s), false, Except.ok (Json.arr []), se, ae⟩ pre =
      ⟨SimpleResult.ok, 0, 0⟩) ∧
    (∀ tn jd cn se ae pre v, (∀ xs, v ≠ Json.arr xs) →
      simple_lancedb_table_add_json ⟨tn, jd, cn, Except.ok v, se, ae⟩ pre =
      simple_lancedb_table_add_json ⟨tn, jd, cn, Except.ok (Json.arr [v]), se, ae⟩ pre) := by
  refine ⟨?_, ?_⟩
  · intro s se ae pre
    rfl
  · intro tn jd cn se ae pre v hne
    cases v
    case arr xs => exact absurd rfl (hne xs)
    all_goals rfl

/-- Concrete instantiation of both conjuncts of claim C10: the empty array
succeeds with count 0 and no engine call even though both engine outcomes are
set to panic, and a bare (non-array) object behaves exactly like its
one-element wrapping. -/
theorem claim_C10_witness :
    simple_lancedb_table_add_json
      ⟨false, some (CStr.valid "[]"), false, Except.ok (Json.arr []), EngOut.fault,
        EngOut.fault⟩ 5 = ⟨SimpleResult.ok, 0, 0⟩ ∧
    simple_lancedb_table_add_json
      ⟨false, some (CStr.valid "j"), false,
        Except.ok (Json.obj [("a", Json.num (JsonNumber.int 1))]), EngOut.err "x",
        EngOut.ok ()⟩ 5 =
    simple_lancedb_table_add_json
      ⟨false, some (CStr.valid "j"), false,
        Except.ok (Json.arr [Json.obj [("a", Json.num (JsonNumber.int 1))]]),
        EngOut.err "x", EngOut.ok ()⟩ 5 :=
  ⟨claim_C10.1 "[]" EngOut.fault EngOut.fault 5,
   claim_C10.2 false (some (CStr.valid "j")) false (EngOut.err "x") (EngOut.ok ()) 5
     (Json.obj [("a", Json.num (JsonNumber.int 1))])
     (fun _ h => Json.noConfusion h)⟩

end LanceDB

